import Mathlib

/-! OpenAPI to attribute mapping: Int32 attributes, integer and number builders.

A shallow embedding of

* `internal/mapper/attrmapper/int32.go` (merge and override of Int32 attributes),
* `internal/mapper/frameworkvalidators/int32validator.go` and `mapvalidator.go` (validator
  descriptors),
* `internal/mapper/oas/integer.go` and `internal/mapper/oas/number.go` (the builders),
* `internal/mapper/oas/element_type.go` (the dispatch on the schema type),
* `internal/mapper/provider_mapper.go` (the provider IR),

followed by the properties established about them.

Go pointers that may be nil are `Option`s, slices are `List`s (a nil slice and an
empty slice are both `[]`), a Go interface value is an inductive type with one
constructor per implementing struct, and a method that mutates its receiver and
returns it is a function returning the updated value.
-/

set_option autoImplicit false

namespace Codegen

/-! ## The `schema`, `resource`, `datasource` and `provider` packages of the spec module -/

/-- Modelled from the spec: the declaration of `schema.ComputedOptionalRequired` lives in the
code generation spec module; the spec lists its values as Required, Optional,
ComputedOptional and Computed. -/
inductive ComputedOptionalRequired where
  | Computed
  | ComputedOptional
  | Optional
  | Required
  deriving DecidableEq, Repr

/-- Modelled from the spec: provider attributes use the binary `schema.OptionalRequired`. -/
inductive OptionalRequired where
  | Optional
  | Required
  deriving DecidableEq, Repr

/-- A Go `error` value, kept as its message; `none` is the nil error. -/
abbrev GoError := String

/-- The `code.Import` struct as the validators use it: an import path. -/
structure Import where
  Path : String
  deriving DecidableEq, Repr

/-- The `schema.CustomValidator` struct: declared imports and the rendered expression. -/
structure CustomValidator where
  Imports : List Import
  SchemaDefinition : String
  deriving DecidableEq, Repr

/-- The `schema.Int32Validator` struct; `Custom` is a pointer. -/
structure Int32Validator where
  Custom : Option CustomValidator
  deriving DecidableEq, Repr

/-- The `schema.Float64Validator` struct; `Custom` is a pointer. -/
structure Float64Validator where
  Custom : Option CustomValidator
  deriving DecidableEq, Repr

/-- The `schema.Int32Default` struct as `integer.go` fills it; `Static` is a `*int32`. -/
structure Int32Default where
  Static : Option Int
  deriving DecidableEq, Repr

/-- A `float64`: the finite values are rationals, the rest are the three special values. -/
inductive Float64 where
  | finite (q : ℚ)
  | nan
  | posInf
  | negInf
  deriving DecidableEq

/-- The `schema.Float64Default` struct as `number.go` fills it; `Static` is a `*float64`. -/
structure Float64Default where
  Static : Option Float64
  deriving DecidableEq

/-- Modelled from the spec: the struct `schema.NumberValidator` of the spec module, a
validator descriptor ("an ordered sequence of type-specific Validators"); `Custom` is a
pointer. -/
structure NumberValidator where
  Custom : Option CustomValidator
  deriving DecidableEq, Repr

/-- Modelled from the spec: the struct `schema.NumberDefault` of the spec module ("for scalar
kinds an optional Default"), kept as the custom descriptor it points to. -/
structure NumberDefault where
  Custom : Option CustomValidator
  deriving DecidableEq, Repr

/-- The `explorer.Override` struct: the replacement description. -/
structure Override where
  Description : String
  deriving DecidableEq, Repr

/-! ## Package `attrmapper` -/

/-- The struct `ResourceInt32Attribute`: the embedded `resource.Int32Attribute` and `Name`. -/
structure ResourceInt32Attribute where
  Name : String
  ComputedOptionalRequired : ComputedOptionalRequired
  Default : Option Int32Default := none
  DeprecationMessage : Option String := none
  Description : Option String := none
  Validators : List Int32Validator := []
  deriving DecidableEq, Repr

/-- The struct `ResourceFloat64Attribute`, built by `BuildNumberResource`. -/
structure ResourceFloat64Attribute where
  Name : String
  ComputedOptionalRequired : ComputedOptionalRequired
  Default : Option Float64Default := none
  DeprecationMessage : Option String := none
  Description : Option String := none
  Validators : List Float64Validator := []
  deriving DecidableEq

/-- The struct `ResourceNumberAttribute`, built by `BuildNumberResource`; `Default` and
`Validators` are the fields of the embedded `resource.NumberAttribute` that the builder
leaves at their zero value. -/
structure ResourceNumberAttribute where
  Name : String
  ComputedOptionalRequired : ComputedOptionalRequired
  Default : Option NumberDefault := none
  DeprecationMessage : Option String := none
  Description : Option String := none
  Validators : List NumberValidator := []
  deriving DecidableEq, Repr

/-- The struct `ResourceStringAttribute`, as the merge tests fill it. -/
structure ResourceStringAttribute where
  Name : String
  ComputedOptionalRequired : ComputedOptionalRequired
  Description : Option String := none
  deriving DecidableEq, Repr

/-- The interface `ResourceAttribute`: the dynamic type of the value it holds. -/
inductive ResourceAttribute where
  | Int32 (a : ResourceInt32Attribute)
  | Float64 (a : ResourceFloat64Attribute)
  | Number (a : ResourceNumberAttribute)
  | String (a : ResourceStringAttribute)
  deriving DecidableEq

/-- The type assertion `x.(*ResourceInt32Attribute)`; `none` is `ok == false`. -/
def ResourceAttribute.asInt32 : ResourceAttribute → Option ResourceInt32Attribute
  | .Int32 a => some a
  | _ => none

/-- The struct `DataSourceInt32Attribute`: the embedded `datasource.Int32Attribute` and `Name`. -/
structure DataSourceInt32Attribute where
  Name : String
  ComputedOptionalRequired : ComputedOptionalRequired
  DeprecationMessage : Option String := none
  Description : Option String := none
  Validators : List Int32Validator := []
  deriving DecidableEq, Repr

/-- The struct `DataSourceFloat64Attribute`, built by `BuildNumberDataSource`. -/
structure DataSourceFloat64Attribute where
  Name : String
  ComputedOptionalRequired : ComputedOptionalRequired
  DeprecationMessage : Option String := none
  Description : Option String := none
  Validators : List Float64Validator := []
  deriving DecidableEq, Repr

/-- The struct `DataSourceNumberAttribute`, built by `BuildNumberDataSource`; `Validators` is
the field of the embedded `datasource.NumberAttribute` that the builder leaves at its zero
value (data source attributes have no default). -/
structure DataSourceNumberAttribute where
  Name : String
  ComputedOptionalRequired : ComputedOptionalRequired
  DeprecationMessage : Option String := none
  Description : Option String := none
  Validators : List NumberValidator := []
  deriving DecidableEq, Repr

/-- The struct `DataSourceStringAttribute`, as the merge tests fill it. -/
structure DataSourceStringAttribute where
  Name : String
  ComputedOptionalRequired : ComputedOptionalRequired
  Description : Option String := none
  deriving DecidableEq, Repr

/-- The interface `DataSourceAttribute`: the dynamic type of the value it holds. -/
inductive DataSourceAttribute where
  | Int32 (a : DataSourceInt32Attribute)
  | Float64 (a : DataSourceFloat64Attribute)
  | Number (a : DataSourceNumberAttribute)
  | String (a : DataSourceStringAttribute)
  deriving DecidableEq

/-- The type assertion `x.(*DataSourceInt32Attribute)`; `none` is `ok == false`. -/
def DataSourceAttribute.asInt32 : DataSourceAttribute → Option DataSourceInt32Attribute
  | .Int32 a => some a
  | _ => none

/-- The condition `a.Description == nil || *a.Description == ""` of both `Merge` methods. -/
def descriptionMissing (d : Option String) : Bool :=
  match d with
  | none => true
  | some s => s == ""

/-- The method `(*ResourceInt32Attribute).Merge`. -/
def ResourceInt32Attribute.Merge (a : ResourceInt32Attribute) (mergeAttribute : ResourceAttribute) :
    ResourceAttribute × Option GoError :=
  match mergeAttribute.asInt32 with
  | some Int32Attribute =>
    if descriptionMissing a.Description then
      (.Int32 { a with Description := Int32Attribute.Description }, none)
    else
      (.Int32 a, none)
  | none => (.Int32 a, none)

/-- The method `(*ResourceInt32Attribute).ApplyOverride`. -/
def ResourceInt32Attribute.ApplyOverride (a : ResourceInt32Attribute) (override : Override) :
    ResourceAttribute × Option GoError :=
  (.Int32 { a with Description := some override.Description }, none)

/-- The method `(*DataSourceInt32Attribute).Merge`. -/
def DataSourceInt32Attribute.Merge (a : DataSourceInt32Attribute)
    (mergeAttribute : DataSourceAttribute) : DataSourceAttribute × Option GoError :=
  match mergeAttribute.asInt32 with
  | some Int32Attribute =>
    if descriptionMissing a.Description then
      (.Int32 { a with Description := Int32Attribute.Description }, none)
    else
      (.Int32 a, none)
  | none => (.Int32 a, none)

/-- The method `(*DataSourceInt32Attribute).ApplyOverride`. -/
def DataSourceInt32Attribute.ApplyOverride (a : DataSourceInt32Attribute) (override : Override) :
    DataSourceAttribute × Option GoError :=
  (.Int32 { a with Description := some override.Description }, none)

/-- Merging the incoming Int32 attributes into the target one after the other, each merge
applied to the Int32 attribute the previous merge returned. -/
def ResourceInt32Attribute.MergeAll (t : ResourceInt32Attribute) :
    List ResourceInt32Attribute → Option ResourceInt32Attribute
  | [] => some t
  | x :: xs =>
    match (t.Merge (.Int32 x)).1.asInt32 with
    | some t1 => ResourceInt32Attribute.MergeAll t1 xs
    | none => none

/-- Merging the incoming Int32 attributes into the target one after the other (data source). -/
def DataSourceInt32Attribute.MergeAll (t : DataSourceInt32Attribute) :
    List DataSourceInt32Attribute → Option DataSourceInt32Attribute
  | [] => some t
  | x :: xs =>
    match (t.Merge (.Int32 x)).1.asInt32 with
    | some t1 => DataSourceInt32Attribute.MergeAll t1 xs
    | none => none

/-- The first description, in list order, that is present and not the empty string. -/
def firstPopulated (ds : List (Option String)) : Option (Option String) :=
  ds.find? (fun d => !descriptionMissing d)

/-- The struct `ProviderInt32Attribute`: the embedded `provider.Int32Attribute` and `Name`. -/
structure ProviderInt32Attribute where
  Name : String
  OptionalRequired : OptionalRequired
  DeprecationMessage : Option String := none
  Description : Option String := none
  Validators : List Int32Validator := []
  deriving DecidableEq, Repr

/-- The struct `ProviderFloat64Attribute`, built by `BuildNumberProvider`. -/
structure ProviderFloat64Attribute where
  Name : String
  OptionalRequired : OptionalRequired
  DeprecationMessage : Option String := none
  Description : Option String := none
  Validators : List Float64Validator := []
  deriving DecidableEq, Repr

/-- The struct `ProviderNumberAttribute`, built by `BuildNumberProvider`; `Validators` is the
field of the embedded `provider.NumberAttribute` that the builder leaves at its zero value
(provider attributes have no default). -/
structure ProviderNumberAttribute where
  Name : String
  OptionalRequired : OptionalRequired
  DeprecationMessage : Option String := none
  Description : Option String := none
  Validators : List NumberValidator := []
  deriving DecidableEq, Repr

/-- The interface `ProviderAttribute`: the dynamic type of the value it holds. -/
inductive ProviderAttribute where
  | Int32 (a : ProviderInt32Attribute)
  | Float64 (a : ProviderFloat64Attribute)
  | Number (a : ProviderNumberAttribute)
  deriving DecidableEq

/-! ## Package `frameworkvalidators` -/

/-- The call `strconv.FormatInt(i, 10)`: base-10 digits, a leading minus sign for negatives. -/
def FormatInt (i : Int) : String :=
  if i < 0 then "-" ++ Nat.repr i.natAbs else Nat.repr i.natAbs

/-- Modelled from the spec: `CodeImport` is declared outside the files under study; the
validator tests fix the import path it gives for a package of the validators module. -/
def CodeImport (packageName : String) : Import :=
  { Path := "github.com/hashicorp/terraform-plugin-framework-validators/" ++ packageName }

/-- The constant `Int32ValidatorPackage`. -/
def Int32ValidatorPackage : String := "int32validator"

/-- The variable `Int32ValidatorCodeImport`. -/
def Int32ValidatorCodeImport : Import := CodeImport Int32ValidatorPackage

/-- The function `Int32ValidatorAtLeast`; the returned pointer is never nil. -/
def Int32ValidatorAtLeast (minimum : Int) : Option CustomValidator :=
  let schemaDefinition := ""
  let schemaDefinition := schemaDefinition ++ Int32ValidatorPackage
  let schemaDefinition := schemaDefinition ++ ".AtLeast("
  let schemaDefinition := schemaDefinition ++ FormatInt minimum
  let schemaDefinition := schemaDefinition ++ ")"
  some { Imports := [Int32ValidatorCodeImport], SchemaDefinition := schemaDefinition }

/-- The function `Int32ValidatorAtMost`; the returned pointer is never nil. -/
def Int32ValidatorAtMost (maximum : Int) : Option CustomValidator :=
  let schemaDefinition := ""
  let schemaDefinition := schemaDefinition ++ Int32ValidatorPackage
  let schemaDefinition := schemaDefinition ++ ".AtMost("
  let schemaDefinition := schemaDefinition ++ FormatInt maximum
  let schemaDefinition := schemaDefinition ++ ")"
  some { Imports := [Int32ValidatorCodeImport], SchemaDefinition := schemaDefinition }

/-- The function `Int32ValidatorBetween`; the returned pointer is never nil. -/
def Int32ValidatorBetween (minimum maximum : Int) : Option CustomValidator :=
  let schemaDefinition := ""
  let schemaDefinition := schemaDefinition ++ Int32ValidatorPackage
  let schemaDefinition := schemaDefinition ++ ".Between("
  let schemaDefinition := schemaDefinition ++ FormatInt minimum
  let schemaDefinition := schemaDefinition ++ ", "
  let schemaDefinition := schemaDefinition ++ FormatInt maximum
  let schemaDefinition := schemaDefinition ++ ")"
  some { Imports := [Int32ValidatorCodeImport], SchemaDefinition := schemaDefinition }

/-- The function `Int32ValidatorOneOf`; nil (`none`) for a nil or empty slice. -/
def Int32ValidatorOneOf (values : List Int) : Option CustomValidator :=
  if values.length = 0 then
    none
  else
    let schemaDefinition := ""
    let schemaDefinition := schemaDefinition ++ Int32ValidatorPackage
    let schemaDefinition := schemaDefinition ++ ".OneOf(\n"
    let schemaDefinition :=
      values.foldl (fun acc value => acc ++ (FormatInt value ++ ",\n")) schemaDefinition
    let schemaDefinition := schemaDefinition ++ ")"
    some { Imports := [Int32ValidatorCodeImport], SchemaDefinition := schemaDefinition }

/-! ## Package `oas` -/

/-- A `yaml.Node` as the schemas carry it for defaults and enum members. -/
structure YamlNode where
  Kind : Nat
  Value : String
  deriving DecidableEq, Repr

/-- The constant `yaml.ScalarNode`. -/
def ScalarNode : Nat := 8

/-- The fields of `base.Schema` that the integer and number builders and their tests use. -/
structure BaseSchema where
  Description : String := ""
  Deprecated : Option Bool := none
  Default : Option YamlNode := none
  Enum : List YamlNode := []
  Minimum : Option Float64 := none
  Maximum : Option Float64 := none
  deriving DecidableEq

/-- The struct `OASSchema`: the resolved type (the field `Type`) and format and the wrapped
schema node. -/
structure OASSchema where
  Type_ : String := ""
  Format : String := ""
  Schema : BaseSchema := {}
  deriving DecidableEq

/-- The kinds of `SchemaError`; `Type_` is the constant `Type` that `BuildElementType` passes. -/
inductive SchemaErrorType where
  | Type_
  | Other
  deriving DecidableEq, Repr

/-- The struct `SchemaError`: the wrapped error message and the kind of the error. -/
structure SchemaError where
  err : GoError
  errType : SchemaErrorType
  deriving DecidableEq, Repr

/-- The 32-bit signed range. -/
def isInt32 (i : Int) : Prop := -2147483648 ≤ i ∧ i ≤ 2147483647

instance (i : Int) : Decidable (isInt32 i) := by
  unfold isInt32; exact inferInstance

/-- What the builders call and this development does not define: the YAML decoder of
`yaml.Node.Decode` at the targets `int32` and `float64` (`none` is a decode error), the
accessors `GetDescription` and `GetDeprecationMessage` of `OASSchema`, the function
`Float64ValidatorOneOf`, and the result of the conversion `int32(f)` where Go leaves it to
the implementation (the truncation of `f` is not a 32-bit value). -/
structure Env where
  decodeInt32 : YamlNode → Option Int
  decodeInt32_range : ∀ n v, decodeInt32 n = some v → isInt32 v
  decodeFloat64 : YamlNode → Option Float64
  GetDescription : OASSchema → Option String
  GetDeprecationMessage : OASSchema → Option String
  Float64ValidatorOneOf : List Float64 → Option CustomValidator
  int32OutOfRange : Float64 → Int
  int32OutOfRange_range : ∀ f, isInt32 (int32OutOfRange f)

/-- The fraction of a rational discarded, truncating toward zero. -/
def truncate (q : ℚ) : Int := Int.tdiv q.num q.den

/-- The conversion `int32(f)` of a `float64`: truncation toward zero when that is a 32-bit
value, and the implementation's choice otherwise. -/
def int32OfFloat64 (env : Env) (f : Float64) : Int :=
  match f with
  | .finite q => if isInt32 (truncate q) then truncate q else env.int32OutOfRange f
  | _ => env.int32OutOfRange f

/-- Modelled from the spec: the constant `util.OAS_format_double` ("format is float/double"). -/
def OAS_format_double : String := "double"

/-- Modelled from the spec: the constant `util.OAS_format_float` ("format is float/double"). -/
def OAS_format_float : String := "float"

/-- The enum loop of `GetIntegerValidators`: members that fail to decode are skipped. -/
def decodeEnumInt32 (env : Env) (nodes : List YamlNode) : List Int :=
  nodes.foldl
    (fun enum valueNode =>
      match env.decodeInt32 valueNode with
      | none => enum
      | some value => enum ++ [value])
    []

/-- The method `(*OASSchema).GetIntegerValidators`. -/
def OASSchema.GetIntegerValidators (s : OASSchema) (env : Env) : List Int32Validator :=
  let result : List Int32Validator := []
  let result :=
    if s.Schema.Enum.length > 0 then
      let enum := decodeEnumInt32 env s.Schema.Enum
      match Int32ValidatorOneOf enum with
      | some customValidator => result ++ [{ Custom := some customValidator }]
      | none => result
    else result
  let minimum := s.Schema.Minimum
  let maximum := s.Schema.Maximum
  match minimum, maximum with
  | some mn, some mx =>
    result ++ [{ Custom := Int32ValidatorBetween (int32OfFloat64 env mn) (int32OfFloat64 env mx) }]
  | some mn, none => result ++ [{ Custom := Int32ValidatorAtLeast (int32OfFloat64 env mn) }]
  | none, some mx => result ++ [{ Custom := Int32ValidatorAtMost (int32OfFloat64 env mx) }]
  | none, none => result

/-- The enum loop of `GetFloatValidators`: members that fail to decode are skipped. -/
def decodeEnumFloat64 (env : Env) (nodes : List YamlNode) : List Float64 :=
  nodes.foldl
    (fun enum valueNode =>
      match env.decodeFloat64 valueNode with
      | none => enum
      | some value => enum ++ [value])
    []

/-- The method `(*OASSchema).GetFloatValidators`. -/
def OASSchema.GetFloatValidators (s : OASSchema) (env : Env) : List Float64Validator :=
  let result : List Float64Validator := []
  if s.Schema.Enum.length > 0 then
    let enum := decodeEnumFloat64 env s.Schema.Enum
    match env.Float64ValidatorOneOf enum with
    | some customValidator => result ++ [{ Custom := some customValidator }]
    | none => result
  else result

/-- The method `(*OASSchema).BuildIntegerResource`. -/
def OASSchema.BuildIntegerResource (s : OASSchema) (env : Env) (name : String)
    (computability : ComputedOptionalRequired) : ResourceAttribute × Option SchemaError :=
  let result : ResourceInt32Attribute :=
    { Name := name
      ComputedOptionalRequired := computability
      DeprecationMessage := env.GetDeprecationMessage s
      Description := env.GetDescription s }
  let result :=
    match s.Schema.Default with
    | some node =>
      match env.decodeInt32 node with
      | some staticDefault =>
        let result :=
          if computability = .Required then
            { result with ComputedOptionalRequired := .ComputedOptional }
          else result
        { result with Default := some { Static := some staticDefault } }
      | none => result
    | none => result
  let result :=
    if computability ≠ .Computed then
      { result with Validators := s.GetIntegerValidators env }
    else result
  (.Int32 result, none)

/-- The method `(*OASSchema).BuildIntegerDataSource`. -/
def OASSchema.BuildIntegerDataSource (s : OASSchema) (env : Env) (name : String)
    (computability : ComputedOptionalRequired) : DataSourceAttribute × Option SchemaError :=
  let result : DataSourceInt32Attribute :=
    { Name := name
      ComputedOptionalRequired := computability
      DeprecationMessage := env.GetDeprecationMessage s
      Description := env.GetDescription s }
  let result :=
    if computability ≠ .Computed then
      { result with Validators := s.GetIntegerValidators env }
    else result
  (.Int32 result, none)

/-- The method `(*OASSchema).BuildIntegerProvider`. -/
def OASSchema.BuildIntegerProvider (s : OASSchema) (env : Env) (name : String)
    (optionalOrRequired : OptionalRequired) : ProviderAttribute × Option SchemaError :=
  let result : ProviderInt32Attribute :=
    { Name := name
      OptionalRequired := optionalOrRequired
      DeprecationMessage := env.GetDeprecationMessage s
      Description := env.GetDescription s
      Validators := s.GetIntegerValidators env }
  (.Int32 result, none)

/-- The method `(*OASSchema).BuildNumberResource`. -/
def OASSchema.BuildNumberResource (s : OASSchema) (env : Env) (name : String)
    (computability : ComputedOptionalRequired) : ResourceAttribute × Option SchemaError :=
  if s.Format = OAS_format_double ∨ s.Format = OAS_format_float then
    let result : ResourceFloat64Attribute :=
      { Name := name
        ComputedOptionalRequired := computability
        DeprecationMessage := env.GetDeprecationMessage s
        Description := env.GetDescription s }
    let result :=
      match s.Schema.Default with
      | some node =>
        match env.decodeFloat64 node with
        | some staticDefault =>
          let result :=
            if computability = .Required then
              { result with ComputedOptionalRequired := .ComputedOptional }
            else result
          { result with Default := some { Static := some staticDefault } }
        | none => result
      | none => result
    let result :=
      if computability ≠ .Computed then
        { result with Validators := s.GetFloatValidators env }
      else result
    (.Float64 result, none)
  else
    (.Number
      { Name := name
        ComputedOptionalRequired := computability
        DeprecationMessage := env.GetDeprecationMessage s
        Description := env.GetDescription s }, none)

/-- The method `(*OASSchema).BuildNumberDataSource`. -/
def OASSchema.BuildNumberDataSource (s : OASSchema) (env : Env) (name : String)
    (computability : ComputedOptionalRequired) : DataSourceAttribute × Option SchemaError :=
  if s.Format = OAS_format_double ∨ s.Format = OAS_format_float then
    let result : DataSourceFloat64Attribute :=
      { Name := name
        ComputedOptionalRequired := computability
        DeprecationMessage := env.GetDeprecationMessage s
        Description := env.GetDescription s }
    let result :=
      if computability ≠ .Computed then
        { result with Validators := s.GetFloatValidators env }
      else result
    (.Float64 result, none)
  else
    let result : DataSourceNumberAttribute :=
      { Name := name
        ComputedOptionalRequired := computability
        DeprecationMessage := env.GetDeprecationMessage s
        Description := env.GetDescription s }
    (.Number result, none)

/-- The method `(*OASSchema).BuildNumberProvider`. -/
def OASSchema.BuildNumberProvider (s : OASSchema) (env : Env) (name : String)
    (optionalOrRequired : OptionalRequired) : ProviderAttribute × Option SchemaError :=
  if s.Format = OAS_format_double ∨ s.Format = OAS_format_float then
    let result : ProviderFloat64Attribute :=
      { Name := name
        OptionalRequired := optionalOrRequired
        DeprecationMessage := env.GetDeprecationMessage s
        Description := env.GetDescription s
        Validators := s.GetFloatValidators env }
    (.Float64 result, none)
  else
    let result : ProviderNumberAttribute :=
      { Name := name
        OptionalRequired := optionalOrRequired
        DeprecationMessage := env.GetDeprecationMessage s
        Description := env.GetDescription s }
    (.Number result, none)

/-- The type assertion `x.(*ResourceFloat64Attribute)`; `none` is `ok == false`. -/
def ResourceAttribute.asFloat64 : ResourceAttribute → Option ResourceFloat64Attribute
  | .Float64 a => some a
  | _ => none

/-! ## A concrete environment, for evaluating the builders on examples -/

/-- The value of a decimal digit. -/
def digitValue (c : Char) : Option Nat :=
  if 48 ≤ c.toNat ∧ c.toNat ≤ 57 then some (c.toNat - 48) else none

/-- Reading a run of decimal digits, most significant first. -/
def parseDigits : List Char → Nat → Option Nat
  | [], acc => some acc
  | c :: cs, acc =>
    match digitValue c with
    | some d => parseDigits cs (acc * 10 + d)
    | none => none

/-- Reading a base-10 integer: an optional minus sign and at least one digit. -/
def parseDecimal (text : String) : Option Int :=
  match text.data with
  | [] => none
  | c :: cs =>
    if c = '-' then
      if cs = [] then none else (parseDigits cs 0).map (fun n => -(n : Int))
    else (parseDigits (c :: cs) 0).map (fun n => (n : Int))

/-- A decoder for the examples: base-10 scalars within the 32-bit range decode, all else
is a decode error. -/
def exampleDecodeInt32 (n : YamlNode) : Option Int :=
  match parseDecimal n.Value with
  | some v => if isInt32 v then some v else none
  | none => none

/-- A decoder for the examples: base-10 integer scalars decode to that finite value. -/
def exampleDecodeFloat64 (n : YamlNode) : Option Float64 :=
  (parseDecimal n.Value).map (fun v => Float64.finite v)

/-- A rendering of floats for the examples: integral values in base 10, other finite
values as numerator and denominator, the special values by name. -/
def exampleFormatFloat (f : Float64) : String :=
  match f with
  | .finite q => if q.den = 1 then FormatInt q.num else FormatInt q.num ++ "/" ++ Nat.repr q.den
  | .nan => "NaN"
  | .posInf => "+Inf"
  | .negInf => "-Inf"

/-- A float `OneOf` descriptor for the examples, shaped like `Int32ValidatorOneOf`: nil for
a nil or empty slice, one line per value otherwise. -/
def exampleFloat64ValidatorOneOf (values : List Float64) : Option CustomValidator :=
  if values.length = 0 then
    none
  else
    let schemaDefinition := "float64validator.OneOf(\n"
    let schemaDefinition :=
      values.foldl (fun acc value => acc ++ (exampleFormatFloat value ++ ",\n")) schemaDefinition
    let schemaDefinition := schemaDefinition ++ ")"
    some { Imports := [CodeImport "float64validator"], SchemaDefinition := schemaDefinition }

/-- The environment of the examples: descriptions and deprecation as the builder tests
show them, the decoders and the float descriptor above, and zero for conversions that Go
leaves to the implementation. -/
def exampleEnv : Env where
  decodeInt32 := exampleDecodeInt32
  decodeInt32_range := by
    intro n v h
    unfold exampleDecodeInt32 at h
    split at h
    · split at h
      · cases h; assumption
      · cases h
    · cases h
  decodeFloat64 := exampleDecodeFloat64
  GetDescription := fun s => if s.Schema.Description = "" then none else some s.Schema.Description
  GetDeprecationMessage := fun s =>
    match s.Schema.Deprecated with
    | some true => some "This attribute is deprecated."
    | _ => none
  Float64ValidatorOneOf := exampleFloat64ValidatorOneOf
  int32OutOfRange := fun _ => 0
  int32OutOfRange_range := fun _ => (by decide : isInt32 0)

/-! ## Example attributes, after the merge and override tests -/

/-- A Required resource attribute named `count` with no description. -/
def exampleResourceTarget : ResourceInt32Attribute :=
  { Name := "count", ComputedOptionalRequired := .Required }

/-- A ComputedOptional resource attribute named `count` described as "item count". -/
def exampleResourceIncoming : ResourceInt32Attribute :=
  { Name := "count", ComputedOptionalRequired := .ComputedOptional,
    Description := some "item count" }

/-- A Required resource attribute with a populated description. -/
def exampleResourceDescribed : ResourceInt32Attribute :=
  { Name := "Int32_attribute", ComputedOptionalRequired := .Required,
    Description := some "old Int32 description" }

/-- A Required resource attribute whose description is the empty string. -/
def exampleResourceEmpty : ResourceInt32Attribute :=
  { Name := "Int32_attribute", ComputedOptionalRequired := .Required, Description := some "" }

/-- A resource attribute of another kind, as in the mismatch test. -/
def exampleResourceString : ResourceStringAttribute :=
  { Name := "string_attribute", ComputedOptionalRequired := .Required,
    Description := some "string description" }

/-- A Required data source attribute named `count` with no description. -/
def exampleDataSourceTarget : DataSourceInt32Attribute :=
  { Name := "count", ComputedOptionalRequired := .Required }

/-- A ComputedOptional data source attribute named `count` described as "item count". -/
def exampleDataSourceIncoming : DataSourceInt32Attribute :=
  { Name := "count", ComputedOptionalRequired := .ComputedOptional,
    Description := some "item count" }

/-- A Required data source attribute with a populated description. -/
def exampleDataSourceDescribed : DataSourceInt32Attribute :=
  { Name := "Int32_attribute", ComputedOptionalRequired := .Required,
    Description := some "old Int32 description" }

/-- A Required data source attribute whose description is the empty string. -/
def exampleDataSourceEmpty : DataSourceInt32Attribute :=
  { Name := "Int32_attribute", ComputedOptionalRequired := .Required, Description := some "" }

/-- A data source attribute of another kind, as in the mismatch test. -/
def exampleDataSourceString : DataSourceStringAttribute :=
  { Name := "string_attribute", ComputedOptionalRequired := .Required,
    Description := some "string description" }

/-! ## Example schemas, after the builder tests -/

/-- An integer schema with default literal `123`. -/
def exampleSchemaDefault123 : OASSchema :=
  { Type_ := "integer", Schema := { Default := some { Kind := ScalarNode, Value := "123" } } }

/-- An integer schema with default literal `0`. -/
def exampleSchemaDefaultZero : OASSchema :=
  { Type_ := "integer", Schema := { Default := some { Kind := ScalarNode, Value := "0" } } }

/-- An integer schema whose default literal is beyond the 32-bit range, with a description,
an enum and a minimum. -/
def exampleSchemaDefaultTooLarge : OASSchema :=
  { Type_ := "integer",
    Schema :=
      { Description := "item count"
        Default := some { Kind := ScalarNode, Value := "2147483648" }
        Enum := [{ Kind := ScalarNode, Value := "1" }, { Kind := ScalarNode, Value := "2" }]
        Minimum := some (.finite 1) } }

/-- A number schema of format `double` with default literal `123`. -/
def exampleSchemaDoubleDefault123 : OASSchema :=
  { Type_ := "number", Format := "double",
    Schema := { Default := some { Kind := ScalarNode, Value := "123" } } }

/-- The schema with its default literal removed. -/
def OASSchema.withoutDefault (s : OASSchema) : OASSchema :=
  { s with Schema := { s.Schema with Default := none } }

/-! ## Element types (`element_type.go`, `BuildIntegerElementType`, `BuildNumberElementType`) -/

/-- The empty struct `schema.Int32Type`. -/
abbrev Int32Type := Unit

/-- The empty struct `schema.Int64Type`. -/
abbrev Int64Type := Unit

/-- The empty struct `schema.Float64Type`. -/
abbrev Float64Type := Unit

/-- The empty struct `schema.NumberType`. -/
abbrev NumberType := Unit

/-- Modelled from the spec: the struct `schema.ElementType` is declared in the code
generation spec module: one pointer per kind of element, nil (`none`) when that kind is not
the one chosen; the files under study populate `Int32`, `Float64` and `Number`, the tests
name `Int64`, and containers own a child element type. -/
structure ElementType where
  Object : Option (List (String × ElementType))
  Bool : Option Unit
  Float64 : Option Float64Type
  Int32 : Option Int32Type
  Int64 : Option Int64Type
  Number : Option NumberType
  String : Option Unit
  List : Option ElementType
  Map : Option ElementType
  Set : Option ElementType

/-- The composite literal `schema.ElementType{}`: every pointer nil. -/
def ElementType.empty : ElementType :=
  { Object := none, Bool := none, Float64 := none, Int32 := none, Int64 := none,
    Number := none, String := none, List := none, Map := none, Set := none }

/-- Modelled from the spec: the constant `util.OAS_type_string`. -/
def OAS_type_string : String := "string"

/-- Modelled from the spec: the constant `util.OAS_type_integer`. -/
def OAS_type_integer : String := "integer"

/-- Modelled from the spec: the constant `util.OAS_type_number`. -/
def OAS_type_number : String := "number"

/-- Modelled from the spec: the constant `util.OAS_type_boolean`. -/
def OAS_type_boolean : String := "boolean"

/-- Modelled from the spec: the constant `util.OAS_type_array`. -/
def OAS_type_array : String := "array"

/-- Modelled from the spec: the constant `util.OAS_type_object`. -/
def OAS_type_object : String := "object"

/-- Modelled from the spec: `SchemaErrorFromNode` is declared outside the files under study;
it wraps the error and the kind into a `SchemaError` (the position of the node is left
out). -/
def SchemaErrorFromNode (err : GoError) (_node : BaseSchema) (errType : SchemaErrorType) :
    SchemaError :=
  { err := err, errType := errType }

/-- The methods of `OASSchema` that `BuildElementType` dispatches to and that are declared
outside the files under study. -/
structure ElementBuilders where
  BuildStringElementType : OASSchema → ElementType × Option SchemaError
  BuildBoolElementType : OASSchema → ElementType × Option SchemaError
  BuildCollectionElementType : OASSchema → ElementType × Option SchemaError
  BuildMapElementType : OASSchema → ElementType × Option SchemaError
  BuildObjectElementType : OASSchema → ElementType × Option SchemaError
  IsMap : OASSchema → Bool

/-- The method `(*OASSchema).BuildIntegerElementType`. -/
def OASSchema.BuildIntegerElementType (_s : OASSchema) : ElementType × Option SchemaError :=
  ({ ElementType.empty with Int32 := some () }, none)

/-- The method `(*OASSchema).BuildNumberElementType`. -/
def OASSchema.BuildNumberElementType (s : OASSchema) : ElementType × Option SchemaError :=
  if s.Format = OAS_format_double ∨ s.Format = OAS_format_float then
    ({ ElementType.empty with Float64 := some () }, none)
  else
    ({ ElementType.empty with Number := some () }, none)

/-- The method `(*OASSchema).BuildElementType`: the `switch` on `s.Type`. -/
def OASSchema.BuildElementType (s : OASSchema) (b : ElementBuilders) :
    ElementType × Option SchemaError :=
  if s.Type_ = OAS_type_string then b.BuildStringElementType s
  else if s.Type_ = OAS_type_integer then s.BuildIntegerElementType
  else if s.Type_ = OAS_type_number then s.BuildNumberElementType
  else if s.Type_ = OAS_type_boolean then b.BuildBoolElementType s
  else if s.Type_ = OAS_type_array then b.BuildCollectionElementType s
  else if s.Type_ = OAS_type_object then
    if b.IsMap s then b.BuildMapElementType s else b.BuildObjectElementType s
  else
    (ElementType.empty, some (SchemaErrorFromNode ("invalid schema type \x27" ++ s.Type_ ++ "\x27") s.Schema
      SchemaErrorType.Type_))

/-- Element builders for the examples: every kind declared elsewhere gives its own variant. -/
def exampleElementBuilders : ElementBuilders where
  BuildStringElementType := fun _ => ({ ElementType.empty with String := some () }, none)
  BuildBoolElementType := fun _ => ({ ElementType.empty with Bool := some () }, none)
  BuildCollectionElementType := fun _ =>
    ({ ElementType.empty with List := some { ElementType.empty with String := some () } }, none)
  BuildMapElementType := fun _ =>
    ({ ElementType.empty with Map := some { ElementType.empty with String := some () } }, none)
  BuildObjectElementType := fun _ => ({ ElementType.empty with Object := some [] }, none)
  IsMap := fun _ => false

/-! ## Reading validators back: kinds by expression text, parts of `GetIntegerValidators` -/

/-- The Go call `strings.HasPrefix(text, start)`. -/
def textStartsWith (start text : String) : Bool :=
  start.data.isPrefixOf text.data

/-- The descriptor is a call of `OneOf` of the int32 validator package. -/
def Int32Validator.isOneOf (v : Int32Validator) : Bool :=
  match v.Custom with
  | some c => textStartsWith "int32validator.OneOf(" c.SchemaDefinition
  | none => false

/-- The descriptor is a call of `AtLeast` of the int32 validator package. -/
def Int32Validator.isAtLeast (v : Int32Validator) : Bool :=
  match v.Custom with
  | some c => textStartsWith "int32validator.AtLeast(" c.SchemaDefinition
  | none => false

/-- The descriptor is a call of `AtMost` of the int32 validator package. -/
def Int32Validator.isAtMost (v : Int32Validator) : Bool :=
  match v.Custom with
  | some c => textStartsWith "int32validator.AtMost(" c.SchemaDefinition
  | none => false

/-- The descriptor is a call of `Between` of the int32 validator package. -/
def Int32Validator.isBetween (v : Int32Validator) : Bool :=
  match v.Custom with
  | some c => textStartsWith "int32validator.Between(" c.SchemaDefinition
  | none => false

/-- The descriptor is a bounds validator: `AtLeast`, `AtMost` or `Between`. -/
def Int32Validator.isBounds (v : Int32Validator) : Bool :=
  v.isAtLeast || v.isAtMost || v.isBetween

/-- The descriptor is present, imports the int32 validator package alone, and has an
expression text that begins with the name of that package and not with `int64validator.`. -/
def Int32Validator.fromInt32Package (v : Int32Validator) : Bool :=
  match v.Custom with
  | some c =>
    decide (c.Imports =
      [{ Path := "github.com/hashicorp/terraform-plugin-framework-validators/int32validator" }])
      && textStartsWith "int32validator." c.SchemaDefinition
      && !textStartsWith "int64validator." c.SchemaDefinition
  | none => false

/-- The strings of a list written one after the other. -/
def concatAll : List String → String
  | [] => ""
  | x :: xs => x ++ concatAll xs

/-- The expression text of a `OneOf` call over the given values: one line per value. -/
def oneOfText (values : List Int) : String :=
  "int32validator.OneOf(\n" ++ concatAll (values.map (fun v => FormatInt v ++ ",\n")) ++ ")"

/-- What the enum block of `GetIntegerValidators` appends to the result. -/
def enumValidators (env : Env) (s : OASSchema) : List Int32Validator :=
  if s.Schema.Enum.length > 0 then
    match Int32ValidatorOneOf (decodeEnumInt32 env s.Schema.Enum) with
    | some customValidator => [{ Custom := some customValidator }]
    | none => []
  else []

/-- What the bounds block of `GetIntegerValidators` appends to the result. -/
def boundsValidators (env : Env) (s : OASSchema) : List Int32Validator :=
  match s.Schema.Minimum, s.Schema.Maximum with
  | some mn, some mx =>
    [{ Custom := Int32ValidatorBetween (int32OfFloat64 env mn) (int32OfFloat64 env mx) }]
  | some mn, none => [{ Custom := Int32ValidatorAtLeast (int32OfFloat64 env mn) }]
  | none, some mx => [{ Custom := Int32ValidatorAtMost (int32OfFloat64 env mx) }]
  | none, none => []

/-- Modelled from the spec: `Float64ValidatorOneOf` is declared outside the files under
study; the spec has a OneOf validator synthesized only if at least one enum literal
decodes, so like `Int32ValidatorOneOf` it returns nil for a nil or empty slice. -/
def Float64OneOfNilOnEmpty (env : Env) : Prop :=
  env.Float64ValidatorOneOf [] = none

/-- The type assertion `x.(*ProviderInt32Attribute)`; `none` is `ok == false`. -/
def ProviderAttribute.asInt32 : ProviderAttribute → Option ProviderInt32Attribute
  | .Int32 a => some a
  | _ => none

/-- The type assertion `x.(*DataSourceFloat64Attribute)`; `none` is `ok == false`. -/
def DataSourceAttribute.asFloat64 : DataSourceAttribute → Option DataSourceFloat64Attribute
  | .Float64 a => some a
  | _ => none

/-! ## More example schemas -/

/-- The bound 123.2, that is 616/5. -/
def exampleBound123point2 : Float64 := .finite ⟨616, 5, by decide, by decide⟩

/-- The bound 456.2, that is 2281/5. -/
def exampleBound456point2 : Float64 := .finite ⟨2281, 5, by decide, by decide⟩

/-- An integer schema with minimum 123.2 and maximum 456.2, as in the validator tests. -/
def exampleSchemaBothBounds : OASSchema :=
  { Type_ := "integer",
    Schema := { Minimum := some exampleBound123point2, Maximum := some exampleBound456point2 } }

/-- An integer schema with minimum 123 only. -/
def exampleSchemaMinimum : OASSchema :=
  { Type_ := "integer", Schema := { Minimum := some (.finite 123) } }

/-- An integer schema with maximum 123 only. -/
def exampleSchemaMaximum : OASSchema :=
  { Type_ := "integer", Schema := { Maximum := some (.finite 123) } }

/-- An integer schema with neither enum nor bounds. -/
def exampleSchemaPlain : OASSchema :=
  { Type_ := "integer" }

/-- An integer schema with enum literals `1` and `2`, as in the validator tests. -/
def exampleSchemaEnum : OASSchema :=
  { Type_ := "integer",
    Schema :=
      { Enum := [{ Kind := ScalarNode, Value := "1" }, { Kind := ScalarNode, Value := "2" }] } }

/-- An integer schema whose enum mixes literals that decode with ones that do not. -/
def exampleSchemaEnumMixed : OASSchema :=
  { Type_ := "integer",
    Schema :=
      { Enum := [{ Kind := ScalarNode, Value := "3" }, { Kind := ScalarNode, Value := "abc" },
                 { Kind := ScalarNode, Value := "1" }, { Kind := ScalarNode, Value := "9999999999" },
                 { Kind := ScalarNode, Value := "3" }] } }

/-- An integer schema whose enum literals all fail to decode, with a maximum. -/
def exampleSchemaEnumUndecodable : OASSchema :=
  { Type_ := "integer",
    Schema :=
      { Enum := [{ Kind := ScalarNode, Value := "abc" }, { Kind := ScalarNode, Value := "x1" }]
        Maximum := some (.finite 10) } }

/-- A number schema of format `float` whose enum literals all fail to decode. -/
def exampleSchemaFloatEnumUndecodable : OASSchema :=
  { Type_ := "number", Format := "float",
    Schema :=
      { Enum := [{ Kind := ScalarNode, Value := "abc" }, { Kind := ScalarNode, Value := "x1" }] } }

/-! ## Package `frameworkvalidators`: `mapvalidator.go` -/

/-- The constant `MapValidatorPackage`. -/
def MapValidatorPackage : String := "mapvalidator"

/-- The variable `MapValidatorCodeImport`. -/
def MapValidatorCodeImport : Import := CodeImport MapValidatorPackage

/-- The function `MapValidatorSizeAtLeast`; the returned pointer is never nil. -/
def MapValidatorSizeAtLeast (minimum : Int) : Option CustomValidator :=
  let schemaDefinition := ""
  let schemaDefinition := schemaDefinition ++ MapValidatorPackage
  let schemaDefinition := schemaDefinition ++ ".SizeAtLeast("
  let schemaDefinition := schemaDefinition ++ FormatInt minimum
  let schemaDefinition := schemaDefinition ++ ")"
  some { Imports := [MapValidatorCodeImport], SchemaDefinition := schemaDefinition }

/-- The function `MapValidatorSizeAtMost`; the returned pointer is never nil. -/
def MapValidatorSizeAtMost (maximum : Int) : Option CustomValidator :=
  let schemaDefinition := ""
  let schemaDefinition := schemaDefinition ++ MapValidatorPackage
  let schemaDefinition := schemaDefinition ++ ".SizeAtMost("
  let schemaDefinition := schemaDefinition ++ FormatInt maximum
  let schemaDefinition := schemaDefinition ++ ")"
  some { Imports := [MapValidatorCodeImport], SchemaDefinition := schemaDefinition }

/-- The function `MapValidatorSizeBetween`; the returned pointer is never nil. -/
def MapValidatorSizeBetween (minimum maximum : Int) : Option CustomValidator :=
  let schemaDefinition := ""
  let schemaDefinition := schemaDefinition ++ MapValidatorPackage
  let schemaDefinition := schemaDefinition ++ ".SizeBetween("
  let schemaDefinition := schemaDefinition ++ FormatInt minimum
  let schemaDefinition := schemaDefinition ++ ", "
  let schemaDefinition := schemaDefinition ++ FormatInt maximum
  let schemaDefinition := schemaDefinition ++ ")"
  some { Imports := [MapValidatorCodeImport], SchemaDefinition := schemaDefinition }

/-! ## Package `mapper`: `provider_mapper.go` -/

/-- A `*base.SchemaProxy` handle of the document model, kept as the schema it resolves to. -/
structure SchemaProxy where
  Schema : BaseSchema
  deriving DecidableEq

/-- The fields of `explorer.Provider` that the provider mapper reads. -/
structure ExploredProvider where
  Name : String
  SchemaProxy : Option SchemaProxy := none
  Ignores : List String := []
  deriving DecidableEq

/-- The struct `oas.SchemaOpts` as `generateProviderSchema` fills it. -/
structure SchemaOpts where
  Ignores : List String := []
  deriving DecidableEq, Repr

/-- The struct `oas.GlobalSchemaOpts`, passed empty by `generateProviderSchema`. -/
structure GlobalSchemaOpts where
  deriving DecidableEq, Repr

/-- Modelled from the spec: the struct `provider.Attribute` of the spec module, one entry of
the exported attribute list: its name and the typed attribute it carries. -/
structure ProviderSpecAttribute where
  Name : String
  Attribute : ProviderAttribute
  deriving DecidableEq

/-- The struct `provider.Schema`: the exported attributes. -/
structure ProviderSchema where
  Attributes : List ProviderSpecAttribute := []
  deriving DecidableEq

/-- The struct `provider.Provider`, the provider IR; `Schema` is a pointer. -/
structure ProviderIR where
  Name : String
  Schema : Option ProviderSchema := none
  deriving DecidableEq

/-- The `error` values that the provider mapper returns: a `*SchemaError` handed back as it
is, or the value of `fmt.Errorf` with the verb `%w`, which keeps the leading text of the
format and wraps the given error. -/
inductive MapperError where
  | schemaError (err : SchemaError)
  | wrapped (lead : String) (err : SchemaError)
  deriving DecidableEq, Repr

/-- What `generateProviderSchema` calls and this development does not define: `oas.BuildSchema`
and `(*OASSchema).BuildProviderAttributes` (an error or a result), the export `ToSpec` of an
attribute list, and the text `Error()` of a `*SchemaError`. -/
structure MapperEnv where
  BuildSchema : Option SchemaProxy → SchemaOpts → GlobalSchemaOpts → Except SchemaError OASSchema
  BuildProviderAttributes : OASSchema → Except SchemaError (List ProviderAttribute)
  ToSpec : List ProviderAttribute → List ProviderSpecAttribute
  errorText : SchemaError → String

/-- The method `Error()` of the returned `error` value. -/
def MapperError.Error (m : MapperEnv) : MapperError → String
  | .schemaError err => m.errorText err
  | .wrapped lead err => lead ++ m.errorText err

/-- The call `errors.Unwrap` on the returned `error` value. -/
def MapperError.Unwrap : MapperError → Option SchemaError
  | .schemaError _ => none
  | .wrapped _ err => some err

/-- The function `generateProviderSchema`; logging has no effect on what is returned. -/
def generateProviderSchema (m : MapperEnv) (exploredProvider : ExploredProvider) :
    Option ProviderSchema × Option MapperError :=
  let providerSchema : ProviderSchema := {}
  let schemaOpts : SchemaOpts := { Ignores := exploredProvider.Ignores }
  match m.BuildSchema exploredProvider.SchemaProxy schemaOpts {} with
  | .error err => (none, some (.schemaError err))
  | .ok s =>
    match m.BuildProviderAttributes s with
    | .error err => (none, some (.wrapped "error mapping provider schema: " err))
    | .ok attributes =>
      let providerSchema := { providerSchema with Attributes := m.ToSpec attributes }
      (some providerSchema, none)

/-- The struct `providerMapper`; the unused `cfg` field is left out. -/
structure providerMapper where
  provider : ExploredProvider
  deriving DecidableEq

/-- The method `providerMapper.MapToIR`. -/
def providerMapper.MapToIR (mp : providerMapper) (m : MapperEnv) :
    Option ProviderIR × Option MapperError :=
  let providerIR : ProviderIR := { Name := mp.provider.Name }
  match mp.provider.SchemaProxy with
  | none => (some providerIR, none)
  | some _ =>
    match generateProviderSchema m mp.provider with
    | (_, some err) => (none, some err)
    | (providerSchema, none) =>
      let providerIR := { providerIR with Schema := providerSchema }
      (some providerIR, none)

/-- A mapper environment for the examples: a schema builds unless its description is
`broken`; its attributes are one Int32 attribute named `count`, unless the schema has an
enum, for which building them fails; export keeps names. -/
def exampleMapperEnv : MapperEnv where
  BuildSchema := fun proxy _ _ =>
    match proxy with
    | none => .error { err := "no schema", errType := .Other }
    | some p =>
      if p.Schema.Description = "broken" then
        .error { err := "cannot build schema", errType := .Other }
      else .ok { Type_ := "object", Schema := p.Schema }
  BuildProviderAttributes := fun s =>
    if s.Schema.Enum.length > 0 then
      .error { err := "invalid schema type \x27\x27", errType := .Type_ }
    else
      .ok [(OASSchema.BuildIntegerProvider { Type_ := "integer" } exampleEnv "count" .Optional).1]
  ToSpec := fun attributes =>
    attributes.map (fun a =>
      match a with
      | .Int32 x => { Name := x.Name, Attribute := a }
      | .Float64 x => { Name := x.Name, Attribute := a }
      | .Number x => { Name := x.Name, Attribute := a })
  errorText := fun e => e.err

/-- An explored provider without a schema handle. -/
def exampleProviderNoSchema : providerMapper :=
  { provider := { Name := "example" } }

/-- An explored provider whose schema builds and gives attributes. -/
def exampleProviderGood : providerMapper :=
  { provider := { Name := "example", SchemaProxy := some { Schema := {} } } }

/-- An explored provider whose schema does not build. -/
def exampleProviderBrokenSchema : providerMapper :=
  { provider :=
      { Name := "example", SchemaProxy := some { Schema := { Description := "broken" } } } }

/-- An explored provider whose schema builds but whose attributes do not. -/
def exampleProviderBrokenAttributes : providerMapper :=
  { provider :=
      { Name := "example",
        SchemaProxy := some { Schema := { Enum := [{ Kind := ScalarNode, Value := "1" }] } } } }

/-! ## More example schemas and bounds -/

/-- The bound -1.5, that is -3/2. -/
def exampleBoundMinus1point5 : Float64 := .finite ⟨-3, 2, by decide, by decide⟩

/-- The bound 10.9, that is 109/10. -/
def exampleBound10point9 : Float64 := .finite ⟨109, 10, by decide, by decide⟩

/-- An integer schema with minimum -1.5 only. -/
def exampleSchemaMinimumFraction : OASSchema :=
  { Type_ := "integer", Schema := { Minimum := some exampleBoundMinus1point5 } }

/-- An integer schema with maximum 10.9 only. -/
def exampleSchemaMaximumFraction : OASSchema :=
  { Type_ := "integer", Schema := { Maximum := some exampleBound10point9 } }

/-- An integer schema with minimum 1 and maximum 10. -/
def exampleSchemaOneToTen : OASSchema :=
  { Type_ := "integer", Schema := { Minimum := some (.finite 1), Maximum := some (.finite 10) } }

/-- A number schema without format, with a default literal that decodes and an enum. -/
def exampleSchemaNumberPlain : OASSchema :=
  { Type_ := "number",
    Schema :=
      { Default := some { Kind := ScalarNode, Value := "123" }
        Enum := [{ Kind := ScalarNode, Value := "1" }, { Kind := ScalarNode, Value := "2" }] } }

/-- The rational 123.2. -/
def exampleRat123point2 : ℚ := ⟨616, 5, by decide, by decide⟩

/-- The rational 456.2. -/
def exampleRat456point2 : ℚ := ⟨2281, 5, by decide, by decide⟩

/-- The rational -1.5. -/
def exampleRatMinus1point5 : ℚ := ⟨-3, 2, by decide, by decide⟩

/-- The rational 10.9. -/
def exampleRat10point9 : ℚ := ⟨109, 10, by decide, by decide⟩

/-! ## Characters of a rendering, and more examples -/

/-- A character of a base-10 rendering: a decimal digit or the minus sign. -/
def isNumberChar (c : Char) : Bool :=
  c == '-' || (digitValue c).isSome

/-- The expression text of a descriptor; `none` for the nil descriptor. -/
def expressionText (v : Option CustomValidator) : Option String :=
  v.map (fun c => c.SchemaDefinition)

/-- An integer schema with minimum 10 and maximum 1, the bounds the wrong way round. -/
def exampleSchemaTenToOne : OASSchema :=
  { Type_ := "integer", Schema := { Minimum := some (.finite 10), Maximum := some (.finite 1) } }

/-- A number schema of format `float` with enum `1`, `x`, `2` and both bounds. -/
def exampleSchemaFloatEnumBounds : OASSchema :=
  { Type_ := "number", Format := "float",
    Schema :=
      { Enum := [{ Kind := ScalarNode, Value := "1" }, { Kind := ScalarNode, Value := "x" },
                 { Kind := ScalarNode, Value := "2" }]
        Minimum := some (.finite 1), Maximum := some (.finite 10) } }

/-- An override with a description. -/
def exampleOverride : Override := { Description := "new description" }

/-- An override whose description is the empty string. -/
def exampleOverrideEmpty : Override := { Description := "" }

/-- The rational 20.5. -/
def exampleRat20point5 : ℚ := ⟨41, 2, by decide, by decide⟩

/-- An integer schema with minimum 20.5 and maximum 5, the bounds the wrong way round, and
an enum. -/
def exampleSchemaTwentyToFive : OASSchema :=
  { Type_ := "integer",
    Schema :=
      { Enum := [{ Kind := ScalarNode, Value := "7" }]
        Minimum := some (.finite exampleRat20point5)
        Maximum := some (.finite 5) } }

end Codegen

/-! # Properties -/

namespace Codegen

/-! ## Helper lemmas on `Merge` -/

theorem descriptionMissing_iff (d : Option String) :
    descriptionMissing d = true ↔ d = none ∨ d = some "" := by
  cases d with
  | none => simp [descriptionMissing]
  | some t => simp [descriptionMissing]

theorem resource_merge_int32 (a b : ResourceInt32Attribute) :
    a.Merge (.Int32 b) =
      (.Int32 { a with
        Description := if descriptionMissing a.Description then b.Description
          else a.Description }, none) := by
  unfold ResourceInt32Attribute.Merge
  by_cases h : descriptionMissing a.Description = true <;>
    simp [ResourceAttribute.asInt32, h]

theorem dataSource_merge_int32 (a b : DataSourceInt32Attribute) :
    a.Merge (.Int32 b) =
      (.Int32 { a with
        Description := if descriptionMissing a.Description then b.Description
          else a.Description }, none) := by
  unfold DataSourceInt32Attribute.Merge
  by_cases h : descriptionMissing a.Description = true <;>
    simp [DataSourceAttribute.asInt32, h]

theorem resource_merge_of_populated (a : ResourceInt32Attribute)
    (x : ResourceAttribute) (h : descriptionMissing a.Description = false) :
    a.Merge x = (.Int32 a, none) := by
  unfold ResourceInt32Attribute.Merge
  cases x.asInt32 <;> simp [h]

theorem dataSource_merge_of_populated (a : DataSourceInt32Attribute)
    (x : DataSourceAttribute) (h : descriptionMissing a.Description = false) :
    a.Merge x = (.Int32 a, none) := by
  unfold DataSourceInt32Attribute.Merge
  cases x.asInt32 <;> simp [h]

/-! ## Merge: description adoption (C1, C2), kind mismatch (C3), frame (C4), idempotence (C5) -/

/-- C1: when the target's description is absent or the empty string, merging an incoming
Int32 attribute of the same flavour returns an Int32 attribute whose description is the
incoming attribute's description, absent included; for the resource and the data source
flavour. -/
theorem merge_adopts_incoming_description
    (a b : ResourceInt32Attribute) (da db : DataSourceInt32Attribute)
    (ha : a.Description = none ∨ a.Description = some "")
    (hda : da.Description = none ∨ da.Description = some "") :
    (a.Merge (.Int32 b)).1.asInt32.map (fun r => r.Description) = some b.Description ∧
    (da.Merge (.Int32 db)).1.asInt32.map (fun r => r.Description) = some db.Description := by
  have h1 := (descriptionMissing_iff a.Description).mpr ha
  have h2 := (descriptionMissing_iff da.Description).mpr hda
  rw [resource_merge_int32, dataSource_merge_int32]
  simp [ResourceAttribute.asInt32, DataSourceAttribute.asInt32, h1, h2]

/-- The adoption rule at a target without description and at one with the empty string. -/
theorem merge_adopts_incoming_description_witness :
    (exampleResourceTarget.Description = none ∨ exampleResourceTarget.Description = some "") ∧
    (exampleDataSourceEmpty.Description = none ∨ exampleDataSourceEmpty.Description = some "") ∧
    (exampleResourceTarget.Merge (.Int32 exampleResourceIncoming)).1.asInt32.map
        (fun r => r.Description) = some (some "item count") ∧
    (exampleDataSourceEmpty.Merge (.Int32 exampleDataSourceTarget)).1.asInt32.map
        (fun r => r.Description) = some none :=
  ⟨Or.inl rfl, Or.inr rfl,
    merge_adopts_incoming_description exampleResourceTarget exampleResourceIncoming
      exampleDataSourceEmpty exampleDataSourceTarget (Or.inl rfl) (Or.inr rfl)⟩

/-- C2: when the target's description is present and not the empty string, merging any
incoming attribute, of any kind and with any description, returns an Int32 attribute whose
description is the target's original one; for the resource and the data source flavour. -/
theorem merge_keeps_populated_description
    (a : ResourceInt32Attribute) (x : ResourceAttribute)
    (da : DataSourceInt32Attribute) (dx : DataSourceAttribute) (d dd : String)
    (ha : a.Description = some d) (hd : d ≠ "")
    (hda : da.Description = some dd) (hdd : dd ≠ "") :
    (a.Merge x).1.asInt32.map (fun r => r.Description) = some (some d) ∧
    (da.Merge dx).1.asInt32.map (fun r => r.Description) = some (some dd) := by
  have h1 : descriptionMissing a.Description = false := by simp [descriptionMissing, ha, hd]
  have h2 : descriptionMissing da.Description = false := by simp [descriptionMissing, hda, hdd]
  rw [resource_merge_of_populated a x h1,
    dataSource_merge_of_populated da dx h2]
  simp [ResourceAttribute.asInt32, DataSourceAttribute.asInt32, ha, hda]

/-- The first-wins rule at the described attributes of the merge tests. -/
theorem merge_keeps_populated_description_witness :
    exampleResourceDescribed.Description = some "old Int32 description" ∧
    "old Int32 description" ≠ "" ∧
    exampleDataSourceDescribed.Description = some "old Int32 description" ∧
    (exampleResourceDescribed.Merge (.Int32 exampleResourceIncoming)).1.asInt32.map
        (fun r => r.Description) = some (some "old Int32 description") ∧
    (exampleDataSourceDescribed.Merge (.String exampleDataSourceString)).1.asInt32.map
        (fun r => r.Description) = some (some "old Int32 description") :=
  ⟨rfl, by decide, rfl,
    merge_keeps_populated_description exampleResourceDescribed (.Int32 exampleResourceIncoming)
      exampleDataSourceDescribed (.String exampleDataSourceString)
      "old Int32 description" "old Int32 description" rfl (by decide) rfl (by decide)⟩

/-- C3: when the incoming attribute is not of the Int32 kind (the type assertion fails),
`Merge` returns the target unchanged in every field, an absent or empty description
included, and the nil error; for the resource and the data source flavour. -/
theorem merge_kind_mismatch_returns_target
    (a : ResourceInt32Attribute) (x : ResourceAttribute)
    (da : DataSourceInt32Attribute) (dx : DataSourceAttribute)
    (hx : x.asInt32 = none) (hdx : dx.asInt32 = none) :
    a.Merge x = (.Int32 a, none) ∧ da.Merge dx = (.Int32 da, none) := by
  unfold ResourceInt32Attribute.Merge DataSourceInt32Attribute.Merge
  simp [hx, hdx]

/-- The mismatch rule at the String attributes of the merge tests. -/
theorem merge_kind_mismatch_returns_target_witness :
    (ResourceAttribute.String exampleResourceString).asInt32 = none ∧
    (DataSourceAttribute.String exampleDataSourceString).asInt32 = none ∧
    exampleResourceTarget.Merge (.String exampleResourceString)
      = (.Int32 exampleResourceTarget, none) ∧
    exampleDataSourceEmpty.Merge (.String exampleDataSourceString)
      = (.Int32 exampleDataSourceEmpty, none) :=
  ⟨rfl, rfl,
    merge_kind_mismatch_returns_target exampleResourceTarget (.String exampleResourceString)
      exampleDataSourceEmpty (.String exampleDataSourceString) rfl rfl⟩

/-- C4: for every target and every incoming attribute, `Merge` returns the nil error and an
Int32 attribute with the target's Name, ComputedOptionalRequired, Validators, Default and
DeprecationMessage, so that it is the target with possibly another description; for the
resource and the data source flavour (which has no Default). Merging a Required target
without description with a ComputedOptional incoming described as "item count" gives the
Required attribute described as "item count". -/
theorem merge_changes_only_description
    (a : ResourceInt32Attribute) (x : ResourceAttribute)
    (da : DataSourceInt32Attribute) (dx : DataSourceAttribute) :
    (∃ r : ResourceInt32Attribute, a.Merge x = (.Int32 r, none) ∧
      r.Name = a.Name ∧ r.ComputedOptionalRequired = a.ComputedOptionalRequired ∧
      r.Validators = a.Validators ∧ r.Default = a.Default ∧
      r.DeprecationMessage = a.DeprecationMessage ∧
      r = { a with Description := r.Description }) ∧
    (∃ r : DataSourceInt32Attribute, da.Merge dx = (.Int32 r, none) ∧
      r.Name = da.Name ∧ r.ComputedOptionalRequired = da.ComputedOptionalRequired ∧
      r.Validators = da.Validators ∧ r.DeprecationMessage = da.DeprecationMessage ∧
      r = { da with Description := r.Description }) ∧
    exampleResourceTarget.Merge (.Int32 exampleResourceIncoming) =
      (.Int32 { Name := "count", ComputedOptionalRequired := .Required,
                Description := some "item count" }, none) ∧
    exampleDataSourceTarget.Merge (.Int32 exampleDataSourceIncoming) =
      (.Int32 { Name := "count", ComputedOptionalRequired := .Required,
                Description := some "item count" }, none) := by
  refine ⟨?_, ?_, by decide, by decide⟩
  · unfold ResourceInt32Attribute.Merge
    cases x.asInt32 with
    | none => exact ⟨a, rfl, rfl, rfl, rfl, rfl, rfl, rfl⟩
    | some b =>
      by_cases h : descriptionMissing a.Description = true
      · exact ⟨{ a with Description := b.Description }, by simp [h], rfl, rfl, rfl, rfl, rfl, rfl⟩
      · exact ⟨a, by simp [h], rfl, rfl, rfl, rfl, rfl, rfl⟩
  · unfold DataSourceInt32Attribute.Merge
    cases dx.asInt32 with
    | none => exact ⟨da, rfl, rfl, rfl, rfl, rfl, rfl⟩
    | some b =>
      by_cases h : descriptionMissing da.Description = true
      · exact ⟨{ da with Description := b.Description }, by simp [h], rfl, rfl, rfl, rfl, rfl⟩
      · exact ⟨da, by simp [h], rfl, rfl, rfl, rfl, rfl⟩

/-- C5: `Merge` is idempotent on Int32 attributes: for every resource or data source Int32
attribute `a`, whatever its description, `Merge(a, a)` returns `a` itself, equal in every
field, with the nil error. -/
theorem merge_idempotent (a : ResourceInt32Attribute) (da : DataSourceInt32Attribute) :
    a.Merge (.Int32 a) = (.Int32 a, none) ∧ da.Merge (.Int32 da) = (.Int32 da, none) := by
  rw [resource_merge_int32, dataSource_merge_int32]
  constructor
  · by_cases h : descriptionMissing a.Description = true <;> simp [h]
  · by_cases h : descriptionMissing da.Description = true <;> simp [h]

/-! ## Folding `Merge` over a sequence (C6) -/

theorem resource_mergeAll_cons (t x : ResourceInt32Attribute)
    (xs : List ResourceInt32Attribute) :
    t.MergeAll (x :: xs) =
      ResourceInt32Attribute.MergeAll
        { t with Description := if descriptionMissing t.Description then x.Description
            else t.Description } xs := by
  simp [ResourceInt32Attribute.MergeAll, resource_merge_int32, ResourceAttribute.asInt32]

theorem dataSource_mergeAll_cons (t x : DataSourceInt32Attribute)
    (xs : List DataSourceInt32Attribute) :
    t.MergeAll (x :: xs) =
      DataSourceInt32Attribute.MergeAll
        { t with Description := if descriptionMissing t.Description then x.Description
            else t.Description } xs := by
  simp [DataSourceInt32Attribute.MergeAll, dataSource_merge_int32, DataSourceAttribute.asInt32]

theorem resource_mergeAll_populated (xs : List ResourceInt32Attribute)
    (t : ResourceInt32Attribute) (h : descriptionMissing t.Description = false) :
    t.MergeAll xs = some t := by
  induction xs with
  | nil => rfl
  | cons x xs ih => rw [resource_mergeAll_cons]; simpa [h] using ih

theorem dataSource_mergeAll_populated (xs : List DataSourceInt32Attribute)
    (t : DataSourceInt32Attribute) (h : descriptionMissing t.Description = false) :
    t.MergeAll xs = some t := by
  induction xs with
  | nil => rfl
  | cons x xs ih => rw [dataSource_mergeAll_cons]; simpa [h] using ih

theorem firstPopulated_populated (ds : List (Option String)) (d : Option String)
    (h : firstPopulated ds = some d) : descriptionMissing d = false := by
  unfold firstPopulated at h
  have := List.find?_some h
  simpa using this

theorem resource_mergeAll_first (xs : List ResourceInt32Attribute)
    (t : ResourceInt32Attribute) (d : Option String)
    (h : firstPopulated (t.Description :: xs.map (fun x => x.Description)) = some d) :
    t.MergeAll xs = some { t with Description := d } := by
  induction xs generalizing t with
  | nil =>
    by_cases ht : descriptionMissing t.Description = true
    · simp [firstPopulated, ht] at h
    · simp [firstPopulated, ht] at h
      subst h
      rfl
  | cons x xs ih =>
    rw [resource_mergeAll_cons]
    by_cases ht : descriptionMissing t.Description = true
    · have h2 : firstPopulated (x.Description :: xs.map (fun x => x.Description)) = some d := by
        simpa [firstPopulated, ht] using h
      simpa [ht] using ih { t with Description := x.Description } h2
    · have h2 : t.Description = d := by simpa [firstPopulated, ht] using h
      have ht2 : descriptionMissing t.Description = false := by simpa using ht
      subst h2
      simpa [ht2] using resource_mergeAll_populated xs t ht2

theorem dataSource_mergeAll_first (xs : List DataSourceInt32Attribute)
    (t : DataSourceInt32Attribute) (d : Option String)
    (h : firstPopulated (t.Description :: xs.map (fun x => x.Description)) = some d) :
    t.MergeAll xs = some { t with Description := d } := by
  induction xs generalizing t with
  | nil =>
    by_cases ht : descriptionMissing t.Description = true
    · simp [firstPopulated, ht] at h
    · simp [firstPopulated, ht] at h
      subst h
      rfl
  | cons x xs ih =>
    rw [dataSource_mergeAll_cons]
    by_cases ht : descriptionMissing t.Description = true
    · have h2 : firstPopulated (x.Description :: xs.map (fun x => x.Description)) = some d := by
        simpa [firstPopulated, ht] using h
      simpa [ht] using ih { t with Description := x.Description } h2
    · have h2 : t.Description = d := by simpa [firstPopulated, ht] using h
      have ht2 : descriptionMissing t.Description = false := by simpa using ht
      subst h2
      simpa [ht2] using dataSource_mergeAll_populated xs t ht2

theorem firstPopulated_append (ds es : List (Option String)) (d : Option String)
    (h : firstPopulated ds = some d) : firstPopulated (ds ++ es) = some d := by
  unfold firstPopulated at *
  simp [List.find?_append, h]

/-- C6: folding `Merge` over Int32 attributes `i1..in` into a target `t`: when `d` is the
first description of `[t, i1, ..., in]`, in that order, that is present and not empty, the
fold returns the target with description `d`; and merging any further attributes after
them still returns description `d`, so a populated description is never changed by a later
merge; for the resource and the data source flavour. -/
theorem mergeAll_first_populated_description_wins
    (t : ResourceInt32Attribute) (xs zs : List ResourceInt32Attribute)
    (dt : DataSourceInt32Attribute) (dxs dzs : List DataSourceInt32Attribute)
    (d dd : Option String)
    (h : firstPopulated (t.Description :: xs.map (fun x => x.Description)) = some d)
    (hd : firstPopulated (dt.Description :: dxs.map (fun x => x.Description)) = some dd) :
    (d ≠ none ∧ d ≠ some "" ∧ dd ≠ none ∧ dd ≠ some "") ∧
    (∃ r, t.MergeAll xs = some r ∧ r.Description = d) ∧
    (∃ r, t.MergeAll (xs ++ zs) = some r ∧ r.Description = d) ∧
    (∃ r, dt.MergeAll dxs = some r ∧ r.Description = dd) ∧
    (∃ r, dt.MergeAll (dxs ++ dzs) = some r ∧ r.Description = dd) := by
  have p1 := firstPopulated_populated _ _ h
  have p2 := firstPopulated_populated _ _ hd
  have h2 : firstPopulated (t.Description :: (xs ++ zs).map (fun x => x.Description))
      = some d := by
    have := firstPopulated_append _ (zs.map (fun x => x.Description)) d h
    simpa using this
  have hd2 : firstPopulated (dt.Description :: (dxs ++ dzs).map (fun x => x.Description))
      = some dd := by
    have := firstPopulated_append _ (dzs.map (fun x => x.Description)) dd hd
    simpa using this
  refine ⟨⟨?_, ?_, ?_, ?_⟩, ⟨_, resource_mergeAll_first xs t d h, rfl⟩,
    ⟨_, resource_mergeAll_first (xs ++ zs) t d h2, rfl⟩,
    ⟨_, dataSource_mergeAll_first dxs dt dd hd, rfl⟩,
    ⟨_, dataSource_mergeAll_first (dxs ++ dzs) dt dd hd2, rfl⟩⟩
  · rintro rfl; simp [descriptionMissing] at p1
  · rintro rfl; simp [descriptionMissing] at p1
  · rintro rfl; simp [descriptionMissing] at p2
  · rintro rfl; simp [descriptionMissing] at p2

/-- The fold at a target without description followed by an empty-string one, the
"item count" one and the "old Int32 description" one. -/
theorem mergeAll_first_populated_description_wins_witness :
    firstPopulated (exampleResourceTarget.Description ::
      [exampleResourceEmpty, exampleResourceIncoming, exampleResourceDescribed].map
        (fun x => x.Description)) = some (some "item count") ∧
    firstPopulated (exampleDataSourceDescribed.Description ::
      [exampleDataSourceIncoming].map (fun x => x.Description))
        = some (some "old Int32 description") ∧
    (∃ r, exampleResourceTarget.MergeAll
        [exampleResourceEmpty, exampleResourceIncoming, exampleResourceDescribed] = some r ∧
      r.Description = some "item count") ∧
    (∃ r, exampleDataSourceDescribed.MergeAll ([exampleDataSourceIncoming] ++
        [exampleDataSourceEmpty, exampleDataSourceTarget]) = some r ∧
      r.Description = some "old Int32 description") :=
  have w := mergeAll_first_populated_description_wins exampleResourceTarget
    [exampleResourceEmpty, exampleResourceIncoming, exampleResourceDescribed] []
    exampleDataSourceDescribed [exampleDataSourceIncoming]
    [exampleDataSourceEmpty, exampleDataSourceTarget]
    (some "item count") (some "old Int32 description") (by decide) (by decide)
  ⟨by decide, by decide, w.2.1, w.2.2.2.2⟩

/-! ## Overrides (C7) -/

/-- C7: for every attribute and every override, `ApplyOverride` returns the nil error and an
Int32 attribute whose description is present and equal to the override's description,
whatever it was before, with Name, computability, validators, default (resource flavour)
and deprecation message unchanged; for the resource and the data source flavour. -/
theorem applyOverride_replaces_description
    (a : ResourceInt32Attribute) (da : DataSourceInt32Attribute) (o : Override) :
    (∃ r : ResourceInt32Attribute, a.ApplyOverride o = (.Int32 r, none) ∧
      r.Description = some o.Description ∧
      r.Name = a.Name ∧ r.ComputedOptionalRequired = a.ComputedOptionalRequired ∧
      r.Validators = a.Validators ∧ r.Default = a.Default ∧
      r.DeprecationMessage = a.DeprecationMessage) ∧
    (∃ r : DataSourceInt32Attribute, da.ApplyOverride o = (.Int32 r, none) ∧
      r.Description = some o.Description ∧
      r.Name = da.Name ∧ r.ComputedOptionalRequired = da.ComputedOptionalRequired ∧
      r.Validators = da.Validators ∧ r.DeprecationMessage = da.DeprecationMessage) :=
  ⟨⟨{ a with Description := some o.Description }, rfl, rfl, rfl, rfl, rfl, rfl, rfl⟩,
   ⟨{ da with Description := some o.Description }, rfl, rfl, rfl, rfl, rfl, rfl⟩⟩

/-! ## Defaults in the integer and number builders (C8, C9, C10) -/

theorem getIntegerValidators_withoutDefault (s : OASSchema) (env : Env) :
    s.withoutDefault.GetIntegerValidators env = s.GetIntegerValidators env := rfl

/-- C8: for an integer schema whose default literal decodes as `int32`, `BuildIntegerResource`
called with Required returns, with the nil error, an Int32 attribute whose computability is
ComputedOptional (not Required) and whose default is the static decoded value; and for a
number schema of format `float` or `double` whose default literal decodes as `float64`,
`BuildNumberResource` called with Required returns a Float64 attribute with computability
ComputedOptional and the static decoded default. -/
theorem build_resource_default_implies_not_required
    (env : Env) (s sf : OASSchema) (name : String) (node nodef : YamlNode)
    (v : Int) (vf : Float64)
    (hd : s.Schema.Default = some node) (hv : env.decodeInt32 node = some v)
    (hf : sf.Format = "float" ∨ sf.Format = "double")
    (hdf : sf.Schema.Default = some nodef) (hvf : env.decodeFloat64 nodef = some vf) :
    (∃ r : ResourceInt32Attribute,
      s.BuildIntegerResource env name .Required = (.Int32 r, none) ∧
      r.ComputedOptionalRequired = .ComputedOptional ∧
      r.ComputedOptionalRequired ≠ .Required ∧
      r.Default = some { Static := some v }) ∧
    (∃ r : ResourceFloat64Attribute,
      sf.BuildNumberResource env name .Required = (.Float64 r, none) ∧
      r.ComputedOptionalRequired = .ComputedOptional ∧
      r.ComputedOptionalRequired ≠ .Required ∧
      r.Default = some { Static := some vf }) := by
  constructor
  · refine ⟨_, by simp only [OASSchema.BuildIntegerResource, hd, hv]; rfl, ?_, ?_, ?_⟩ <;> simp
  · have hf2 : sf.Format = OAS_format_double ∨ sf.Format = OAS_format_float := by
      rcases hf with h | h
      · exact Or.inr h
      · exact Or.inl h
    refine ⟨_, by simp only [OASSchema.BuildNumberResource, hdf, hvf, if_pos hf2]; rfl,
      ?_, ?_, ?_⟩ <;> simp

/-- The Required-with-default rule at the schemas with default literal `123`. -/
theorem build_resource_default_implies_not_required_witness :
    exampleSchemaDefault123.Schema.Default = some { Kind := ScalarNode, Value := "123" } ∧
    exampleEnv.decodeInt32 { Kind := ScalarNode, Value := "123" } = some 123 ∧
    exampleEnv.decodeFloat64 { Kind := ScalarNode, Value := "123" } = some (.finite 123) ∧
    (exampleSchemaDoubleDefault123.Format = "float" ∨
      exampleSchemaDoubleDefault123.Format = "double") ∧
    exampleSchemaDoubleDefault123.Schema.Default
      = some { Kind := ScalarNode, Value := "123" } ∧
    (∃ r : ResourceInt32Attribute,
      exampleSchemaDefault123.BuildIntegerResource exampleEnv "count" .Required
        = (.Int32 r, none) ∧
      r.ComputedOptionalRequired = .ComputedOptional ∧
      r.ComputedOptionalRequired ≠ .Required ∧
      r.Default = some { Static := some 123 }) ∧
    (∃ r : ResourceFloat64Attribute,
      exampleSchemaDoubleDefault123.BuildNumberResource exampleEnv "count" .Required
        = (.Float64 r, none) ∧
      r.ComputedOptionalRequired = .ComputedOptional ∧
      r.ComputedOptionalRequired ≠ .Required ∧
      r.Default = some { Static := some (.finite 123) }) :=
  have w := build_resource_default_implies_not_required exampleEnv exampleSchemaDefault123
    exampleSchemaDoubleDefault123 "count" { Kind := ScalarNode, Value := "123" }
    { Kind := ScalarNode, Value := "123" } 123 (.finite 123) rfl (by decide) (Or.inr rfl) rfl
    (by decide)
  ⟨rfl, by decide, by decide, Or.inr rfl, rfl, w.1, w.2⟩

/-- C9: a zero default is not special-cased: for an integer schema whose default literal
decodes to `0`, `BuildIntegerResource` attaches a present static default equal to `0`, not
an absent one, exactly as it attaches any decoded default value `v` unchanged, whatever
the computability passed in. -/
theorem build_integer_resource_zero_default_kept
    (env : Env) (s0 s : OASSchema) (name : String) (c : ComputedOptionalRequired)
    (node0 node : YamlNode) (v : Int)
    (hd0 : s0.Schema.Default = some node0) (hv0 : env.decodeInt32 node0 = some 0)
    (hd : s.Schema.Default = some node) (hv : env.decodeInt32 node = some v) :
    (∃ r : ResourceInt32Attribute,
      s0.BuildIntegerResource env name c = (.Int32 r, none) ∧
      r.Default = some { Static := some 0 } ∧ r.Default ≠ none) ∧
    (∃ r : ResourceInt32Attribute,
      s.BuildIntegerResource env name c = (.Int32 r, none) ∧
      r.Default = some { Static := some v }) := by
  constructor
  · refine ⟨_, by simp only [OASSchema.BuildIntegerResource, hd0, hv0]; rfl, ?_, ?_⟩ <;>
      cases c <;> simp
  · refine ⟨_, by simp only [OASSchema.BuildIntegerResource, hd, hv]; rfl, ?_⟩
    cases c <;> simp

/-- The default rule at the schemas with default literals `0` and `123`. -/
theorem build_integer_resource_zero_default_kept_witness :
    exampleSchemaDefaultZero.Schema.Default = some { Kind := ScalarNode, Value := "0" } ∧
    exampleEnv.decodeInt32 { Kind := ScalarNode, Value := "0" } = some 0 ∧
    exampleSchemaDefault123.Schema.Default = some { Kind := ScalarNode, Value := "123" } ∧
    exampleEnv.decodeInt32 { Kind := ScalarNode, Value := "123" } = some 123 ∧
    (∃ r : ResourceInt32Attribute,
      exampleSchemaDefaultZero.BuildIntegerResource exampleEnv "count" .Optional
        = (.Int32 r, none) ∧
      r.Default = some { Static := some 0 } ∧ r.Default ≠ none) ∧
    (∃ r : ResourceInt32Attribute,
      exampleSchemaDefault123.BuildIntegerResource exampleEnv "count" .Optional
        = (.Int32 r, none) ∧
      r.Default = some { Static := some 123 }) :=
  have w := build_integer_resource_zero_default_kept exampleEnv exampleSchemaDefaultZero
    exampleSchemaDefault123 "count" .Optional { Kind := ScalarNode, Value := "0" }
    { Kind := ScalarNode, Value := "123" } 123 rfl (by decide) rfl (by decide)
  ⟨rfl, by decide, rfl, by decide, w.1, w.2⟩

/-- C10: for an integer schema whose default literal is present but does not decode as
`int32`, `BuildIntegerResource` returns the nil error and an Int32 attribute with no default
and with the computability exactly as passed in (Required stays Required); its Name,
description, deprecation message and validators are what the builder gives without a
default, and when the description and deprecation accessors do not look at the default
literal the whole result equals the build of the schema with the default removed. -/
theorem build_integer_resource_undecodable_default_dropped
    (env : Env) (s : OASSchema) (name : String) (c : ComputedOptionalRequired)
    (node : YamlNode)
    (hd : s.Schema.Default = some node) (hv : env.decodeInt32 node = none) :
    (s.BuildIntegerResource env name c).2 = none ∧
    (∃ r : ResourceInt32Attribute,
      (s.BuildIntegerResource env name c).1 = .Int32 r ∧
      r.Default = none ∧ r.ComputedOptionalRequired = c ∧
      r = { Name := name
            ComputedOptionalRequired := c
            Default := none
            DeprecationMessage := env.GetDeprecationMessage s
            Description := env.GetDescription s
            Validators := if c = .Computed then [] else s.GetIntegerValidators env }) ∧
    (env.GetDescription s.withoutDefault = env.GetDescription s →
      env.GetDeprecationMessage s.withoutDefault = env.GetDeprecationMessage s →
      s.BuildIntegerResource env name c = s.withoutDefault.BuildIntegerResource env name c) := by
  refine ⟨rfl, ⟨_, by simp only [OASSchema.BuildIntegerResource, hd, hv]; rfl, ?_, ?_, ?_⟩, ?_⟩
  · cases c <;> simp
  · cases c <;> simp
  · cases c <;> simp
  · intro h1 h2
    simp only [OASSchema.BuildIntegerResource, hd, hv, h1, h2,
      getIntegerValidators_withoutDefault]
    rfl

/-- The dropped-default rule at a Required attribute whose default literal `2147483648` is
beyond the 32-bit range: no default, still Required, description and validators built. -/
theorem build_integer_resource_undecodable_default_dropped_witness :
    exampleSchemaDefaultTooLarge.Schema.Default
      = some { Kind := ScalarNode, Value := "2147483648" } ∧
    exampleEnv.decodeInt32 { Kind := ScalarNode, Value := "2147483648" } = none ∧
    exampleSchemaDefaultTooLarge.BuildIntegerResource exampleEnv "count" .Required
      = exampleSchemaDefaultTooLarge.withoutDefault.BuildIntegerResource exampleEnv "count"
          .Required ∧
    exampleSchemaDefaultTooLarge.BuildIntegerResource exampleEnv "count" .Required =
      (.Int32
        { Name := "count"
          ComputedOptionalRequired := .Required
          Default := none
          Description := some "item count"
          Validators :=
            [{ Custom := some
                { Imports := [{ Path :=
                    "github.com/hashicorp/terraform-plugin-framework-validators/int32validator" }]
                  SchemaDefinition := "int32validator.OneOf(\n1,\n2,\n)" } },
             { Custom := some
                { Imports := [{ Path :=
                    "github.com/hashicorp/terraform-plugin-framework-validators/int32validator" }]
                  SchemaDefinition := "int32validator.AtLeast(1)" } }] }, none) :=
  have w := build_integer_resource_undecodable_default_dropped exampleEnv
    exampleSchemaDefaultTooLarge "count" .Required
    { Kind := ScalarNode, Value := "2147483648" } rfl (by decide)
  ⟨rfl, by decide, w.2.2 rfl rfl, by decide⟩

/-! ## Helper lemmas on `GetIntegerValidators` -/

theorem decodeEnumInt32_foldl (env : Env) (nodes : List YamlNode) (acc : List Int) :
    nodes.foldl
      (fun enum valueNode =>
        match env.decodeInt32 valueNode with
        | none => enum
        | some value => enum ++ [value])
      acc = acc ++ nodes.filterMap env.decodeInt32 := by
  induction nodes generalizing acc with
  | nil => simp
  | cons n ns ih =>
    rw [List.foldl_cons, ih]
    cases h : env.decodeInt32 n <;> simp [List.filterMap_cons, h]

theorem decodeEnumInt32_eq_filterMap (env : Env) (nodes : List YamlNode) :
    decodeEnumInt32 env nodes = nodes.filterMap env.decodeInt32 := by
  unfold decodeEnumInt32
  rw [decodeEnumInt32_foldl]
  simp

theorem decodeEnumFloat64_eq_filterMap (env : Env) (nodes : List YamlNode) :
    decodeEnumFloat64 env nodes = nodes.filterMap env.decodeFloat64 := by
  have key : ∀ acc : List Float64, nodes.foldl
      (fun enum valueNode =>
        match env.decodeFloat64 valueNode with
        | none => enum
        | some value => enum ++ [value])
      acc = acc ++ nodes.filterMap env.decodeFloat64 := by
    induction nodes with
    | nil => simp
    | cons n ns ih =>
      intro acc
      rw [List.foldl_cons, ih]
      cases h : env.decodeFloat64 n <;> simp [List.filterMap_cons, h]
  unfold decodeEnumFloat64
  rw [key]
  simp

theorem getIntegerValidators_eq_parts (s : OASSchema) (env : Env) :
    s.GetIntegerValidators env = enumValidators env s ++ boundsValidators env s := by
  unfold OASSchema.GetIntegerValidators enumValidators boundsValidators
  by_cases h : s.Schema.Enum.length > 0
  · simp only [h, if_true]
    cases Int32ValidatorOneOf (decodeEnumInt32 env s.Schema.Enum) <;>
      cases s.Schema.Minimum <;> cases s.Schema.Maximum <;> simp
  · simp only [h, if_false]
    cases s.Schema.Minimum <;> cases s.Schema.Maximum <;> simp

theorem foldl_append_concatAll (f : Int → String) (values : List Int) (init : String) :
    values.foldl (fun acc value => acc ++ f value) init = init ++ concatAll (values.map f) := by
  induction values generalizing init with
  | nil => simp [concatAll]
  | cons v vs ih => simp [List.foldl_cons, ih, concatAll, String.append_assoc]

theorem int32ValidatorOneOf_of_ne_nil (values : List Int) (h : values ≠ []) :
    Int32ValidatorOneOf values =
      some { Imports := [Int32ValidatorCodeImport], SchemaDefinition := oneOfText values } := by
  have hlen : ¬ values.length = 0 := by simpa using h
  unfold Int32ValidatorOneOf
  simp only [hlen, if_false, foldl_append_concatAll]
  rfl

theorem int32ValidatorOneOf_nil : Int32ValidatorOneOf [] = none := rfl

theorem enumValidators_of_decoded (env : Env) (s : OASSchema)
    (h : s.Schema.Enum.filterMap env.decodeInt32 ≠ []) :
    enumValidators env s =
      [{ Custom := some
          { Imports := [Int32ValidatorCodeImport]
            SchemaDefinition := oneOfText (s.Schema.Enum.filterMap env.decodeInt32) } }] := by
  have hlen : s.Schema.Enum.length > 0 := by
    cases hE : s.Schema.Enum with
    | nil => simp [hE] at h
    | cons _ _ => simp
  unfold enumValidators
  simp only [hlen, if_true, decodeEnumInt32_eq_filterMap, int32ValidatorOneOf_of_ne_nil _ h]

theorem enumValidators_of_none_decoded (env : Env) (s : OASSchema)
    (h : s.Schema.Enum.filterMap env.decodeInt32 = []) :
    enumValidators env s = [] := by
  unfold enumValidators
  rw [decodeEnumInt32_eq_filterMap, h, int32ValidatorOneOf_nil]
  simp

theorem oneOf_text_kinds (values : List Int) (imports : List Import) :
    Int32Validator.isOneOf
        { Custom := some { Imports := imports, SchemaDefinition := oneOfText values } } = true ∧
      Int32Validator.isBounds
        { Custom := some { Imports := imports, SchemaDefinition := oneOfText values } } = false := by
  simp [Int32Validator.isOneOf, Int32Validator.isBounds, Int32Validator.isAtLeast,
    Int32Validator.isAtMost, Int32Validator.isBetween, textStartsWith, oneOfText,
    String.data_append, List.isPrefixOf]

theorem between_kinds (a b : Int) :
    Int32Validator.isBetween { Custom := Int32ValidatorBetween a b } = true ∧
    Int32Validator.isAtLeast { Custom := Int32ValidatorBetween a b } = false ∧
    Int32Validator.isAtMost { Custom := Int32ValidatorBetween a b } = false ∧
    Int32Validator.isOneOf { Custom := Int32ValidatorBetween a b } = false := by
  simp [Int32Validator.isOneOf, Int32Validator.isAtLeast,
    Int32Validator.isAtMost, Int32Validator.isBetween, textStartsWith, Int32ValidatorBetween,
    Int32ValidatorPackage, String.data_append, List.isPrefixOf]

theorem atLeast_kinds (a : Int) :
    Int32Validator.isAtLeast { Custom := Int32ValidatorAtLeast a } = true ∧
    Int32Validator.isBetween { Custom := Int32ValidatorAtLeast a } = false ∧
    Int32Validator.isAtMost { Custom := Int32ValidatorAtLeast a } = false ∧
    Int32Validator.isOneOf { Custom := Int32ValidatorAtLeast a } = false := by
  simp [Int32Validator.isOneOf, Int32Validator.isAtLeast,
    Int32Validator.isAtMost, Int32Validator.isBetween, textStartsWith, Int32ValidatorAtLeast,
    Int32ValidatorPackage, String.data_append, List.isPrefixOf]

theorem atMost_kinds (a : Int) :
    Int32Validator.isAtMost { Custom := Int32ValidatorAtMost a } = true ∧
    Int32Validator.isBetween { Custom := Int32ValidatorAtMost a } = false ∧
    Int32Validator.isAtLeast { Custom := Int32ValidatorAtMost a } = false ∧
    Int32Validator.isOneOf { Custom := Int32ValidatorAtMost a } = false := by
  simp [Int32Validator.isOneOf, Int32Validator.isAtLeast,
    Int32Validator.isAtMost, Int32Validator.isBetween, textStartsWith, Int32ValidatorAtMost,
    Int32ValidatorPackage, String.data_append, List.isPrefixOf]

theorem enumValidators_kinds (env : Env) (s : OASSchema) :
    ∀ v ∈ enumValidators env s, v.isOneOf = true ∧ v.isBounds = false := by
  intro v hv
  by_cases h : s.Schema.Enum.filterMap env.decodeInt32 = []
  · simp [enumValidators_of_none_decoded env s h] at hv
  · rw [enumValidators_of_decoded env s h] at hv
    simp only [List.mem_singleton] at hv
    subst hv
    exact oneOf_text_kinds _ _

/-! ## Data source computability (C11) and validators against computability (C12) -/

/-- C11 as stated is false: the schema with default literal `123` decodes to `123`, and
`BuildIntegerDataSource` called with Required returns a Required attribute, not a
ComputedOptional one. -/
theorem build_integer_dataSource_required_with_default_counterexample :
    ¬ (∀ (env : Env) (s : OASSchema) (name : String) (node : YamlNode) (v : Int),
        s.Schema.Default = some node → env.decodeInt32 node = some v →
        ∃ r : DataSourceInt32Attribute,
          (s.BuildIntegerDataSource env name .Required).1 = .Int32 r ∧
          r.ComputedOptionalRequired = .ComputedOptional ∧
          r.ComputedOptionalRequired ≠ .Required) := by
  intro h
  obtain ⟨r, hr, hc, _⟩ := h exampleEnv exampleSchemaDefault123 "count"
    { Kind := ScalarNode, Value := "123" } 123 rfl (by decide)
  have hr2 : r = { Name := "count", ComputedOptionalRequired := .Required } := by
    have : (exampleSchemaDefault123.BuildIntegerDataSource exampleEnv "count" .Required).1
        = .Int32 { Name := "count", ComputedOptionalRequired := .Required } := by decide
    rw [this] at hr
    injection hr with hr
    exact hr.symm
  rw [hr2] at hc
  exact absurd hc (by decide)

/-- C11, amended: for every integer schema, whether or not it has a default literal that
decodes, `BuildIntegerDataSource` returns the nil error and an Int32 attribute whose
computability is exactly the one passed in, so called with Required it returns Required;
the demotion of a Required attribute with a default to ComputedOptional is done for
resource attributes only. -/
theorem build_integer_dataSource_keeps_computability
    (env : Env) (s : OASSchema) (name : String) (c : ComputedOptionalRequired) :
    (∃ r : DataSourceInt32Attribute,
      s.BuildIntegerDataSource env name c = (.Int32 r, none) ∧
      r.ComputedOptionalRequired = c) ∧
    (∃ r : DataSourceInt32Attribute,
      s.BuildIntegerDataSource env name .Required = (.Int32 r, none) ∧
      r.ComputedOptionalRequired = .Required) := by
  constructor
  · refine ⟨_, rfl, ?_⟩
    cases c <;> simp
  · exact ⟨_, rfl, by simp⟩

/-- C12: `BuildIntegerResource` and `BuildIntegerDataSource` return an Int32 attribute with no
validators when called with Computed and with `GetIntegerValidators` of the schema when
called with any other computability; for a number schema of format `float` or `double`,
`BuildNumberResource` and `BuildNumberDataSource` do the same with `GetFloatValidators`. -/
theorem validators_only_when_not_computed
    (env : Env) (s sf : OASSchema) (name : String) (c : ComputedOptionalRequired)
    (hf : sf.Format = "float" ∨ sf.Format = "double") :
    (∃ r : ResourceInt32Attribute, (s.BuildIntegerResource env name c).1 = .Int32 r ∧
      r.Validators = if c = .Computed then [] else s.GetIntegerValidators env) ∧
    (∃ r : DataSourceInt32Attribute, (s.BuildIntegerDataSource env name c).1 = .Int32 r ∧
      r.Validators = if c = .Computed then [] else s.GetIntegerValidators env) ∧
    (∃ r : ResourceFloat64Attribute, (sf.BuildNumberResource env name c).1 = .Float64 r ∧
      r.Validators = if c = .Computed then [] else sf.GetFloatValidators env) ∧
    (∃ r : DataSourceFloat64Attribute, (sf.BuildNumberDataSource env name c).1 = .Float64 r ∧
      r.Validators = if c = .Computed then [] else sf.GetFloatValidators env) := by
  have hf2 : sf.Format = OAS_format_double ∨ sf.Format = OAS_format_float := by
    rcases hf with h | h
    · exact Or.inr h
    · exact Or.inl h
  refine ⟨⟨_, rfl, ?_⟩, ⟨_, rfl, ?_⟩,
    ⟨_, by simp only [OASSchema.BuildNumberResource, if_pos hf2]; rfl, ?_⟩,
    ⟨_, by simp only [OASSchema.BuildNumberDataSource, if_pos hf2]; rfl, ?_⟩⟩
  · cases c <;> cases hd : s.Schema.Default with
    | none => simp
    | some node => cases hv : env.decodeInt32 node <;> simp [hv]
  · cases c <;> simp
  · cases c <;> cases hd : sf.Schema.Default with
    | none => simp
    | some node => cases hv : env.decodeFloat64 node <;> simp [hv]
  · cases c <;> simp

/-- The validator rule at Computed for the schema with enum `1`, `2` and a `double` schema:
no validators at all. -/
theorem validators_only_when_not_computed_witness :
    (exampleSchemaDoubleDefault123.Format = "float" ∨
      exampleSchemaDoubleDefault123.Format = "double") ∧
    (∃ r : ResourceInt32Attribute,
      (exampleSchemaEnum.BuildIntegerResource exampleEnv "count" .Computed).1 = .Int32 r ∧
      r.Validators = []) ∧
    (∃ r : DataSourceInt32Attribute,
      (exampleSchemaEnum.BuildIntegerDataSource exampleEnv "count" .Computed).1 = .Int32 r ∧
      r.Validators = []) :=
  have w := validators_only_when_not_computed exampleEnv exampleSchemaEnum
    exampleSchemaDoubleDefault123 "count" .Computed (Or.inr rfl)
  ⟨Or.inr rfl, w.1, w.2.1⟩

/-! ## Bounds validators (C13, C14) -/

/-- C13: for an integer schema with both Minimum and Maximum present, `GetIntegerValidators`
returns the enum validators followed by exactly one bounds validator, the `Between`
descriptor of the two converted bounds: filtering the result for bounds validators leaves
that single `Between`, and no element of the result is an `AtLeast` or an `AtMost`. -/
theorem getIntegerValidators_both_bounds_between
    (env : Env) (s : OASSchema) (mn mx : Float64)
    (hmin : s.Schema.Minimum = some mn) (hmax : s.Schema.Maximum = some mx) :
    (s.GetIntegerValidators env).filter Int32Validator.isBounds =
      [{ Custom := Int32ValidatorBetween (int32OfFloat64 env mn) (int32OfFloat64 env mx) }] ∧
    (s.GetIntegerValidators env).countP Int32Validator.isBetween = 1 ∧
    (∀ v ∈ s.GetIntegerValidators env, v.isAtLeast = false ∧ v.isAtMost = false) ∧
    s.GetIntegerValidators env = enumValidators env s ++
      [{ Custom := Int32ValidatorBetween (int32OfFloat64 env mn) (int32OfFloat64 env mx) }] := by
  have hb : boundsValidators env s =
      [{ Custom := Int32ValidatorBetween (int32OfFloat64 env mn) (int32OfFloat64 env mx) }] := by
    simp [boundsValidators, hmin, hmax]
  have hk := between_kinds (int32OfFloat64 env mn) (int32OfFloat64 env mx)
  have he := enumValidators_kinds env s
  have hbnd : Int32Validator.isBounds
      { Custom := Int32ValidatorBetween (int32OfFloat64 env mn) (int32OfFloat64 env mx) }
        = true := by
    simp [Int32Validator.isBounds, hk.1]
  have hfil : (enumValidators env s).filter Int32Validator.isBounds = [] := by
    rw [List.filter_eq_nil_iff]
    intro v hv
    simp [(he v hv).2]
  have hcnt : (enumValidators env s).countP Int32Validator.isBetween = 0 := by
    rw [List.countP_eq_zero]
    intro v hv
    have h2 := (he v hv).2
    simp only [Int32Validator.isBounds, Bool.or_eq_false_iff] at h2
    simp [h2.2]
  rw [getIntegerValidators_eq_parts, hb]
  refine ⟨?_, ?_, ?_, rfl⟩
  · rw [List.filter_append, hfil]
    simp [hbnd]
  · rw [List.countP_append, hcnt]
    simp [hk.1]
  · intro v hv
    rcases List.mem_append.mp hv with h | h
    · have h2 := (he v h).2
      simp only [Int32Validator.isBounds, Bool.or_eq_false_iff] at h2
      exact ⟨h2.1.1, h2.1.2⟩
    · simp only [List.mem_singleton] at h
      subst h
      exact ⟨hk.2.1, hk.2.2.1⟩

/-- The precedence rule at minimum 123.2 and maximum 456.2: the one validator is
`Between(123, 456)`. -/
theorem getIntegerValidators_both_bounds_between_witness :
    exampleSchemaBothBounds.Schema.Minimum = some exampleBound123point2 ∧
    exampleSchemaBothBounds.Schema.Maximum = some exampleBound456point2 ∧
    (exampleSchemaBothBounds.GetIntegerValidators exampleEnv).filter Int32Validator.isBounds =
      [{ Custom := some
          { Imports := [{ Path :=
              "github.com/hashicorp/terraform-plugin-framework-validators/int32validator" }]
            SchemaDefinition := "int32validator.Between(123, 456)" } }] ∧
    (exampleSchemaBothBounds.GetIntegerValidators exampleEnv).countP
      Int32Validator.isBetween = 1 :=
  have w := getIntegerValidators_both_bounds_between exampleEnv exampleSchemaBothBounds
    exampleBound123point2 exampleBound456point2 rfl rfl
  ⟨rfl, rfl, w.1.trans (by decide), w.2.1⟩

/-- C14: for an integer schema with no enum, `GetIntegerValidators` returns exactly one
validator, the `AtLeast` descriptor of the converted minimum, when only Minimum is present;
exactly one validator, the `AtMost` descriptor of the converted maximum, when only Maximum
is present; and the empty (nil) result when neither bound is present. -/
theorem getIntegerValidators_single_bound
    (env : Env) (s1 s2 s3 : OASSchema) (mn mx : Float64)
    (he1 : s1.Schema.Enum = []) (hmin1 : s1.Schema.Minimum = some mn)
    (hmax1 : s1.Schema.Maximum = none)
    (he2 : s2.Schema.Enum = []) (hmin2 : s2.Schema.Minimum = none)
    (hmax2 : s2.Schema.Maximum = some mx)
    (he3 : s3.Schema.Enum = []) (hmin3 : s3.Schema.Minimum = none)
    (hmax3 : s3.Schema.Maximum = none) :
    (s1.GetIntegerValidators env = [{ Custom := Int32ValidatorAtLeast (int32OfFloat64 env mn) }] ∧
      Int32Validator.isAtLeast { Custom := Int32ValidatorAtLeast (int32OfFloat64 env mn) }
        = true) ∧
    (s2.GetIntegerValidators env = [{ Custom := Int32ValidatorAtMost (int32OfFloat64 env mx) }] ∧
      Int32Validator.isAtMost { Custom := Int32ValidatorAtMost (int32OfFloat64 env mx) }
        = true) ∧
    s3.GetIntegerValidators env = [] := by
  refine ⟨⟨?_, (atLeast_kinds _).1⟩, ⟨?_, (atMost_kinds _).1⟩, ?_⟩
  · simp [OASSchema.GetIntegerValidators, he1, hmin1, hmax1]
  · simp [OASSchema.GetIntegerValidators, he2, hmin2, hmax2]
  · simp [OASSchema.GetIntegerValidators, he3, hmin3, hmax3]

/-- The single-bound rule at the schemas of the validator tests: `AtLeast(123)`,
`AtMost(123)` and no validator. -/
theorem getIntegerValidators_single_bound_witness :
    (exampleSchemaMinimum.Schema.Enum = [] ∧
      exampleSchemaMinimum.Schema.Minimum = some (.finite 123) ∧
      exampleSchemaMinimum.Schema.Maximum = none) ∧
    (exampleSchemaMaximum.Schema.Enum = [] ∧
      exampleSchemaMaximum.Schema.Minimum = none ∧
      exampleSchemaMaximum.Schema.Maximum = some (.finite 123)) ∧
    (exampleSchemaPlain.Schema.Enum = [] ∧
      exampleSchemaPlain.Schema.Minimum = none ∧
      exampleSchemaPlain.Schema.Maximum = none) ∧
    exampleSchemaMinimum.GetIntegerValidators exampleEnv =
      [{ Custom := some
          { Imports := [{ Path :=
              "github.com/hashicorp/terraform-plugin-framework-validators/int32validator" }]
            SchemaDefinition := "int32validator.AtLeast(123)" } }] ∧
    exampleSchemaMaximum.GetIntegerValidators exampleEnv =
      [{ Custom := some
          { Imports := [{ Path :=
              "github.com/hashicorp/terraform-plugin-framework-validators/int32validator" }]
            SchemaDefinition := "int32validator.AtMost(123)" } }] ∧
    exampleSchemaPlain.GetIntegerValidators exampleEnv = [] :=
  have w := getIntegerValidators_single_bound exampleEnv exampleSchemaMinimum
    exampleSchemaMaximum exampleSchemaPlain (.finite 123) (.finite 123)
    rfl rfl rfl rfl rfl rfl rfl rfl rfl
  ⟨⟨rfl, rfl, rfl⟩, ⟨rfl, rfl, rfl⟩, ⟨rfl, rfl, rfl⟩, w.1.1.trans (by decide),
    w.2.1.1.trans (by decide), w.2.2⟩

/-! ## Enum validators (C15, C16) -/

theorem boundsValidators_kinds (env : Env) (s : OASSchema) :
    ∀ v ∈ boundsValidators env s, v.isOneOf = false ∧ v.isBounds = true := by
  intro v hv
  unfold boundsValidators at hv
  cases hmin : s.Schema.Minimum <;> cases hmax : s.Schema.Maximum <;>
    simp only [hmin, hmax, List.mem_singleton, List.not_mem_nil] at hv
  · subst hv
    have h := atMost_kinds (int32OfFloat64 env ‹Float64›)
    exact ⟨h.2.2.2, by simp [Int32Validator.isBounds, h.1]⟩
  · subst hv
    have h := atLeast_kinds (int32OfFloat64 env ‹Float64›)
    exact ⟨h.2.2.2, by simp [Int32Validator.isBounds, h.1]⟩
  · subst hv
    rename_i mn mx
    have h := between_kinds (int32OfFloat64 env mn) (int32OfFloat64 env mx)
    exact ⟨h.2.2.2, by simp [Int32Validator.isBounds, h.1]⟩

theorem boundsValidators_length_le_one (env : Env) (s : OASSchema) :
    (boundsValidators env s).length ≤ 1 := by
  unfold boundsValidators
  cases s.Schema.Minimum <;> cases s.Schema.Maximum <;> simp

/-- C15: enum literals that fail to decode never abort a build: when at least one literal
of the enum decodes as `int32`, `GetIntegerValidators` returns first the `OneOf` descriptor
of exactly the decodable literals in their original order (the others skipped), rendered
one value per line, followed by the bounds validator if any; and the three integer builders
return the nil error and an Int32 attribute, the provider builder always carrying these
validators and the resource and data source builders carrying them unless the computability
is Computed, for which they attach no validator at all. -/
theorem enum_decode_failures_skipped
    (env : Env) (s : OASSchema) (name : String) (c : ComputedOptionalRequired)
    (o : OptionalRequired)
    (hdec : s.Schema.Enum.filterMap env.decodeInt32 ≠ []) :
    s.GetIntegerValidators env =
      { Custom := Int32ValidatorOneOf (s.Schema.Enum.filterMap env.decodeInt32) } ::
        boundsValidators env s ∧
    Int32ValidatorOneOf (s.Schema.Enum.filterMap env.decodeInt32) =
      some { Imports := [Int32ValidatorCodeImport]
             SchemaDefinition :=
               "int32validator.OneOf(\n" ++
                 concatAll ((s.Schema.Enum.filterMap env.decodeInt32).map
                   (fun v => FormatInt v ++ ",\n")) ++ ")" } ∧
    (∃ r : ResourceInt32Attribute, s.BuildIntegerResource env name c = (.Int32 r, none) ∧
      r.Validators = if c = .Computed then [] else s.GetIntegerValidators env) ∧
    (∃ r : DataSourceInt32Attribute, s.BuildIntegerDataSource env name c = (.Int32 r, none) ∧
      r.Validators = if c = .Computed then [] else s.GetIntegerValidators env) ∧
    (∃ r : ProviderInt32Attribute, s.BuildIntegerProvider env name o = (.Int32 r, none) ∧
      r.Validators = s.GetIntegerValidators env) := by
  refine ⟨?_, int32ValidatorOneOf_of_ne_nil _ hdec, ⟨_, rfl, ?_⟩, ⟨_, rfl, ?_⟩, ⟨_, rfl, rfl⟩⟩
  · rw [getIntegerValidators_eq_parts, enumValidators_of_decoded env s hdec,
      int32ValidatorOneOf_of_ne_nil _ hdec]
    rfl
  · cases c <;> cases hd : s.Schema.Default with
    | none => simp
    | some node => cases hv : env.decodeInt32 node <;> simp [hv]
  · cases c <;> simp

/-- The enum rule at the literals `3`, `abc`, `1`, `9999999999`, `3`: the validator lists
`3`, `1`, `3`. -/
theorem enum_decode_failures_skipped_witness :
    exampleSchemaEnumMixed.Schema.Enum.filterMap exampleEnv.decodeInt32 ≠ [] ∧
    exampleSchemaEnumMixed.Schema.Enum.filterMap exampleEnv.decodeInt32 = [3, 1, 3] ∧
    exampleSchemaEnumMixed.GetIntegerValidators exampleEnv =
      [{ Custom := some
          { Imports := [{ Path :=
              "github.com/hashicorp/terraform-plugin-framework-validators/int32validator" }]
            SchemaDefinition := "int32validator.OneOf(\n3,\n1,\n3,\n)" } }] ∧
    (∃ r : ResourceInt32Attribute,
      exampleSchemaEnumMixed.BuildIntegerResource exampleEnv "count" .Required
        = (.Int32 r, none) ∧
      r.Validators = exampleSchemaEnumMixed.GetIntegerValidators exampleEnv) :=
  have w := enum_decode_failures_skipped exampleEnv exampleSchemaEnumMixed "count" .Required
    .Optional (by decide)
  ⟨by decide, by decide, w.1.trans (by decide), w.2.2.1⟩

/-- C16: when none of the enum literals of an integer schema decodes as `int32`, and so in
particular when the enum is not empty but holds only undecodable literals,
`GetIntegerValidators` emits no `OneOf` validator: the result is what the schema without
the enum gives, at most one validator and that one a bounds validator; and when none of the
literals of a number schema decodes as `float64`, `GetFloatValidators` is empty, given that
`Float64ValidatorOneOf` returns nil for an empty slice. -/
theorem no_oneOf_when_no_enum_literal_decodes
    (env : Env) (s sf : OASSchema)
    (hdec : s.Schema.Enum.filterMap env.decodeInt32 = [])
    (hdecf : sf.Schema.Enum.filterMap env.decodeFloat64 = [])
    (hnil : Float64OneOfNilOnEmpty env) :
    s.GetIntegerValidators env =
      OASSchema.GetIntegerValidators { s with Schema := { s.Schema with Enum := [] } } env ∧
    (s.GetIntegerValidators env).all (fun v => !v.isOneOf && v.isBounds) = true ∧
    (s.GetIntegerValidators env).length ≤ 1 ∧
    sf.GetFloatValidators env = [] := by
  have hparts : s.GetIntegerValidators env = boundsValidators env s := by
    rw [getIntegerValidators_eq_parts, enumValidators_of_none_decoded env s hdec]
    rfl
  refine ⟨?_, ?_, ?_, ?_⟩
  · rw [hparts, getIntegerValidators_eq_parts]
    simp [enumValidators, boundsValidators]
  · rw [hparts, List.all_eq_true]
    intro v hv
    have h := boundsValidators_kinds env s v hv
    simp [h.1, h.2]
  · rw [hparts]
    exact boundsValidators_length_le_one env s
  · unfold Float64OneOfNilOnEmpty at hnil
    unfold OASSchema.GetFloatValidators
    by_cases hlen : sf.Schema.Enum.length > 0
    · simp only [hlen, if_true, decodeEnumFloat64_eq_filterMap, hdecf, hnil]
    · simp only [hlen, if_false]

/-- The rule at enums `abc`, `x1`: the integer schema keeps only its `AtMost(10)` and the
float schema has no validator. -/
theorem no_oneOf_when_no_enum_literal_decodes_witness :
    exampleSchemaEnumUndecodable.Schema.Enum ≠ [] ∧
    exampleSchemaEnumUndecodable.Schema.Enum.filterMap exampleEnv.decodeInt32 = [] ∧
    exampleSchemaFloatEnumUndecodable.Schema.Enum ≠ [] ∧
    exampleSchemaFloatEnumUndecodable.Schema.Enum.filterMap exampleEnv.decodeFloat64 = [] ∧
    Float64OneOfNilOnEmpty exampleEnv ∧
    exampleSchemaEnumUndecodable.GetIntegerValidators exampleEnv =
      [{ Custom := some
          { Imports := [{ Path :=
              "github.com/hashicorp/terraform-plugin-framework-validators/int32validator" }]
            SchemaDefinition := "int32validator.AtMost(10)" } }] ∧
    exampleSchemaFloatEnumUndecodable.GetFloatValidators exampleEnv = [] :=
  have w := no_oneOf_when_no_enum_literal_decodes exampleEnv exampleSchemaEnumUndecodable
    exampleSchemaFloatEnumUndecodable (by decide) (by decide) rfl
  ⟨by decide, by decide, by decide, by decide, rfl, w.1.trans (by decide), w.2.2.2⟩

/-! ## Kinds chosen for `integer` and `number` (C17, C18, C19, C20) -/

/-- C17: an `integer` schema maps to the Int32 kind: for every schema, whatever its format,
every name and every computability, `BuildIntegerResource`, `BuildIntegerDataSource` and
`BuildIntegerProvider` return the nil error and an Int32 attribute carrying the given name,
and `BuildIntegerElementType` returns the nil error and the element type whose only
populated variant is `Int32`. -/
theorem integer_maps_to_int32
    (env : Env) (s : OASSchema) (name : String) (c : ComputedOptionalRequired)
    (o : OptionalRequired) :
    (∃ r : ResourceInt32Attribute,
      s.BuildIntegerResource env name c = (.Int32 r, none) ∧ r.Name = name) ∧
    (∃ r : DataSourceInt32Attribute,
      s.BuildIntegerDataSource env name c = (.Int32 r, none) ∧ r.Name = name) ∧
    (∃ r : ProviderInt32Attribute,
      s.BuildIntegerProvider env name o = (.Int32 r, none) ∧ r.Name = name) ∧
    s.BuildIntegerElementType =
      ({ Object := none, Bool := none, Float64 := none, Int32 := some (), Int64 := none,
         Number := none, String := none, List := none, Map := none, Set := none }, none) := by
  refine ⟨⟨_, rfl, ?_⟩, ⟨_, rfl, ?_⟩, ⟨_, rfl, rfl⟩, rfl⟩
  · cases c <;> cases hd : s.Schema.Default with
    | none => simp
    | some node => cases hv : env.decodeInt32 node <;> simp [hv]
  · cases c <;> simp

/-- C18, the code at the failing input: for a schema node of type `integer`, whatever its
format, its schema and the other element builders, `BuildElementType` returns the nil error
and the element type whose populated variant is `Int32`; its `Int64` variant is nil, so the
result is not the Int64 element type that the builder tests expect. -/
theorem buildElementType_integer_gives_int32
    (b : ElementBuilders) (format : String) (node : BaseSchema) :
    OASSchema.BuildElementType { Type_ := "integer", Format := format, Schema := node } b =
      ({ ElementType.empty with Int32 := some () }, none) ∧
    (OASSchema.BuildElementType
      { Type_ := "integer", Format := format, Schema := node } b).1.Int64 = none ∧
    (OASSchema.BuildElementType { Type_ := "integer", Format := format, Schema := node } b).1 ≠
      { ElementType.empty with Int64 := some () } := by
  have h : OASSchema.BuildElementType
      { Type_ := "integer", Format := format, Schema := node } b =
      ({ ElementType.empty with Int32 := some () }, none) := by
    unfold OASSchema.BuildElementType
    have h1 : ¬ ("integer" = OAS_type_string) := by decide
    have h2 : "integer" = OAS_type_integer := rfl
    simp only [h1, h2, if_true, if_false]
    rfl
  refine ⟨h, ?_, ?_⟩
  · rw [h]
    rfl
  · rw [h]
    intro hEq
    have := congrArg ElementType.Int64 hEq
    exact absurd this (by decide)

theorem fromInt32Package_of_text (t : String) :
    Int32Validator.fromInt32Package
      { Custom := some { Imports := [Int32ValidatorCodeImport],
                         SchemaDefinition := "int32validator." ++ t } } = true := by
  have h1 : [Int32ValidatorCodeImport] =
      [{ Path := "github.com/hashicorp/terraform-plugin-framework-validators/int32validator" }] :=
    by decide
  simp [Int32Validator.fromInt32Package, h1, textStartsWith, String.data_append,
    List.isPrefixOf]

theorem getIntegerValidators_all_fromInt32Package (env : Env) (s : OASSchema) :
    (s.GetIntegerValidators env).all Int32Validator.fromInt32Package = true := by
  rw [getIntegerValidators_eq_parts, List.all_append, Bool.and_eq_true]
  constructor
  · by_cases h : s.Schema.Enum.filterMap env.decodeInt32 = []
    · simp [enumValidators_of_none_decoded env s h]
    · rw [enumValidators_of_decoded env s h]
      have := fromInt32Package_of_text
        ("OneOf(\n" ++ concatAll ((s.Schema.Enum.filterMap env.decodeInt32).map
          (fun v => FormatInt v ++ ",\n")) ++ ")")
      have ht : "int32validator." ++ ("OneOf(\n" ++ concatAll
          ((s.Schema.Enum.filterMap env.decodeInt32).map (fun v => FormatInt v ++ ",\n")) ++ ")")
          = oneOfText (s.Schema.Enum.filterMap env.decodeInt32) := by
        unfold oneOfText
        rw [← String.append_assoc, ← String.append_assoc]
        rfl
      rw [ht] at this
      simp [this]
  · unfold boundsValidators
    cases s.Schema.Minimum <;> cases s.Schema.Maximum
    · simp
    · rename_i mx
      have := fromInt32Package_of_text ("AtMost(" ++ FormatInt (int32OfFloat64 env mx) ++ ")")
      have ht : Int32ValidatorAtMost (int32OfFloat64 env mx) =
          some { Imports := [Int32ValidatorCodeImport],
                 SchemaDefinition := "int32validator." ++
                   ("AtMost(" ++ FormatInt (int32OfFloat64 env mx) ++ ")") } := by
        simp only [Int32ValidatorAtMost, Int32ValidatorPackage, ← String.append_assoc]
        rfl
      simp [ht, this]
    · rename_i mn
      have := fromInt32Package_of_text ("AtLeast(" ++ FormatInt (int32OfFloat64 env mn) ++ ")")
      have ht : Int32ValidatorAtLeast (int32OfFloat64 env mn) =
          some { Imports := [Int32ValidatorCodeImport],
                 SchemaDefinition := "int32validator." ++
                   ("AtLeast(" ++ FormatInt (int32OfFloat64 env mn) ++ ")") } := by
        simp only [Int32ValidatorAtLeast, Int32ValidatorPackage, ← String.append_assoc]
        rfl
      simp [ht, this]
    · rename_i mn mx
      have := fromInt32Package_of_text ("Between(" ++ FormatInt (int32OfFloat64 env mn) ++ ", "
        ++ FormatInt (int32OfFloat64 env mx) ++ ")")
      have ht : Int32ValidatorBetween (int32OfFloat64 env mn) (int32OfFloat64 env mx) =
          some { Imports := [Int32ValidatorCodeImport],
                 SchemaDefinition := "int32validator." ++
                   ("Between(" ++ FormatInt (int32OfFloat64 env mn) ++ ", "
                      ++ FormatInt (int32OfFloat64 env mx) ++ ")") } := by
        simp only [Int32ValidatorBetween, Int32ValidatorPackage, ← String.append_assoc]
        rfl
      simp [ht, this]

/-- C19, the code at the failing input: every validator that `GetIntegerValidators` emits,
for every integer schema, imports the single path of the `int32validator` package and has an
expression text beginning with `int32validator.`, never with `int64validator.`; for the enum
`1`, `2` the text is `int32validator.OneOf(` with the two values, not the `int64validator`
descriptor that the builder tests expect. -/
theorem getIntegerValidators_uses_int32validator (env : Env) (s : OASSchema) :
    (s.GetIntegerValidators env).all Int32Validator.fromInt32Package = true ∧
    exampleSchemaEnum.GetIntegerValidators exampleEnv =
      [{ Custom := some
          { Imports := [{ Path :=
              "github.com/hashicorp/terraform-plugin-framework-validators/int32validator" }]
            SchemaDefinition := "int32validator.OneOf(\n1,\n2,\n)" } }] ∧
    exampleSchemaEnum.GetIntegerValidators exampleEnv ≠
      [{ Custom := some
          { Imports := [{ Path :=
              "github.com/hashicorp/terraform-plugin-framework-validators/int64validator" }]
            SchemaDefinition := "int64validator.OneOf(\n1,\n2,\n)" } }] :=
  ⟨getIntegerValidators_all_fromInt32Package env s, by decide, by decide⟩

theorem format_test_iff (s : OASSchema) :
    (s.Format = OAS_format_double ∨ s.Format = OAS_format_float) ↔
      (s.Format = "float" ∨ s.Format = "double") := Or.comm

/-- C20: a `number` schema maps to the Float64 kind exactly when its format is `float` or
`double` and to the Number kind exactly otherwise (absent and unrecognised formats
included), with the nil error, uniformly for `BuildNumberResource`, `BuildNumberDataSource`,
`BuildNumberProvider` and `BuildNumberElementType`. -/
theorem number_maps_by_format
    (env : Env) (s : OASSchema) (name : String) (c : ComputedOptionalRequired)
    (o : OptionalRequired) :
    (((∃ r, s.BuildNumberResource env name c = (.Float64 r, none)) ↔
        (s.Format = "float" ∨ s.Format = "double")) ∧
      ((∃ r, s.BuildNumberResource env name c = (.Number r, none)) ↔
        ¬ (s.Format = "float" ∨ s.Format = "double"))) ∧
    (((∃ r, s.BuildNumberDataSource env name c = (.Float64 r, none)) ↔
        (s.Format = "float" ∨ s.Format = "double")) ∧
      ((∃ r, s.BuildNumberDataSource env name c = (.Number r, none)) ↔
        ¬ (s.Format = "float" ∨ s.Format = "double"))) ∧
    (((∃ r, s.BuildNumberProvider env name o = (.Float64 r, none)) ↔
        (s.Format = "float" ∨ s.Format = "double")) ∧
      ((∃ r, s.BuildNumberProvider env name o = (.Number r, none)) ↔
        ¬ (s.Format = "float" ∨ s.Format = "double"))) ∧
    ((s.BuildNumberElementType = ({ ElementType.empty with Float64 := some () }, none) ↔
        (s.Format = "float" ∨ s.Format = "double")) ∧
      (s.BuildNumberElementType = ({ ElementType.empty with Number := some () }, none) ↔
        ¬ (s.Format = "float" ∨ s.Format = "double"))) := by
  have hne : ({ ElementType.empty with Float64 := some () } : ElementType) ≠
      { ElementType.empty with Number := some () } := by
    intro hEq
    have := congrArg ElementType.Float64 hEq
    exact absurd this (by decide)
  rw [← format_test_iff]
  by_cases h : s.Format = OAS_format_double ∨ s.Format = OAS_format_float
  · have hR : ∃ r, s.BuildNumberResource env name c = (.Float64 r, none) :=
      ⟨_, by simp only [OASSchema.BuildNumberResource, if_pos h]; rfl⟩
    have hD : ∃ r, s.BuildNumberDataSource env name c = (.Float64 r, none) :=
      ⟨_, by simp only [OASSchema.BuildNumberDataSource, if_pos h]; rfl⟩
    have hP : ∃ r, s.BuildNumberProvider env name o = (.Float64 r, none) :=
      ⟨_, by simp only [OASSchema.BuildNumberProvider, if_pos h]; rfl⟩
    have hE : s.BuildNumberElementType = ({ ElementType.empty with Float64 := some () }, none) :=
      by simp only [OASSchema.BuildNumberElementType, if_pos h]
    obtain ⟨r1, h1⟩ := hR
    obtain ⟨r2, h2⟩ := hD
    obtain ⟨r3, h3⟩ := hP
    refine ⟨⟨⟨fun _ => h, fun _ => ⟨r1, h1⟩⟩, ⟨?_, fun hn => absurd h hn⟩⟩,
      ⟨⟨fun _ => h, fun _ => ⟨r2, h2⟩⟩, ⟨?_, fun hn => absurd h hn⟩⟩,
      ⟨⟨fun _ => h, fun _ => ⟨r3, h3⟩⟩, ⟨?_, fun hn => absurd h hn⟩⟩,
      ⟨⟨fun _ => h, fun _ => hE⟩, ⟨?_, fun hn => absurd h hn⟩⟩⟩
    · rintro ⟨r, hr⟩
      rw [h1] at hr
      simp at hr
    · rintro ⟨r, hr⟩
      rw [h2] at hr
      simp at hr
    · rintro ⟨r, hr⟩
      rw [h3] at hr
      simp at hr
    · intro hEq
      rw [hE] at hEq
      exact absurd (congrArg Prod.fst hEq) hne
  · have hR : ∃ r, s.BuildNumberResource env name c = (.Number r, none) :=
      ⟨_, by simp only [OASSchema.BuildNumberResource, if_neg h]; rfl⟩
    have hD : ∃ r, s.BuildNumberDataSource env name c = (.Number r, none) :=
      ⟨_, by simp only [OASSchema.BuildNumberDataSource, if_neg h]; rfl⟩
    have hP : ∃ r, s.BuildNumberProvider env name o = (.Number r, none) :=
      ⟨_, by simp only [OASSchema.BuildNumberProvider, if_neg h]; rfl⟩
    have hE : s.BuildNumberElementType = ({ ElementType.empty with Number := some () }, none) :=
      by simp only [OASSchema.BuildNumberElementType, if_neg h]
    obtain ⟨r1, h1⟩ := hR
    obtain ⟨r2, h2⟩ := hD
    obtain ⟨r3, h3⟩ := hP
    refine ⟨⟨⟨?_, fun hp => absurd hp h⟩, ⟨fun _ => h, fun _ => ⟨r1, h1⟩⟩⟩,
      ⟨⟨?_, fun hp => absurd hp h⟩, ⟨fun _ => h, fun _ => ⟨r2, h2⟩⟩⟩,
      ⟨⟨?_, fun hp => absurd hp h⟩, ⟨fun _ => h, fun _ => ⟨r3, h3⟩⟩⟩,
      ⟨⟨?_, fun hp => absurd hp h⟩, ⟨fun _ => h, fun _ => hE⟩⟩⟩
    · rintro ⟨r, hr⟩
      rw [h1] at hr
      simp at hr
    · rintro ⟨r, hr⟩
      rw [h2] at hr
      simp at hr
    · rintro ⟨r, hr⟩
      rw [h3] at hr
      simp at hr
    · intro hEq
      rw [hE] at hEq
      exact absurd (congrArg Prod.fst hEq).symm hne

/-! ## The arbitrary-precision number (C21) and unsupported types (C22) -/

/-- C21: for a number schema whose format is neither `float` nor `double`, whatever default
literal and enum it declares, `BuildNumberResource`, `BuildNumberDataSource` and
`BuildNumberProvider` return the nil error and a Number attribute with the given name, no
default (the resource flavour is the one with a default field), no validators, and the
computability exactly as passed in, so Required stays Required. -/
theorem number_without_float_format_is_bare
    (env : Env) (s : OASSchema) (name : String) (c : ComputedOptionalRequired)
    (o : OptionalRequired) (hf : ¬ (s.Format = "float" ∨ s.Format = "double")) :
    s.BuildNumberResource env name c =
      (.Number
        { Name := name, ComputedOptionalRequired := c, Default := none,
          DeprecationMessage := env.GetDeprecationMessage s,
          Description := env.GetDescription s, Validators := [] }, none) ∧
    s.BuildNumberDataSource env name c =
      (.Number
        { Name := name, ComputedOptionalRequired := c,
          DeprecationMessage := env.GetDeprecationMessage s,
          Description := env.GetDescription s, Validators := [] }, none) ∧
    s.BuildNumberProvider env name o =
      (.Number
        { Name := name, OptionalRequired := o,
          DeprecationMessage := env.GetDeprecationMessage s,
          Description := env.GetDescription s, Validators := [] }, none) := by
  have h : ¬ (s.Format = OAS_format_double ∨ s.Format = OAS_format_float) :=
    fun h => hf ((format_test_iff s).mp h)
  refine ⟨?_, ?_, ?_⟩
  · simp only [OASSchema.BuildNumberResource, if_neg h]
  · simp only [OASSchema.BuildNumberDataSource, if_neg h]
  · simp only [OASSchema.BuildNumberProvider, if_neg h]

/-- The bare Number attribute at a Required number without format whose default literal
`123` decodes and whose enum is `1`, `2`. -/
theorem number_without_float_format_is_bare_witness :
    ¬ (exampleSchemaNumberPlain.Format = "float" ∨ exampleSchemaNumberPlain.Format = "double") ∧
    (exampleSchemaNumberPlain.Schema.Default.bind exampleEnv.decodeFloat64
      = some (.finite 123)) ∧
    exampleSchemaNumberPlain.Schema.Enum ≠ [] ∧
    exampleSchemaNumberPlain.BuildNumberResource exampleEnv "ratio" .Required =
      (.Number
        { Name := "ratio", ComputedOptionalRequired := .Required, Default := none,
          DeprecationMessage := none, Description := none, Validators := [] }, none) :=
  have w := number_without_float_format_is_bare exampleEnv exampleSchemaNumberPlain "ratio"
    .Required .Required (by decide)
  ⟨by decide, by decide, by decide, w.1⟩

/-- C22: for a schema node whose type is none of string, integer, number, boolean, array and
object (the empty type included), `BuildElementType` returns the empty element type and the
`SchemaError` made from the message `invalid schema type` followed by the type in single
quotes, the schema node and the kind `Type`; for the types integer and number it returns
the nil error. -/
theorem buildElementType_unsupported_type_fails
    (b : ElementBuilders) (s sn : OASSchema)
    (h1 : s.Type_ ≠ "string") (h2 : s.Type_ ≠ "integer") (h3 : s.Type_ ≠ "number")
    (h4 : s.Type_ ≠ "boolean") (h5 : s.Type_ ≠ "array") (h6 : s.Type_ ≠ "object")
    (hn : sn.Type_ = "integer" ∨ sn.Type_ = "number") :
    s.BuildElementType b =
      (ElementType.empty,
        some (SchemaErrorFromNode ("invalid schema type \x27" ++ s.Type_ ++ "\x27") s.Schema
          SchemaErrorType.Type_)) ∧
    (∃ e : SchemaError, (s.BuildElementType b).2 = some e ∧
      e.err = "invalid schema type \x27" ++ s.Type_ ++ "\x27" ∧
      e.errType = SchemaErrorType.Type_) ∧
    (sn.BuildElementType b).2 = none := by
  have hs : s.BuildElementType b =
      (ElementType.empty,
        some (SchemaErrorFromNode ("invalid schema type \x27" ++ s.Type_ ++ "\x27") s.Schema
          SchemaErrorType.Type_)) := by
    unfold OASSchema.BuildElementType
    simp only [OAS_type_string, OAS_type_integer, OAS_type_number, OAS_type_boolean,
      OAS_type_array, OAS_type_object, h1, h2, h3, h4, h5, h6, if_false]
  refine ⟨hs, ⟨_, by rw [hs], rfl, rfl⟩, ?_⟩
  unfold OASSchema.BuildElementType
  rcases hn with h | h
  · have e1 : ¬ (sn.Type_ = OAS_type_string) := by rw [h]; decide
    have e2 : sn.Type_ = OAS_type_integer := h
    rw [if_neg e1, if_pos e2]
    rfl
  · have e1 : ¬ (sn.Type_ = OAS_type_string) := by rw [h]; decide
    have e2 : ¬ (sn.Type_ = OAS_type_integer) := by rw [h]; decide
    have e3 : sn.Type_ = OAS_type_number := h
    rw [if_neg e1, if_neg e2, if_pos e3]
    unfold OASSchema.BuildNumberElementType
    split <;> rfl

/-- The unsupported-type error at the empty type. -/
theorem buildElementType_unsupported_type_fails_witness :
    (exampleSchemaPlain.Type_ = "integer" ∨
      exampleSchemaPlain.Type_ = "number") ∧
    OASSchema.BuildElementType { Type_ := "" } exampleElementBuilders =
      (ElementType.empty,
        some { err := "invalid schema type \x27\x27", errType := SchemaErrorType.Type_ }) ∧
    (exampleSchemaPlain.BuildElementType exampleElementBuilders).2 = none :=
  have w := buildElementType_unsupported_type_fails exampleElementBuilders { Type_ := "" }
    exampleSchemaPlain (by decide) (by decide) (by decide) (by decide)
    (by decide) (by decide) (Or.inl rfl)
  ⟨Or.inl rfl, w.1, w.2.2⟩

/-! ## Base-10 rendering: `FormatInt` read back by `parseDecimal` -/

theorem digitValue_digitChar (k : Nat) (hk : k < 10) :
    digitValue (Nat.digitChar k) = some k := by
  interval_cases k <;> decide

theorem digitChar_ne_zero_char (k : Nat) (hk : k < 10) (hpos : 0 < k) :
    Nat.digitChar k ≠ '0' := by
  interval_cases k <;> decide

theorem parseDigits_toDigitsCore (fuel : Nat) :
    ∀ (n : Nat) (ds : List Char), n < fuel →
      parseDigits (Nat.toDigitsCore 10 fuel n ds) 0 = parseDigits ds n := by
  induction fuel with
  | zero => intro n ds h; omega
  | succ fuel ih =>
    intro n ds h
    have hd : digitValue (Nat.digitChar (n % 10)) = some (n % 10) :=
      digitValue_digitChar _ (Nat.mod_lt _ (by decide))
    by_cases h0 : n / 10 = 0
    · have hn : n % 10 = n := Nat.mod_eq_of_lt (by omega)
      rw [hn] at hd
      simp [Nat.toDigitsCore, h0, parseDigits, hd, hn]
    · have hlt : n / 10 < fuel := by omega
      simp only [Nat.toDigitsCore, h0, if_false]
      rw [ih (n / 10) _ hlt]
      simp only [parseDigits, hd]
      congr 1
      omega

theorem parseDigits_toDigits (n : Nat) : parseDigits (Nat.toDigits 10 n) 0 = some n := by
  unfold Nat.toDigits
  rw [parseDigits_toDigitsCore (n + 1) n [] (by omega)]
  rfl

theorem toDigitsCore_head (fuel : Nat) :
    ∀ (n : Nat) (ds : List Char), n < fuel →
      ∃ c rest, Nat.toDigitsCore 10 fuel n ds = c :: rest ∧ digitValue c ≠ none ∧
        (0 < n → c ≠ '0') := by
  induction fuel with
  | zero => intro n ds h; omega
  | succ fuel ih =>
    intro n ds h
    by_cases h0 : n / 10 = 0
    · refine ⟨Nat.digitChar (n % 10), ds, by simp [Nat.toDigitsCore, h0], ?_, ?_⟩
      · rw [digitValue_digitChar _ (Nat.mod_lt _ (by decide))]
        simp
      · intro hpos
        have hn : n % 10 = n := Nat.mod_eq_of_lt (by omega)
        rw [hn]
        exact digitChar_ne_zero_char n (by omega) hpos
    · obtain ⟨c, rest, hc, hv, hz⟩ := ih (n / 10) (Nat.digitChar (n % 10) :: ds) (by omega)
      refine ⟨c, rest, by simp [Nat.toDigitsCore, h0, hc], hv, fun _ => hz (by omega)⟩

theorem toDigits_head (n : Nat) :
    ∃ c rest, Nat.toDigits 10 n = c :: rest ∧ digitValue c ≠ none ∧ (0 < n → c ≠ '0') :=
  toDigitsCore_head (n + 1) n [] (by omega)

theorem digitValue_minus : digitValue '-' = none := by decide

theorem parseDecimal_formatInt (i : Int) : parseDecimal (FormatInt i) = some i := by
  obtain ⟨c, rest, hc, hv, _⟩ := toDigits_head i.natAbs
  have hp := parseDigits_toDigits i.natAbs
  have hcm : c ≠ '-' := by
    intro h
    rw [h, digitValue_minus] at hv
    exact hv rfl
  unfold FormatInt
  by_cases hneg : i < 0
  · have hdata : ("-" ++ Nat.repr i.natAbs).data = '-' :: Nat.toDigits 10 i.natAbs := by
      simp [String.data_append, Nat.repr, List.asString]
    simp only [hneg, if_true, parseDecimal, hdata]
    have hne : Nat.toDigits 10 i.natAbs ≠ [] := by rw [hc]; simp
    simp only [hne, if_false, hp, Option.map_some', if_true]
    simp [abs_of_neg hneg]
  · have hdata : (Nat.repr i.natAbs).data = Nat.toDigits 10 i.natAbs := by
      simp [Nat.repr, List.asString]
    simp only [hneg, if_false, parseDecimal, hdata]
    rw [hc] at hp ⊢
    simp only [hcm, if_false, hp, Option.map_some']
    simp [abs_of_nonneg (not_lt.mp hneg)]

theorem formatInt_shape (i : Int) :
    (i < 0 → ∃ c rest, (FormatInt i).data = '-' :: c :: rest ∧ c ≠ '0') ∧
    (0 < i → ∃ c rest, (FormatInt i).data = c :: rest ∧ c ≠ '0' ∧ c ≠ '-') ∧
    (i = 0 → FormatInt i = "0") := by
  refine ⟨?_, ?_, ?_⟩
  · intro hneg
    obtain ⟨c, rest, hc, _, hz⟩ := toDigits_head i.natAbs
    refine ⟨c, rest, ?_, hz (by omega)⟩
    unfold FormatInt
    simp [hneg, String.data_append, Nat.repr, List.asString, hc]
  · intro hpos
    obtain ⟨c, rest, hc, hv, hz⟩ := toDigits_head i.natAbs
    have hcm : c ≠ '-' := by
      intro h
      rw [h, digitValue_minus] at hv
      exact hv rfl
    refine ⟨c, rest, ?_, hz (by omega), hcm⟩
    unfold FormatInt
    have : ¬ i < 0 := by omega
    simp [this, Nat.repr, List.asString, hc]
  · intro h0
    subst h0
    decide

/-! ## Validator descriptors (C23, C24, C25, C26, C27) -/

theorem int32ValidatorBetween_eq (a b : Int) :
    Int32ValidatorBetween a b =
      some { Imports :=
               [{ Path :=
                    "github.com/hashicorp/terraform-plugin-framework-validators/int32validator" }]
             SchemaDefinition :=
               "int32validator.Between(" ++ FormatInt a ++ ", " ++ FormatInt b ++ ")" } := by
  simp only [Int32ValidatorBetween, Int32ValidatorPackage, ← String.append_assoc]
  rfl

theorem int32ValidatorAtLeast_eq (a : Int) :
    Int32ValidatorAtLeast a =
      some { Imports :=
               [{ Path :=
                    "github.com/hashicorp/terraform-plugin-framework-validators/int32validator" }]
             SchemaDefinition := "int32validator.AtLeast(" ++ FormatInt a ++ ")" } := by
  simp only [Int32ValidatorAtLeast, Int32ValidatorPackage, ← String.append_assoc]
  rfl

theorem int32ValidatorAtMost_eq (a : Int) :
    Int32ValidatorAtMost a =
      some { Imports :=
               [{ Path :=
                    "github.com/hashicorp/terraform-plugin-framework-validators/int32validator" }]
             SchemaDefinition := "int32validator.AtMost(" ++ FormatInt a ++ ")" } := by
  simp only [Int32ValidatorAtMost, Int32ValidatorPackage, ← String.append_assoc]
  rfl

theorem int32OfFloat64_of_range (env : Env) (q : ℚ) (h : isInt32 (truncate q)) :
    int32OfFloat64 env (.finite q) = truncate q := by
  simp [int32OfFloat64, h]

theorem filter_isBounds_getIntegerValidators (env : Env) (s : OASSchema) :
    (s.GetIntegerValidators env).filter Int32Validator.isBounds = boundsValidators env s := by
  rw [getIntegerValidators_eq_parts, List.filter_append]
  have h1 : (enumValidators env s).filter Int32Validator.isBounds = [] := by
    rw [List.filter_eq_nil_iff]
    intro v hv
    simp [(enumValidators_kinds env s v hv).2]
  have h2 : (boundsValidators env s).filter Int32Validator.isBounds = boundsValidators env s := by
    rw [List.filter_eq_self]
    intro v hv
    exact (boundsValidators_kinds env s v hv).2
  rw [h1, h2]
  rfl

/-- C23: for all values `a` and `b` (the 32-bit ones among them), `Int32ValidatorBetween`
returns a descriptor with exactly one import, the one of the `int32validator` package, and
the expression text `int32validator.Between(<a>, <b>)`, where `<a>` and `<b>` are base-10
renderings (reading them back as decimals gives `a` and `b`); and for every integer schema
with minimum 1 and maximum 10, whatever its other fields, the bounds validator that
`GetIntegerValidators` emits has the text `int32validator.Between(1, 10)`. -/
theorem int32ValidatorBetween_text (env : Env) (a b : Int) (kind format description : String)
    (deprecated : Option Bool) (default : Option YamlNode) (enum : List YamlNode) :
    Int32ValidatorBetween a b =
      some { Imports :=
               [{ Path :=
                    "github.com/hashicorp/terraform-plugin-framework-validators/int32validator" }]
             SchemaDefinition :=
               "int32validator.Between(" ++ FormatInt a ++ ", " ++ FormatInt b ++ ")" } ∧
    [Int32ValidatorCodeImport].length = 1 ∧
    parseDecimal (FormatInt a) = some a ∧ parseDecimal (FormatInt b) = some b ∧
    (OASSchema.GetIntegerValidators
        { Type_ := kind, Format := format,
          Schema := { Description := description, Deprecated := deprecated, Default := default,
                      Enum := enum, Minimum := some (.finite 1), Maximum := some (.finite 10) } }
        env).filter Int32Validator.isBounds =
      [{ Custom := some
          { Imports := [{ Path :=
              "github.com/hashicorp/terraform-plugin-framework-validators/int32validator" }]
            SchemaDefinition := "int32validator.Between(1, 10)" } }] := by
  refine ⟨int32ValidatorBetween_eq a b, rfl, parseDecimal_formatInt a, parseDecimal_formatInt b,
    ?_⟩
  rw [filter_isBounds_getIntegerValidators]
  have h1 : int32OfFloat64 env (.finite 1) = 1 :=
    (int32OfFloat64_of_range env 1 (by decide)).trans (by decide)
  have h10 : int32OfFloat64 env (.finite 10) = 10 :=
    (int32OfFloat64_of_range env 10 (by decide)).trans (by decide)
  simp only [boundsValidators, h1, h10]
  decide

/-- C24: for every value `n`, negative, zero or positive (the 32-bit ones among them),
`Int32ValidatorAtLeast(n)` has the text `int32validator.AtLeast(<n>)` and
`Int32ValidatorAtMost(n)` the text `int32validator.AtMost(<n>)`, each with exactly one import
whose path is that of the `int32validator` package; `<n>` is the base-10 rendering: reading
it back as a decimal gives `n`, it starts with `-` exactly for negatives, and its first
digit is not `0` unless `n` is zero, which renders as `0`. -/
theorem int32ValidatorAtLeast_atMost_text (n : Int) :
    Int32ValidatorAtLeast n =
      some { Imports :=
               [{ Path :=
                    "github.com/hashicorp/terraform-plugin-framework-validators/int32validator" }]
             SchemaDefinition := "int32validator.AtLeast(" ++ FormatInt n ++ ")" } ∧
    Int32ValidatorAtMost n =
      some { Imports :=
               [{ Path :=
                    "github.com/hashicorp/terraform-plugin-framework-validators/int32validator" }]
             SchemaDefinition := "int32validator.AtMost(" ++ FormatInt n ++ ")" } ∧
    parseDecimal (FormatInt n) = some n ∧
    ((n < 0 ∧ ∃ c rest, (FormatInt n).data = '-' :: c :: rest ∧ c ≠ '0') ∨
      (0 < n ∧ ∃ c rest, (FormatInt n).data = c :: rest ∧ c ≠ '0' ∧ c ≠ '-') ∨
      (n = 0 ∧ FormatInt n = "0")) ∧
    Int32ValidatorAtLeast (-2147483648) =
      some { Imports :=
               [{ Path :=
                    "github.com/hashicorp/terraform-plugin-framework-validators/int32validator" }]
             SchemaDefinition := "int32validator.AtLeast(-2147483648)" } ∧
    Int32ValidatorAtMost 0 =
      some { Imports :=
               [{ Path :=
                    "github.com/hashicorp/terraform-plugin-framework-validators/int32validator" }]
             SchemaDefinition := "int32validator.AtMost(0)" } ∧
    Int32ValidatorAtLeast 123 =
      some { Imports :=
               [{ Path :=
                    "github.com/hashicorp/terraform-plugin-framework-validators/int32validator" }]
             SchemaDefinition := "int32validator.AtLeast(123)" } := by
  refine ⟨int32ValidatorAtLeast_eq n, int32ValidatorAtMost_eq n, parseDecimal_formatInt n, ?_,
    by decide, by decide, by decide⟩
  have hs := formatInt_shape n
  rcases lt_trichotomy n 0 with h | h | h
  · exact Or.inl ⟨h, hs.1 h⟩
  · exact Or.inr (Or.inr ⟨h, hs.2.2 h⟩)
  · exact Or.inr (Or.inl ⟨h, hs.2.1 h⟩)

/-- C25: `Int32ValidatorOneOf` returns nil exactly when the given list is nil or empty (both
are the empty list here); for every non-empty list it returns a descriptor. -/
theorem int32ValidatorOneOf_nil_iff (values : List Int) :
    (Int32ValidatorOneOf values = none ↔ values = []) ∧
    ((Int32ValidatorOneOf values).isSome = true ↔ values ≠ []) ∧
    Int32ValidatorOneOf [] = none := by
  have key : Int32ValidatorOneOf values = none ↔ values = [] := by
    constructor
    · intro h
      by_contra hne
      rw [int32ValidatorOneOf_of_ne_nil values hne] at h
      exact absurd h (by simp)
    · intro h
      rw [h]
      rfl
  refine ⟨key, ?_, rfl⟩
  rw [← not_iff_not, not_not, ← key]
  cases Int32ValidatorOneOf values <;> simp

/-- C26: for every non-empty list of values `v1..vn`, `Int32ValidatorOneOf` returns the
descriptor whose expression text is `int32validator.OneOf(` and a line break, then for each
value of the list in its original order, duplicates kept, its base-10 rendering followed by
a comma and a line break, then `)`; with exactly one import, that of the package. -/
theorem int32ValidatorOneOf_text (values : List Int) (h : values ≠ []) :
    Int32ValidatorOneOf values =
      some { Imports :=
               [{ Path :=
                    "github.com/hashicorp/terraform-plugin-framework-validators/int32validator" }]
             SchemaDefinition :=
               "int32validator.OneOf(\n" ++
                 concatAll (values.map (fun v => FormatInt v ++ ",\n")) ++ ")" } ∧
    (values.map (fun v => FormatInt v ++ ",\n")).length = values.length ∧
    values.map (fun v => parseDecimal (FormatInt v)) = values.map some :=
  ⟨int32ValidatorOneOf_of_ne_nil values h, by simp, by simp [parseDecimal_formatInt]⟩

/-- The `OneOf` text at the lists `[1, 2]` and `[2, 1, 2]`. -/
theorem int32ValidatorOneOf_text_witness :
    ([2, 1, 2] : List Int) ≠ [] ∧
    Int32ValidatorOneOf [2, 1, 2] =
      some { Imports :=
               [{ Path :=
                    "github.com/hashicorp/terraform-plugin-framework-validators/int32validator" }]
             SchemaDefinition := "int32validator.OneOf(\n2,\n1,\n2,\n)" } ∧
    Int32ValidatorOneOf [1, 2] =
      some { Imports :=
               [{ Path :=
                    "github.com/hashicorp/terraform-plugin-framework-validators/int32validator" }]
             SchemaDefinition := "int32validator.OneOf(\n1,\n2,\n)" } :=
  ⟨by decide, (int32ValidatorOneOf_text [2, 1, 2] (by decide)).1.trans (by decide),
    (int32ValidatorOneOf_text [1, 2] (by decide)).1.trans (by decide)⟩

/-- C27: for all values `a` and `b` (the 64-bit ones among them), `MapValidatorSizeAtLeast(a)`,
`MapValidatorSizeAtMost(a)` and `MapValidatorSizeBetween(a, b)` return descriptors with the
texts `mapvalidator.SizeAtLeast(<a>)`, `mapvalidator.SizeAtMost(<a>)` and
`mapvalidator.SizeBetween(<a>, <b>)`, base-10, each with exactly one import, the one of the
`mapvalidator` package. -/
theorem mapValidator_size_texts (a b : Int) :
    MapValidatorSizeAtLeast a =
      some { Imports := [MapValidatorCodeImport]
             SchemaDefinition := "mapvalidator.SizeAtLeast(" ++ FormatInt a ++ ")" } ∧
    MapValidatorSizeAtMost a =
      some { Imports := [MapValidatorCodeImport]
             SchemaDefinition := "mapvalidator.SizeAtMost(" ++ FormatInt a ++ ")" } ∧
    MapValidatorSizeBetween a b =
      some { Imports := [MapValidatorCodeImport]
             SchemaDefinition :=
               "mapvalidator.SizeBetween(" ++ FormatInt a ++ ", " ++ FormatInt b ++ ")" } ∧
    [MapValidatorCodeImport] =
      [{ Path := "github.com/hashicorp/terraform-plugin-framework-validators/mapvalidator" }] ∧
    parseDecimal (FormatInt a) = some a ∧ parseDecimal (FormatInt b) = some b ∧
    MapValidatorSizeBetween (-9223372036854775808) 9223372036854775807 =
      some { Imports :=
               [{ Path :=
                    "github.com/hashicorp/terraform-plugin-framework-validators/mapvalidator" }]
             SchemaDefinition :=
               "mapvalidator.SizeBetween(-9223372036854775808, 9223372036854775807)" } := by
  refine ⟨?_, ?_, ?_, by decide, parseDecimal_formatInt a, parseDecimal_formatInt b, by decide⟩
  · simp only [MapValidatorSizeAtLeast, MapValidatorPackage, ← String.append_assoc]
    rfl
  · simp only [MapValidatorSizeAtMost, MapValidatorPackage, ← String.append_assoc]
    rfl
  · simp only [MapValidatorSizeBetween, MapValidatorPackage, ← String.append_assoc]
    rfl

/-! ## The provider mapper (C28, C29) -/

theorem generateProviderSchema_schema_fails (m : MapperEnv) (p : ExploredProvider)
    (e : SchemaError)
    (h : m.BuildSchema p.SchemaProxy { Ignores := p.Ignores } {} = .error e) :
    generateProviderSchema m p = (none, some (.schemaError e)) := by
  simp only [generateProviderSchema, h]

theorem generateProviderSchema_attributes_fail (m : MapperEnv) (p : ExploredProvider)
    (s : OASSchema) (e : SchemaError)
    (h : m.BuildSchema p.SchemaProxy { Ignores := p.Ignores } {} = .ok s)
    (ha : m.BuildProviderAttributes s = .error e) :
    generateProviderSchema m p =
      (none, some (.wrapped "error mapping provider schema: " e)) := by
  simp only [generateProviderSchema, h, ha]

theorem generateProviderSchema_ok (m : MapperEnv) (p : ExploredProvider)
    (s : OASSchema) (attributes : List ProviderAttribute)
    (h : m.BuildSchema p.SchemaProxy { Ignores := p.Ignores } {} = .ok s)
    (ha : m.BuildProviderAttributes s = .ok attributes) :
    generateProviderSchema m p = (some { Attributes := m.ToSpec attributes }, none) := by
  simp only [generateProviderSchema, h, ha]

theorem mapToIR_outcomes (m : MapperEnv) (mp : providerMapper) :
    (∃ ir, mp.MapToIR m = (some ir, none) ∧ ir.Name = mp.provider.Name) ∨
    (∃ err, mp.MapToIR m = (none, some err)) := by
  unfold providerMapper.MapToIR
  cases hp : mp.provider.SchemaProxy with
  | none => exact Or.inl ⟨_, rfl, rfl⟩
  | some proxy =>
    simp only
    rcases hg : generateProviderSchema m mp.provider with ⟨sch, _ | err⟩
    · exact Or.inl ⟨_, rfl, rfl⟩
    · exact Or.inr ⟨err, rfl⟩

/-- C28: fail fast with no partial IR: `MapToIR` returns either an IR with the nil error or
the nil IR with an error, never both an IR and an error; when building the schema fails it
returns the nil IR and that `SchemaError` as it is, and when building the attributes fails
it returns the nil IR and an error whose text is `error mapping provider schema: ` followed
by the text of the original error, which it wraps. -/
theorem mapToIR_fail_fast
    (m : MapperEnv) (mp mp1 mp2 : providerMapper) (p1 p2 : SchemaProxy) (s2 : OASSchema)
    (e1 e2 : SchemaError)
    (hp1 : mp1.provider.SchemaProxy = some p1)
    (hs1 : m.BuildSchema (some p1) { Ignores := mp1.provider.Ignores } {} = .error e1)
    (hp2 : mp2.provider.SchemaProxy = some p2)
    (hs2 : m.BuildSchema (some p2) { Ignores := mp2.provider.Ignores } {} = .ok s2)
    (ha2 : m.BuildProviderAttributes s2 = .error e2) :
    (((mp.MapToIR m).1 ≠ none ∧ (mp.MapToIR m).2 = none) ∨
      ((mp.MapToIR m).1 = none ∧ (mp.MapToIR m).2 ≠ none)) ∧
    mp1.MapToIR m = (none, some (.schemaError e1)) ∧
    mp2.MapToIR m = (none, some (.wrapped "error mapping provider schema: " e2)) ∧
    (∃ err, (mp2.MapToIR m).2 = some err ∧
      err.Error m = "error mapping provider schema: " ++ m.errorText e2 ∧
      textStartsWith "error mapping provider schema: " (err.Error m) = true ∧
      err.Unwrap = some e2) := by
  have h1 : mp1.MapToIR m = (none, some (.schemaError e1)) := by
    have hg := generateProviderSchema_schema_fails m mp1.provider e1 (by rw [hp1]; exact hs1)
    simp only [providerMapper.MapToIR, hp1, hg]
  have h2 : mp2.MapToIR m = (none, some (.wrapped "error mapping provider schema: " e2)) := by
    have hg := generateProviderSchema_attributes_fail m mp2.provider s2 e2
      (by rw [hp2]; exact hs2) ha2
    simp only [providerMapper.MapToIR, hp2, hg]
  refine ⟨?_, h1, h2,
    ⟨.wrapped "error mapping provider schema: " e2, by rw [h2], rfl, ?_, rfl⟩⟩
  · rcases mapToIR_outcomes m mp with ⟨ir, h, _⟩ | ⟨err, h⟩
    · exact Or.inl (by simp [h])
    · exact Or.inr (by simp [h])
  · simp [MapperError.Error, textStartsWith, String.data_append]

/-- The failures at a provider whose schema does not build and at one whose attributes do
not build. -/
theorem mapToIR_fail_fast_witness :
    exampleProviderBrokenSchema.provider.SchemaProxy
      = some { Schema := { Description := "broken" } } ∧
    exampleMapperEnv.BuildSchema (some { Schema := { Description := "broken" } })
      { Ignores := exampleProviderBrokenSchema.provider.Ignores } {}
      = .error { err := "cannot build schema", errType := .Other } ∧
    exampleMapperEnv.BuildProviderAttributes
      { Type_ := "object", Schema := { Enum := [{ Kind := ScalarNode, Value := "1" }] } }
      = .error { err := "invalid schema type \x27\x27", errType := .Type_ } ∧
    exampleProviderBrokenSchema.MapToIR exampleMapperEnv =
      (none, some (.schemaError { err := "cannot build schema", errType := .Other })) ∧
    exampleProviderBrokenAttributes.MapToIR exampleMapperEnv =
      (none, some (.wrapped "error mapping provider schema: "
        { err := "invalid schema type \x27\x27", errType := .Type_ })) :=
  have w := mapToIR_fail_fast exampleMapperEnv exampleProviderGood exampleProviderBrokenSchema
    exampleProviderBrokenAttributes { Schema := { Description := "broken" } }
    { Schema := { Enum := [{ Kind := ScalarNode, Value := "1" }] } }
    { Type_ := "object", Schema := { Enum := [{ Kind := ScalarNode, Value := "1" }] } }
    { err := "cannot build schema", errType := .Other }
    { err := "invalid schema type \x27\x27", errType := .Type_ } rfl rfl rfl rfl rfl
  ⟨rfl, rfl, rfl, w.2.1, w.2.2.1⟩

/-- C29: every IR that `MapToIR` returns with the nil error has the name of the explored
provider; when the provider has no schema handle `MapToIR` succeeds with that name and an
absent schema; and when the schema and its attributes build, the schema of the IR holds
exactly the `ToSpec` export of the attributes built. -/
theorem mapToIR_success
    (m : MapperEnv) (mp mp0 mp1 : providerMapper) (ir : ProviderIR) (p1 : SchemaProxy)
    (s1 : OASSchema) (attributes : List ProviderAttribute)
    (hok : mp.MapToIR m = (some ir, none))
    (hp0 : mp0.provider.SchemaProxy = none)
    (hp1 : mp1.provider.SchemaProxy = some p1)
    (hs1 : m.BuildSchema (some p1) { Ignores := mp1.provider.Ignores } {} = .ok s1)
    (ha1 : m.BuildProviderAttributes s1 = .ok attributes) :
    ir.Name = mp.provider.Name ∧
    mp0.MapToIR m = (some { Name := mp0.provider.Name, Schema := none }, none) ∧
    mp1.MapToIR m =
      (some { Name := mp1.provider.Name,
              Schema := some { Attributes := m.ToSpec attributes } }, none) := by
  refine ⟨?_, ?_, ?_⟩
  · rcases mapToIR_outcomes m mp with ⟨ir2, h, hn⟩ | ⟨err, h⟩
    · rw [h] at hok
      simp only [Prod.mk.injEq, Option.some.injEq, and_true] at hok
      rw [← hok]
      exact hn
    · rw [h] at hok
      simp at hok
  · simp only [providerMapper.MapToIR, hp0]
  · have hg := generateProviderSchema_ok m mp1.provider s1 attributes
      (by rw [hp1]; exact hs1) ha1
    simp only [providerMapper.MapToIR, hp1, hg]

/-- The successes at a provider without schema handle and at one whose schema gives one
Int32 attribute named `count`. -/
theorem mapToIR_success_witness :
    exampleProviderNoSchema.provider.SchemaProxy = none ∧
    exampleProviderGood.provider.SchemaProxy = some { Schema := {} } ∧
    exampleProviderNoSchema.MapToIR exampleMapperEnv
      = (some { Name := "example", Schema := none }, none) ∧
    exampleProviderGood.MapToIR exampleMapperEnv =
      (some { Name := "example",
              Schema := some { Attributes :=
                [{ Name := "count",
                   Attribute := .Int32 { Name := "count", OptionalRequired := .Optional } }] } },
        none) :=
  have w := mapToIR_success exampleMapperEnv exampleProviderGood exampleProviderNoSchema
    exampleProviderGood
    { Name := "example",
      Schema := some { Attributes :=
        [{ Name := "count",
           Attribute := .Int32 { Name := "count", OptionalRequired := .Optional } }] } }
    { Schema := {} } { Type_ := "object", Schema := {} }
    [.Int32 { Name := "count", OptionalRequired := .Optional }]
    (by decide) rfl rfl rfl rfl
  ⟨rfl, rfl, w.2.1, w.2.2⟩

/-! ## Fractional bounds (C30) -/

theorem truncate_of_nonneg (q : ℚ) (h : 0 ≤ q) : truncate q = ⌊q⌋ := by
  unfold truncate
  rw [Int.tdiv_eq_ediv (Rat.num_nonneg.mpr h) (Int.natCast_nonneg _), Rat.floor_def]

theorem truncate_of_neg (q : ℚ) (h : q < 0) : truncate q = ⌈q⌉ := by
  have hpos : 0 ≤ -q := by linarith
  have h1 : truncate (-q) = ⌊-q⌋ := truncate_of_nonneg (-q) hpos
  have h2 : truncate q = -truncate (-q) := by
    unfold truncate
    rw [Rat.neg_num, Rat.neg_den, Int.neg_tdiv, neg_neg]
  have h3 : ⌈q⌉ = -⌊-q⌋ := by
    have := Int.ceil_neg (a := -q)
    rwa [neg_neg] at this
  rw [h2, h1, h3]

theorem truncate_eq (q : ℚ) : truncate q = if 0 ≤ q then ⌊q⌋ else ⌈q⌉ := by
  by_cases h : 0 ≤ q
  · rw [if_pos h, truncate_of_nonneg q h]
  · rw [if_neg h, truncate_of_neg q (not_le.mp h)]

/-- C30: fractional bounds are truncated toward zero before rendering: when the minimum
and/or the maximum of an integer schema are finite numbers whose truncation is a 32-bit
value, the bounds validator of `GetIntegerValidators` renders each bound as the base-10
text of its truncation, which is the floor of a bound that is not negative and the ceiling
of a negative one (the fractional part is dropped); with both bounds it is `Between`, with
the minimum alone `AtLeast`, with the maximum alone `AtMost`. -/
theorem getIntegerValidators_truncates_bounds
    (env : Env) (sB sL sM : OASSchema) (q1 q2 q3 q4 : ℚ)
    (hr1 : isInt32 (truncate q1)) (hr2 : isInt32 (truncate q2))
    (hr3 : isInt32 (truncate q3)) (hr4 : isInt32 (truncate q4))
    (hminB : sB.Schema.Minimum = some (.finite q1))
    (hmaxB : sB.Schema.Maximum = some (.finite q2))
    (hminL : sL.Schema.Minimum = some (.finite q3)) (hmaxL : sL.Schema.Maximum = none)
    (hminM : sM.Schema.Minimum = none) (hmaxM : sM.Schema.Maximum = some (.finite q4)) :
    (sB.GetIntegerValidators env).filter Int32Validator.isBounds =
      [{ Custom := some
          { Imports := [{ Path :=
              "github.com/hashicorp/terraform-plugin-framework-validators/int32validator" }]
            SchemaDefinition :=
              "int32validator.Between(" ++ FormatInt (truncate q1) ++ ", "
                ++ FormatInt (truncate q2) ++ ")" } }] ∧
    (sL.GetIntegerValidators env).filter Int32Validator.isBounds =
      [{ Custom := some
          { Imports := [{ Path :=
              "github.com/hashicorp/terraform-plugin-framework-validators/int32validator" }]
            SchemaDefinition := "int32validator.AtLeast(" ++ FormatInt (truncate q3) ++ ")" } }] ∧
    (sM.GetIntegerValidators env).filter Int32Validator.isBounds =
      [{ Custom := some
          { Imports := [{ Path :=
              "github.com/hashicorp/terraform-plugin-framework-validators/int32validator" }]
            SchemaDefinition := "int32validator.AtMost(" ++ FormatInt (truncate q4) ++ ")" } }] ∧
    (∀ q : ℚ, truncate q = if 0 ≤ q then ⌊q⌋ else ⌈q⌉) := by
  refine ⟨?_, ?_, ?_, truncate_eq⟩
  · rw [filter_isBounds_getIntegerValidators]
    simp only [boundsValidators, hminB, hmaxB, int32OfFloat64_of_range env _ hr1,
      int32OfFloat64_of_range env _ hr2, int32ValidatorBetween_eq]
  · rw [filter_isBounds_getIntegerValidators]
    simp only [boundsValidators, hminL, hmaxL, int32OfFloat64_of_range env _ hr3,
      int32ValidatorAtLeast_eq]
  · rw [filter_isBounds_getIntegerValidators]
    simp only [boundsValidators, hminM, hmaxM, int32OfFloat64_of_range env _ hr4,
      int32ValidatorAtMost_eq]

/-- The truncation at the bounds 123.2 and 456.2, at the minimum -1.5 and at the maximum
10.9: `Between(123, 456)`, `AtLeast(-1)` and `AtMost(10)`. -/
theorem getIntegerValidators_truncates_bounds_witness :
    (isInt32 (truncate exampleRat123point2) ∧ isInt32 (truncate exampleRat456point2) ∧
      isInt32 (truncate exampleRatMinus1point5) ∧ isInt32 (truncate exampleRat10point9)) ∧
    (exampleSchemaBothBounds.Schema.Minimum = some (.finite exampleRat123point2) ∧
      exampleSchemaBothBounds.Schema.Maximum = some (.finite exampleRat456point2)) ∧
    (exampleSchemaMinimumFraction.Schema.Minimum = some (.finite exampleRatMinus1point5) ∧
      exampleSchemaMinimumFraction.Schema.Maximum = none) ∧
    (exampleSchemaMaximumFraction.Schema.Minimum = none ∧
      exampleSchemaMaximumFraction.Schema.Maximum = some (.finite exampleRat10point9)) ∧
    (exampleSchemaBothBounds.GetIntegerValidators exampleEnv).filter Int32Validator.isBounds =
      [{ Custom := some
          { Imports := [{ Path :=
              "github.com/hashicorp/terraform-plugin-framework-validators/int32validator" }]
            SchemaDefinition := "int32validator.Between(123, 456)" } }] ∧
    (exampleSchemaMinimumFraction.GetIntegerValidators exampleEnv).filter
        Int32Validator.isBounds =
      [{ Custom := some
          { Imports := [{ Path :=
              "github.com/hashicorp/terraform-plugin-framework-validators/int32validator" }]
            SchemaDefinition := "int32validator.AtLeast(-1)" } }] ∧
    (exampleSchemaMaximumFraction.GetIntegerValidators exampleEnv).filter
        Int32Validator.isBounds =
      [{ Custom := some
          { Imports := [{ Path :=
              "github.com/hashicorp/terraform-plugin-framework-validators/int32validator" }]
            SchemaDefinition := "int32validator.AtMost(10)" } }] :=
  have w := getIntegerValidators_truncates_bounds exampleEnv exampleSchemaBothBounds
    exampleSchemaMinimumFraction exampleSchemaMaximumFraction exampleRat123point2
    exampleRat456point2 exampleRatMinus1point5 exampleRat10point9
    (by decide) (by decide) (by decide) (by decide) rfl rfl rfl rfl rfl rfl
  ⟨⟨by decide, by decide, by decide, by decide⟩, ⟨rfl, rfl⟩, ⟨rfl, rfl⟩, ⟨rfl, rfl⟩,
    w.1.trans (by decide), w.2.1.trans (by decide), w.2.2.1.trans (by decide)⟩

/-! ## Totality of the builders (C31) and the shape of `GetIntegerValidators` (C32) -/

theorem enumValidators_shape (env : Env) (s : OASSchema) :
    enumValidators env s = [] ∨
    ∃ c, enumValidators env s = [{ Custom := some c }] := by
  by_cases h : s.Schema.Enum.filterMap env.decodeInt32 = []
  · exact Or.inl (enumValidators_of_none_decoded env s h)
  · exact Or.inr ⟨_, enumValidators_of_decoded env s h⟩

theorem boundsValidators_shape (env : Env) (s : OASSchema) :
    boundsValidators env s = [] ∨
    ∃ c, boundsValidators env s = [{ Custom := some c }] := by
  unfold boundsValidators
  cases s.Schema.Minimum <;> cases s.Schema.Maximum
  · exact Or.inl rfl
  · exact Or.inr ⟨_, by simp only [int32ValidatorAtMost_eq]; rfl⟩
  · exact Or.inr ⟨_, by simp only [int32ValidatorAtLeast_eq]; rfl⟩
  · exact Or.inr ⟨_, by simp only [int32ValidatorBetween_eq]; rfl⟩

/-- C31: the integer and number builders never fail: for every schema node, name and
computability, `BuildIntegerResource`, `BuildIntegerDataSource` and `BuildIntegerProvider`
return the nil error and an Int32 attribute, `BuildNumberResource`, `BuildNumberDataSource`
and `BuildNumberProvider` return the nil error and a Float64 or a Number attribute, and
`BuildIntegerElementType` and `BuildNumberElementType` return the nil error and an element
type that is not the empty one. -/
theorem integer_and_number_builders_never_fail
    (env : Env) (s : OASSchema) (name : String) (c : ComputedOptionalRequired)
    (o : OptionalRequired) :
    (∃ r, s.BuildIntegerResource env name c = (.Int32 r, none)) ∧
    (∃ r, s.BuildIntegerDataSource env name c = (.Int32 r, none)) ∧
    (∃ r, s.BuildIntegerProvider env name o = (.Int32 r, none)) ∧
    ((s.BuildIntegerElementType).2 = none ∧ (s.BuildIntegerElementType).1 ≠ ElementType.empty) ∧
    ((∃ r, s.BuildNumberResource env name c = (.Float64 r, none)) ∨
      (∃ r, s.BuildNumberResource env name c = (.Number r, none))) ∧
    ((∃ r, s.BuildNumberDataSource env name c = (.Float64 r, none)) ∨
      (∃ r, s.BuildNumberDataSource env name c = (.Number r, none))) ∧
    ((∃ r, s.BuildNumberProvider env name o = (.Float64 r, none)) ∨
      (∃ r, s.BuildNumberProvider env name o = (.Number r, none))) ∧
    ((s.BuildNumberElementType).2 = none ∧ (s.BuildNumberElementType).1 ≠ ElementType.empty) := by
  refine ⟨⟨_, rfl⟩, ⟨_, rfl⟩, ⟨_, rfl⟩, ⟨rfl, ?_⟩, ?_, ?_, ?_, ?_⟩
  · intro h
    have h2 : (some () : Option Unit) = none := congrArg ElementType.Int32 h
    cases h2
  · by_cases h : s.Format = OAS_format_double ∨ s.Format = OAS_format_float
    · exact Or.inl ⟨_, by simp only [OASSchema.BuildNumberResource, if_pos h]; rfl⟩
    · exact Or.inr ⟨_, by simp only [OASSchema.BuildNumberResource, if_neg h]; rfl⟩
  · by_cases h : s.Format = OAS_format_double ∨ s.Format = OAS_format_float
    · exact Or.inl ⟨_, by simp only [OASSchema.BuildNumberDataSource, if_pos h]; rfl⟩
    · exact Or.inr ⟨_, by simp only [OASSchema.BuildNumberDataSource, if_neg h]; rfl⟩
  · by_cases h : s.Format = OAS_format_double ∨ s.Format = OAS_format_float
    · exact Or.inl ⟨_, by simp only [OASSchema.BuildNumberProvider, if_pos h]; rfl⟩
    · exact Or.inr ⟨_, by simp only [OASSchema.BuildNumberProvider, if_neg h]; rfl⟩
  · by_cases h : s.Format = OAS_format_double ∨ s.Format = OAS_format_float
    · simp only [OASSchema.BuildNumberElementType, if_pos h, true_and]
      intro hE
      have h2 : (some () : Option Unit) = none := congrArg ElementType.Float64 hE
      cases h2
    · simp only [OASSchema.BuildNumberElementType, if_neg h, true_and]
      intro hE
      have h2 : (some () : Option Unit) = none := congrArg ElementType.Number hE
      cases h2

/-- C32: for every integer schema, `GetIntegerValidators` returns the empty list, or one
validator that is either a `OneOf` or a bounds validator, or two validators of which the
first is the `OneOf` and the second the bounds validator; so at most two validators, at
most one `OneOf` and at most one bounds validator; and every returned validator has a
descriptor that is not nil. -/
theorem getIntegerValidators_shape (env : Env) (s : OASSchema) :
    (s.GetIntegerValidators env = [] ∨
      (∃ v, s.GetIntegerValidators env = [v] ∧
        ((v.isOneOf = true ∧ v.isBounds = false) ∨ (v.isBounds = true ∧ v.isOneOf = false))) ∨
      (∃ v1 v2, s.GetIntegerValidators env = [v1, v2] ∧
        v1.isOneOf = true ∧ v1.isBounds = false ∧ v2.isBounds = true ∧ v2.isOneOf = false)) ∧
    (s.GetIntegerValidators env).length ≤ 2 ∧
    (s.GetIntegerValidators env).countP Int32Validator.isOneOf ≤ 1 ∧
    (s.GetIntegerValidators env).countP Int32Validator.isBounds ≤ 1 ∧
    (s.GetIntegerValidators env).all (fun v => v.Custom.isSome) = true := by
  have he := enumValidators_kinds env s
  have hb := boundsValidators_kinds env s
  rw [getIntegerValidators_eq_parts]
  rcases enumValidators_shape env s with h1 | ⟨c1, h1⟩ <;>
    rcases boundsValidators_shape env s with h2 | ⟨c2, h2⟩
  · simp [h1, h2]
  · have k := hb _ (by rw [h2]; exact List.mem_singleton.mpr rfl)
    simp [h1, h2, k.1, k.2]
  · have k := he _ (by rw [h1]; exact List.mem_singleton.mpr rfl)
    simp [h1, h2, k.1, k.2]
  · have k1 := he _ (by rw [h1]; exact List.mem_singleton.mpr rfl)
    have k2 := hb _ (by rw [h2]; exact List.mem_singleton.mpr rfl)
    refine ⟨Or.inr (Or.inr ⟨_, _, by rw [h1, h2]; rfl, k1.1, k1.2, k2.2, k2.1⟩), ?_⟩
    simp [h1, h2, k1.1, k1.2, k2.1, k2.2, List.countP_cons]

/-! ## Overrides against merges (C33) -/

/-- C33: an applied override survives later merges exactly when it is not empty: after
`ApplyOverride` with an override whose description is not the empty string, merging any
incoming attribute leaves that description; after an override with the empty description,
merging an incoming Int32 attribute replaces the description by the incoming one; and for
every override, empty or not, applying it a second time to what the first application
returned gives what applying it once gave; for the resource and the data source flavour. -/
theorem override_survives_merge_iff_not_empty
    (a b : ResourceInt32Attribute) (x : ResourceAttribute)
    (da db : DataSourceInt32Attribute) (dx : DataSourceAttribute)
    (o o0 oa : Override) (ho : o.Description ≠ "") (ho0 : o0.Description = "") :
    (∃ r, (a.ApplyOverride o).1.asInt32 = some r ∧
      (r.Merge x).1.asInt32.map (fun t => t.Description) = some (some o.Description) ∧
      r.ApplyOverride o = a.ApplyOverride o) ∧
    (∃ r, (a.ApplyOverride o0).1.asInt32 = some r ∧
      (r.Merge (.Int32 b)).1.asInt32.map (fun t => t.Description) = some b.Description ∧
      r.ApplyOverride o0 = a.ApplyOverride o0) ∧
    (∃ r, (da.ApplyOverride o).1.asInt32 = some r ∧
      (r.Merge dx).1.asInt32.map (fun t => t.Description) = some (some o.Description) ∧
      r.ApplyOverride o = da.ApplyOverride o) ∧
    (∃ r, (da.ApplyOverride o0).1.asInt32 = some r ∧
      (r.Merge (.Int32 db)).1.asInt32.map (fun t => t.Description) = some db.Description ∧
      r.ApplyOverride o0 = da.ApplyOverride o0) ∧
    (∃ r, (a.ApplyOverride oa).1.asInt32 = some r ∧
      r.ApplyOverride oa = a.ApplyOverride oa ∧
      a.ApplyOverride oa = (.Int32 { a with Description := some oa.Description }, none)) ∧
    (∃ r, (da.ApplyOverride oa).1.asInt32 = some r ∧
      r.ApplyOverride oa = da.ApplyOverride oa ∧
      da.ApplyOverride oa = (.Int32 { da with Description := some oa.Description }, none)) := by
  have hm : descriptionMissing (some o.Description) = false := by
    simp [descriptionMissing, ho]
  have hm0 : descriptionMissing (some o0.Description) = true := by
    simp [descriptionMissing, ho0]
  refine ⟨⟨{ a with Description := some o.Description }, rfl, ?_, rfl⟩,
    ⟨{ a with Description := some o0.Description }, rfl, ?_, rfl⟩,
    ⟨{ da with Description := some o.Description }, rfl, ?_, rfl⟩,
    ⟨{ da with Description := some o0.Description }, rfl, ?_, rfl⟩,
    ⟨{ a with Description := some oa.Description }, rfl, rfl, rfl⟩,
    ⟨{ da with Description := some oa.Description }, rfl, rfl, rfl⟩⟩
  · rw [resource_merge_of_populated _ x hm]
    rfl
  · rw [resource_merge_int32]
    simp [ResourceAttribute.asInt32, hm0]
  · rw [dataSource_merge_of_populated _ dx hm]
    rfl
  · rw [dataSource_merge_int32]
    simp [DataSourceAttribute.asInt32, hm0]

/-- The override rule at the overrides `new description` and the empty one, followed by a
merge with the attribute described as `item count`, and the second application of the
empty override. -/
theorem override_survives_merge_iff_not_empty_witness :
    exampleOverride.Description ≠ "" ∧ exampleOverrideEmpty.Description = "" ∧
    (∃ r, (exampleResourceDescribed.ApplyOverride exampleOverride).1.asInt32 = some r ∧
      (r.Merge (.Int32 exampleResourceIncoming)).1.asInt32.map (fun t => t.Description)
        = some (some "new description") ∧
      r.ApplyOverride exampleOverride = exampleResourceDescribed.ApplyOverride exampleOverride) ∧
    (∃ r, (exampleResourceDescribed.ApplyOverride exampleOverrideEmpty).1.asInt32 = some r ∧
      (r.Merge (.Int32 exampleResourceIncoming)).1.asInt32.map (fun t => t.Description)
        = some (some "item count") ∧
      r.ApplyOverride exampleOverrideEmpty
        = exampleResourceDescribed.ApplyOverride exampleOverrideEmpty) ∧
    (∃ r, (exampleDataSourceDescribed.ApplyOverride exampleOverrideEmpty).1.asInt32 = some r ∧
      r.ApplyOverride exampleOverrideEmpty
        = exampleDataSourceDescribed.ApplyOverride exampleOverrideEmpty ∧
      exampleDataSourceDescribed.ApplyOverride exampleOverrideEmpty =
        (.Int32 { Name := "Int32_attribute", ComputedOptionalRequired := .Required,
                  Description := some "" }, none)) :=
  have w := override_survives_merge_iff_not_empty exampleResourceDescribed
    exampleResourceIncoming (.Int32 exampleResourceIncoming) exampleDataSourceDescribed
    exampleDataSourceIncoming (.Int32 exampleDataSourceIncoming) exampleOverride
    exampleOverrideEmpty exampleOverrideEmpty (by decide) rfl
  ⟨by decide, rfl, w.1, w.2.1, w.2.2.2.2.2⟩

/-! ## Defaults and computability (C34), the provider builder (C35) -/

/-- C34: a default that decodes changes the computability only when it was Required: for an
integer schema whose default literal decodes, `BuildIntegerResource` called with Optional,
ComputedOptional or Computed returns that same computability and the static default, with
no validators when it is Computed; and so does the `float`/`double` branch of
`BuildNumberResource`. -/
theorem default_keeps_computability_unless_required
    (env : Env) (s sf : OASSchema) (name : String) (c : ComputedOptionalRequired)
    (node nodef : YamlNode) (v : Int) (vf : Float64)
    (hc : c ≠ .Required)
    (hd : s.Schema.Default = some node) (hv : env.decodeInt32 node = some v)
    (hf : sf.Format = "float" ∨ sf.Format = "double")
    (hdf : sf.Schema.Default = some nodef) (hvf : env.decodeFloat64 nodef = some vf) :
    (∃ r : ResourceInt32Attribute,
      s.BuildIntegerResource env name c = (.Int32 r, none) ∧
      r.ComputedOptionalRequired = c ∧
      r.Default = some { Static := some v } ∧
      r.Validators = if c = .Computed then [] else s.GetIntegerValidators env) ∧
    (∃ r : ResourceFloat64Attribute,
      sf.BuildNumberResource env name c = (.Float64 r, none) ∧
      r.ComputedOptionalRequired = c ∧
      r.Default = some { Static := some vf } ∧
      r.Validators = if c = .Computed then [] else sf.GetFloatValidators env) := by
  have hf2 : sf.Format = OAS_format_double ∨ sf.Format = OAS_format_float :=
    (format_test_iff sf).mpr hf
  constructor
  · refine ⟨_, by simp only [OASSchema.BuildIntegerResource, hd, hv]; rfl, ?_, ?_, ?_⟩ <;>
      cases c <;> simp at hc ⊢
  · refine ⟨_, by simp only [OASSchema.BuildNumberResource, hdf, hvf, if_pos hf2]; rfl,
      ?_, ?_, ?_⟩ <;> cases c <;> simp at hc ⊢

/-- The rule at Computed with default literal `123` and enum-free schemas: the attribute
stays Computed, carries the default and has no validators. -/
theorem default_keeps_computability_unless_required_witness :
    ComputedOptionalRequired.Computed ≠ ComputedOptionalRequired.Required ∧
    exampleSchemaDefault123.Schema.Default = some { Kind := ScalarNode, Value := "123" } ∧
    exampleEnv.decodeInt32 { Kind := ScalarNode, Value := "123" } = some 123 ∧
    exampleSchemaDefault123.BuildIntegerResource exampleEnv "count" .Computed =
      (.Int32 { Name := "count", ComputedOptionalRequired := .Computed,
                Default := some { Static := some 123 }, Validators := [] }, none) ∧
    (∃ r : ResourceFloat64Attribute,
      exampleSchemaDoubleDefault123.BuildNumberResource exampleEnv "count" .Computed
        = (.Float64 r, none) ∧
      r.ComputedOptionalRequired = .Computed ∧
      r.Default = some { Static := some (.finite 123) } ∧
      r.Validators = []) :=
  have w := default_keeps_computability_unless_required exampleEnv exampleSchemaDefault123
    exampleSchemaDoubleDefault123 "count" .Computed { Kind := ScalarNode, Value := "123" }
    { Kind := ScalarNode, Value := "123" } 123 (.finite 123) (by decide) rfl (by decide)
    (Or.inr rfl) rfl (by decide)
  ⟨by decide, rfl, by decide, by decide, w.2⟩

/-- C35: for every integer schema, name and OptionalRequired value, `BuildIntegerProvider`
returns the nil error and the Int32 attribute with the given name, the OptionalRequired
value exactly as passed in whatever the default literal, the description and deprecation
message of the schema, and `GetIntegerValidators` of the schema as validators; the provider
attribute has no default field, and changing or removing the default literal changes
nothing of these validators. -/
theorem build_integer_provider_result
    (env : Env) (s : OASSchema) (name : String) (o : OptionalRequired)
    (default : Option YamlNode) :
    s.BuildIntegerProvider env name o =
      (.Int32
        { Name := name, OptionalRequired := o,
          DeprecationMessage := env.GetDeprecationMessage s,
          Description := env.GetDescription s,
          Validators := s.GetIntegerValidators env }, none) ∧
    (∃ r : ProviderInt32Attribute, (s.BuildIntegerProvider env name o).1.asInt32 = some r ∧
      r.OptionalRequired = o ∧ r.Validators = s.GetIntegerValidators env) ∧
    OASSchema.GetIntegerValidators { s with Schema := { s.Schema with Default := default } } env
      = s.GetIntegerValidators env ∧
    (exampleSchemaDefault123.BuildIntegerProvider exampleEnv "count" .Required).1 =
      .Int32 { Name := "count", OptionalRequired := .Required } :=
  ⟨rfl, ⟨_, rfl, rfl, rfl⟩, rfl, by decide⟩

/-! ## Injectivity of the rendering (C38) -/

theorem isNumberChar_digitChar (k : Nat) (hk : k < 10) :
    isNumberChar (Nat.digitChar k) = true := by
  simp [isNumberChar, digitValue_digitChar k hk]

theorem toDigitsCore_chars (fuel : Nat) :
    ∀ (n : Nat) (ds : List Char), (∀ c ∈ ds, isNumberChar c = true) →
      ∀ c ∈ Nat.toDigitsCore 10 fuel n ds, isNumberChar c = true := by
  induction fuel with
  | zero => intro n ds h c hc; exact h c (by simpa [Nat.toDigitsCore] using hc)
  | succ fuel ih =>
    intro n ds h c hc
    have hd : isNumberChar (Nat.digitChar (n % 10)) = true :=
      isNumberChar_digitChar _ (Nat.mod_lt _ (by decide))
    have hds : ∀ c ∈ Nat.digitChar (n % 10) :: ds, isNumberChar c = true := by
      intro c hc
      rcases List.mem_cons.mp hc with h1 | h1
      · rw [h1]; exact hd
      · exact h c h1
    by_cases h0 : n / 10 = 0
    · simp only [Nat.toDigitsCore, h0, if_true] at hc
      exact hds c hc
    · simp only [Nat.toDigitsCore, h0, if_false] at hc
      exact ih _ _ hds c hc

theorem formatInt_chars (i : Int) : ∀ c ∈ (FormatInt i).data, isNumberChar c = true := by
  have hdig : ∀ c ∈ Nat.toDigits 10 i.natAbs, isNumberChar c = true :=
    toDigitsCore_chars _ _ [] (by simp)
  intro c hc
  unfold FormatInt at hc
  by_cases hneg : i < 0
  · simp only [hneg, if_true, String.data_append, Nat.repr, List.asString] at hc
    rcases List.mem_append.mp hc with h1 | h1
    · have : c = '-' := by simpa using h1
      rw [this]
      decide
    · exact hdig c h1
  · simp only [hneg, if_false, Nat.repr, List.asString] at hc
    exact hdig c hc

theorem formatInt_injective (a b : Int) (h : FormatInt a = FormatInt b) : a = b := by
  have ha := parseDecimal_formatInt a
  rw [h, parseDecimal_formatInt b] at ha
  exact (Option.some.inj ha).symm

theorem number_run_split (X : List Char) :
    ∀ (Y s1 s2 : List Char) (c1 c2 : Char),
      (∀ c ∈ X, isNumberChar c = true) → (∀ c ∈ Y, isNumberChar c = true) →
      isNumberChar c1 = false → isNumberChar c2 = false →
      X ++ c1 :: s1 = Y ++ c2 :: s2 → X = Y ∧ c1 :: s1 = c2 :: s2 := by
  induction X with
  | nil =>
    intro Y s1 s2 c1 c2 _ hY h1 _ h
    cases Y with
    | nil => exact ⟨rfl, by simpa using h⟩
    | cons y Y =>
      simp only [List.nil_append, List.cons_append, List.cons.injEq] at h
      have := hY y (List.mem_cons_self _ _)
      rw [← h.1, h1] at this
      exact absurd this (by decide)
  | cons x X ih =>
    intro Y s1 s2 c1 c2 hX hY h1 h2 h
    cases Y with
    | nil =>
      simp only [List.nil_append, List.cons_append, List.cons.injEq] at h
      have := hX x (List.mem_cons_self _ _)
      rw [h.1, h2] at this
      exact absurd this (by decide)
    | cons y Y =>
      simp only [List.cons_append, List.cons.injEq] at h
      have := ih Y s1 s2 c1 c2 (fun c hc => hX c (List.mem_cons_of_mem _ hc))
        (fun c hc => hY c (List.mem_cons_of_mem _ hc)) h1 h2 h.2
      exact ⟨by rw [h.1, this.1], this.2⟩

theorem string_eq_of_data (s t : String) (h : s.data = t.data) : s = t := by
  cases s; cases t; simp_all

theorem atLeast_text_injective (a b : Int)
    (h : "int32validator.AtLeast(" ++ FormatInt a ++ ")"
      = "int32validator.AtLeast(" ++ FormatInt b ++ ")") : a = b := by
  have hd := congrArg String.data h
  simp only [String.data_append, List.append_assoc] at hd
  have h2 := List.append_cancel_right (List.append_cancel_left hd)
  exact formatInt_injective a b (string_eq_of_data _ _ h2)

theorem atMost_text_injective (a b : Int)
    (h : "int32validator.AtMost(" ++ FormatInt a ++ ")"
      = "int32validator.AtMost(" ++ FormatInt b ++ ")") : a = b := by
  have hd := congrArg String.data h
  simp only [String.data_append, List.append_assoc] at hd
  have h2 := List.append_cancel_right (List.append_cancel_left hd)
  exact formatInt_injective a b (string_eq_of_data _ _ h2)

theorem between_text_injective (a b c d : Int)
    (h : "int32validator.Between(" ++ FormatInt a ++ ", " ++ FormatInt b ++ ")"
      = "int32validator.Between(" ++ FormatInt c ++ ", " ++ FormatInt d ++ ")") :
    a = c ∧ b = d := by
  have hd := congrArg String.data h
  simp only [String.data_append, List.append_assoc] at hd
  have h2 := List.append_cancel_left hd
  simp only [List.cons_append, List.nil_append] at h2
  have h3 := number_run_split _ _ _ _ ',' ',' (formatInt_chars a) (formatInt_chars c)
    (by decide) (by decide) h2
  have h4 : (FormatInt b).data ++ [')'] = (FormatInt d).data ++ [')'] := by
    simpa using h3.2
  exact ⟨formatInt_injective a c (string_eq_of_data _ _ h3.1),
    formatInt_injective b d (string_eq_of_data _ _ (List.append_cancel_right h4))⟩

theorem concatAll_lines_data (v : Int) (vs : List Int) :
    (concatAll ((v :: vs).map (fun v => FormatInt v ++ ",\n"))).data =
      (FormatInt v).data ++
        ',' :: '\n' :: (concatAll (vs.map (fun v => FormatInt v ++ ",\n"))).data := by
  have hsep : (",\n" : String).data = [',', '\n'] := rfl
  simp [concatAll, String.data_append, hsep]

theorem concatAll_lines_injective (xs : List Int) :
    ∀ ys : List Int,
      (concatAll (xs.map (fun v => FormatInt v ++ ",\n"))).data =
        (concatAll (ys.map (fun v => FormatInt v ++ ",\n"))).data → xs = ys := by
  induction xs with
  | nil =>
    intro ys h
    cases ys with
    | nil => rfl
    | cons y ys =>
      rw [concatAll_lines_data] at h
      have hlen := congrArg List.length h
      simp [concatAll] at hlen
      omega
  | cons x xs ih =>
    intro ys h
    cases ys with
    | nil =>
      rw [concatAll_lines_data] at h
      have hlen := congrArg List.length h
      simp [concatAll] at hlen
    | cons y ys =>
      rw [concatAll_lines_data, concatAll_lines_data] at h
      have h3 := number_run_split _ _ _ _ ',' ',' (formatInt_chars x) (formatInt_chars y)
        (by decide) (by decide) h
      have hx := formatInt_injective x y (string_eq_of_data _ _ h3.1)
      have htail : (concatAll (xs.map (fun v => FormatInt v ++ ",\n"))).data =
          (concatAll (ys.map (fun v => FormatInt v ++ ",\n"))).data := by
        simpa using h3.2
      rw [hx, ih ys htail]

theorem oneOfText_injective (xs ys : List Int) (h : oneOfText xs = oneOfText ys) : xs = ys := by
  have hd := congrArg String.data h
  simp only [oneOfText, String.data_append, List.append_assoc] at hd
  exact concatAll_lines_injective xs ys (List.append_cancel_right (List.append_cancel_left hd))

theorem expressionText_atLeast (a : Int) :
    expressionText (Int32ValidatorAtLeast a) =
      some ("int32validator.AtLeast(" ++ FormatInt a ++ ")") := by
  rw [int32ValidatorAtLeast_eq]; rfl

theorem expressionText_atMost (a : Int) :
    expressionText (Int32ValidatorAtMost a) =
      some ("int32validator.AtMost(" ++ FormatInt a ++ ")") := by
  rw [int32ValidatorAtMost_eq]; rfl

theorem expressionText_between (a b : Int) :
    expressionText (Int32ValidatorBetween a b) =
      some ("int32validator.Between(" ++ FormatInt a ++ ", " ++ FormatInt b ++ ")") := by
  rw [int32ValidatorBetween_eq]; rfl

theorem expressionText_oneOf (xs : List Int) :
    expressionText (Int32ValidatorOneOf xs) = if xs = [] then none else some (oneOfText xs) := by
  by_cases h : xs = []
  · rw [if_pos h, h]; rfl
  · rw [if_neg h, int32ValidatorOneOf_of_ne_nil xs h]; rfl

theorem text_starts_differ (t u : String) :
    "int32validator.AtLeast(" ++ t ≠ "int32validator.AtMost(" ++ u ∧
    "int32validator.AtLeast(" ++ t ≠ "int32validator.Between(" ++ u ∧
    "int32validator.AtLeast(" ++ t ≠ "int32validator.OneOf(\n" ++ u ∧
    "int32validator.AtMost(" ++ t ≠ "int32validator.Between(" ++ u ∧
    "int32validator.AtMost(" ++ t ≠ "int32validator.OneOf(\n" ++ u ∧
    "int32validator.Between(" ++ t ≠ "int32validator.OneOf(\n" ++ u := by
  refine ⟨?_, ?_, ?_, ?_, ?_, ?_⟩ <;>
    · intro h
      have hd := congrArg String.data h
      simp [String.data_append] at hd

/-- C38: validator rendering is injective: `Int32ValidatorAtLeast(a)` and
`Int32ValidatorAtLeast(b)` have the same expression text only if `a = b`, likewise for
`Int32ValidatorAtMost`; `Int32ValidatorBetween(a, b)` and `Int32ValidatorBetween(c, d)` have
the same text only if `a = c` and `b = d`; `Int32ValidatorOneOf` of two lists have the same
text (or are both nil) only if the lists are equal; and the texts of `AtLeast`, `AtMost`,
`Between` and `OneOf` never coincide with each other. -/
theorem validator_rendering_injective (a b c d : Int) (xs ys : List Int) :
    (expressionText (Int32ValidatorAtLeast a) = expressionText (Int32ValidatorAtLeast b)
      ↔ a = b) ∧
    (expressionText (Int32ValidatorAtMost a) = expressionText (Int32ValidatorAtMost b)
      ↔ a = b) ∧
    (expressionText (Int32ValidatorBetween a b) = expressionText (Int32ValidatorBetween c d)
      ↔ a = c ∧ b = d) ∧
    (expressionText (Int32ValidatorOneOf xs) = expressionText (Int32ValidatorOneOf ys)
      ↔ xs = ys) ∧
    expressionText (Int32ValidatorAtLeast a) ≠ expressionText (Int32ValidatorAtMost b) ∧
    expressionText (Int32ValidatorAtLeast a) ≠ expressionText (Int32ValidatorBetween c d) ∧
    expressionText (Int32ValidatorAtLeast a) ≠ expressionText (Int32ValidatorOneOf xs) ∧
    expressionText (Int32ValidatorAtMost a) ≠ expressionText (Int32ValidatorBetween c d) ∧
    expressionText (Int32ValidatorAtMost a) ≠ expressionText (Int32ValidatorOneOf xs) ∧
    expressionText (Int32ValidatorBetween a b) ≠ expressionText (Int32ValidatorOneOf xs) := by
  simp only [expressionText_atLeast, expressionText_atMost, expressionText_between,
    expressionText_oneOf]
  refine ⟨⟨fun h => atLeast_text_injective a b (Option.some.inj h), fun h => by rw [h]⟩,
    ⟨fun h => atMost_text_injective a b (Option.some.inj h), fun h => by rw [h]⟩,
    ⟨fun h => between_text_injective a b c d (Option.some.inj h),
      fun h => by rw [h.1, h.2]⟩, ?_, ?_, ?_, ?_, ?_, ?_, ?_⟩
  · constructor
    · intro h
      by_cases hx : xs = [] <;> by_cases hy : ys = []
      · rw [hx, hy]
      · simp [hx, hy] at h
      · simp [hx, hy] at h
      · simp only [hx, hy, if_false] at h
        exact oneOfText_injective xs ys (Option.some.inj h)
    · intro h
      rw [h]
  · intro h
    have h2 := Option.some.inj h
    simp only [String.append_assoc] at h2
    exact (text_starts_differ _ _).1 h2
  · intro h
    have h2 := Option.some.inj h
    simp only [String.append_assoc] at h2
    exact (text_starts_differ _ _).2.1 h2
  · intro h
    by_cases hx : xs = []
    · simp [hx] at h
    · simp only [hx, if_false] at h
      have h2 := Option.some.inj h
      simp only [oneOfText, String.append_assoc] at h2
      exact (text_starts_differ _ _).2.2.1 h2
  · intro h
    have h2 := Option.some.inj h
    simp only [String.append_assoc] at h2
    exact (text_starts_differ _ _).2.2.2.1 h2
  · intro h
    by_cases hx : xs = []
    · simp [hx] at h
    · simp only [hx, if_false] at h
      have h2 := Option.some.inj h
      simp only [oneOfText, String.append_assoc] at h2
      exact (text_starts_differ _ _).2.2.2.2.1 h2
  · intro h
    by_cases hx : xs = []
    · simp [hx] at h
    · simp only [hx, if_false] at h
      have h2 := Option.some.inj h
      simp only [oneOfText, String.append_assoc] at h2
      exact (text_starts_differ _ _).2.2.2.2.2 h2

/-! ## Float validators (C36) and inconsistent bounds (C37) -/

/-- C36: `GetFloatValidators` ignores the numeric bounds: for every number schema the result
is empty or the single validator holding the descriptor that `Float64ValidatorOneOf` gives
for the decodable enum literals in their order, so at most one validator; replacing the
minimum and maximum by any others changes nothing; and with an empty enum the result is
empty whatever the bounds. -/
theorem getFloatValidators_ignores_bounds
    (env : Env) (s : OASSchema) (mn mx : Option Float64) :
    (s.GetFloatValidators env = [] ∨
      ∃ c, env.Float64ValidatorOneOf (s.Schema.Enum.filterMap env.decodeFloat64) = some c ∧
        s.GetFloatValidators env = [{ Custom := some c }]) ∧
    (s.GetFloatValidators env).length ≤ 1 ∧
    OASSchema.GetFloatValidators
        { s with Schema := { s.Schema with Minimum := mn, Maximum := mx } } env
      = s.GetFloatValidators env ∧
    OASSchema.GetFloatValidators
        { s with Schema := { s.Schema with Enum := [], Minimum := mn, Maximum := mx } } env
      = [] := by
  have key : s.GetFloatValidators env = [] ∨
      ∃ c, env.Float64ValidatorOneOf (s.Schema.Enum.filterMap env.decodeFloat64) = some c ∧
        s.GetFloatValidators env = [{ Custom := some c }] := by
    unfold OASSchema.GetFloatValidators
    by_cases hlen : s.Schema.Enum.length > 0
    · simp only [hlen, if_true, decodeEnumFloat64_eq_filterMap]
      cases h : env.Float64ValidatorOneOf (s.Schema.Enum.filterMap env.decodeFloat64) with
      | none => exact Or.inl rfl
      | some c => exact Or.inr ⟨c, rfl, rfl⟩
    · simp only [hlen, if_false]
      exact Or.inl trivial
  refine ⟨key, ?_, rfl, rfl⟩
  rcases key with h | ⟨c, _, h⟩ <;> simp [h]

theorem truncate_mono (q2 q1 : ℚ) (h : q2 ≤ q1) : truncate q2 ≤ truncate q1 := by
  rw [truncate_eq, truncate_eq]
  by_cases h2 : 0 ≤ q2 <;> by_cases h1 : 0 ≤ q1
  · rw [if_pos h2, if_pos h1]
    exact Int.floor_le_floor h
  · exact absurd (le_trans h2 h) h1
  · rw [if_neg h2, if_pos h1]
    have hc : ⌈q2⌉ ≤ 0 := Int.ceil_le.mpr (by push_cast; exact le_of_lt (not_le.mp h2))
    exact le_trans hc (Int.floor_nonneg.mpr h1)
  · rw [if_neg h2, if_neg h1]
    exact Int.ceil_le_ceil h

/-- C37: bounds are not checked for consistency: for every integer schema with both bounds
present, whatever their order and so in particular when the minimum is greater than the
maximum, `GetIntegerValidators` emits after the enum validators the one `Between` descriptor
of the converted minimum followed by the converted maximum; for finite bounds `q2 < q1`
within the 32-bit range the text is `Between` of the truncation of `q1` then that of `q2`,
the larger one first; `Int32ValidatorBetween(a, b)` renders its arguments in the order given
for all `a` and `b`, and swapping them gives the same descriptor only if they are equal;
minimum 10 and maximum 1 give `int32validator.Between(10, 1)`. -/
theorem between_keeps_argument_order (env : Env) (a b : Int)
    (kind format description : String) (deprecated : Option Bool)
    (default : Option YamlNode) (enum : List YamlNode)
    (sg s : OASSchema) (mn mx : Float64) (q1 q2 : ℚ)
    (hming : sg.Schema.Minimum = some mn) (hmaxg : sg.Schema.Maximum = some mx)
    (hmin : s.Schema.Minimum = some (.finite q1)) (hmax : s.Schema.Maximum = some (.finite q2))
    (hgt : q2 < q1) (hr1 : isInt32 (truncate q1)) (hr2 : isInt32 (truncate q2)) :
    expressionText (Int32ValidatorBetween a b) =
      some ("int32validator.Between(" ++ FormatInt a ++ ", " ++ FormatInt b ++ ")") ∧
    (Int32ValidatorBetween a b = Int32ValidatorBetween b a ↔ a = b) ∧
    (OASSchema.GetIntegerValidators
        { Type_ := kind, Format := format,
          Schema := { Description := description, Deprecated := deprecated, Default := default,
                      Enum := enum, Minimum := some (.finite 10), Maximum := some (.finite 1) } }
        env).filter Int32Validator.isBounds =
      [{ Custom := some
          { Imports := [{ Path :=
              "github.com/hashicorp/terraform-plugin-framework-validators/int32validator" }]
            SchemaDefinition := "int32validator.Between(10, 1)" } }] ∧
    exampleSchemaTenToOne.GetIntegerValidators exampleEnv =
      [{ Custom := some
          { Imports := [{ Path :=
              "github.com/hashicorp/terraform-plugin-framework-validators/int32validator" }]
            SchemaDefinition := "int32validator.Between(10, 1)" } }] ∧
    (sg.GetIntegerValidators env).filter Int32Validator.isBounds =
      [{ Custom := Int32ValidatorBetween (int32OfFloat64 env mn) (int32OfFloat64 env mx) }] ∧
    sg.GetIntegerValidators env = enumValidators env sg ++
      [{ Custom := Int32ValidatorBetween (int32OfFloat64 env mn) (int32OfFloat64 env mx) }] ∧
    expressionText (Int32ValidatorBetween (int32OfFloat64 env mn) (int32OfFloat64 env mx)) =
      some ("int32validator.Between(" ++ FormatInt (int32OfFloat64 env mn) ++ ", "
        ++ FormatInt (int32OfFloat64 env mx) ++ ")") ∧
    (s.GetIntegerValidators env).filter Int32Validator.isBounds =
      [{ Custom := some
          { Imports := [{ Path :=
              "github.com/hashicorp/terraform-plugin-framework-validators/int32validator" }]
            SchemaDefinition :=
              "int32validator.Between(" ++ FormatInt (truncate q1) ++ ", "
                ++ FormatInt (truncate q2) ++ ")" } }] ∧
    truncate q2 ≤ truncate q1 := by
  have hbg : boundsValidators env sg =
      [{ Custom := Int32ValidatorBetween (int32OfFloat64 env mn) (int32OfFloat64 env mx) }] := by
    simp only [boundsValidators, hming, hmaxg]
  refine ⟨expressionText_between a b, ⟨?_, fun h => by rw [h]⟩, ?_, by decide, ?_, ?_,
    expressionText_between _ _, ?_, truncate_mono q2 q1 (le_of_lt hgt)⟩
  · intro h
    have h2 := congrArg expressionText h
    rw [expressionText_between, expressionText_between] at h2
    exact (between_text_injective a b b a (Option.some.inj h2)).1
  · rw [filter_isBounds_getIntegerValidators]
    have h1 : int32OfFloat64 env (.finite 1) = 1 :=
      (int32OfFloat64_of_range env 1 (by decide)).trans (by decide)
    have h10 : int32OfFloat64 env (.finite 10) = 10 :=
      (int32OfFloat64_of_range env 10 (by decide)).trans (by decide)
    simp only [boundsValidators, h1, h10]
    decide
  · rw [filter_isBounds_getIntegerValidators, hbg]
  · rw [getIntegerValidators_eq_parts, hbg]
  · rw [filter_isBounds_getIntegerValidators]
    simp only [boundsValidators, hmin, hmax, int32OfFloat64_of_range env _ hr1,
      int32OfFloat64_of_range env _ hr2, int32ValidatorBetween_eq]

/-- The rule at minimum 10 with maximum 1 and at minimum 20.5 with maximum 5 and an enum:
`Between(10, 1)` and, after the `OneOf`, `Between(20, 5)`. -/
theorem between_keeps_argument_order_witness :
    (exampleSchemaTenToOne.Schema.Minimum = some (.finite 10) ∧
      exampleSchemaTenToOne.Schema.Maximum = some (.finite 1)) ∧
    (exampleSchemaTwentyToFive.Schema.Minimum = some (.finite exampleRat20point5) ∧
      exampleSchemaTwentyToFive.Schema.Maximum = some (.finite 5)) ∧
    ((5 : ℚ) < exampleRat20point5 ∧ isInt32 (truncate exampleRat20point5) ∧
      isInt32 (truncate 5)) ∧
    (exampleSchemaTenToOne.GetIntegerValidators exampleEnv).filter Int32Validator.isBounds =
      [{ Custom := some
          { Imports := [{ Path :=
              "github.com/hashicorp/terraform-plugin-framework-validators/int32validator" }]
            SchemaDefinition := "int32validator.Between(10, 1)" } }] ∧
    (exampleSchemaTwentyToFive.GetIntegerValidators exampleEnv).filter Int32Validator.isBounds =
      [{ Custom := some
          { Imports := [{ Path :=
              "github.com/hashicorp/terraform-plugin-framework-validators/int32validator" }]
            SchemaDefinition := "int32validator.Between(20, 5)" } }] ∧
    exampleSchemaTwentyToFive.GetIntegerValidators exampleEnv =
      [{ Custom := some
          { Imports := [{ Path :=
              "github.com/hashicorp/terraform-plugin-framework-validators/int32validator" }]
            SchemaDefinition := "int32validator.OneOf(\n7,\n)" } },
       { Custom := some
          { Imports := [{ Path :=
              "github.com/hashicorp/terraform-plugin-framework-validators/int32validator" }]
            SchemaDefinition := "int32validator.Between(20, 5)" } }] :=
  have w := between_keeps_argument_order exampleEnv 10 1 "integer" "" "" none none []
    exampleSchemaTenToOne exampleSchemaTwentyToFive (.finite 10) (.finite 1)
    exampleRat20point5 5 rfl rfl rfl rfl (by decide) (by decide) (by decide)
  ⟨⟨rfl, rfl⟩, ⟨rfl, rfl⟩, ⟨by decide, by decide, by decide⟩,
    w.2.2.2.2.1.trans (by decide), w.2.2.2.2.2.2.2.1.trans (by decide), by decide⟩

/-! ## Resource and data source flavours (C39) -/

theorem resource_merge_error (a : ResourceInt32Attribute) (x : ResourceAttribute) :
    (a.Merge x).2 = none := by
  unfold ResourceInt32Attribute.Merge
  cases x.asInt32 with
  | none => rfl
  | some b => by_cases h : descriptionMissing a.Description = true <;> simp [h]

theorem dataSource_merge_error (a : DataSourceInt32Attribute) (x : DataSourceAttribute) :
    (a.Merge x).2 = none := by
  unfold DataSourceInt32Attribute.Merge
  cases x.asInt32 with
  | none => rfl
  | some b => by_cases h : descriptionMissing a.Description = true <;> simp [h]

theorem resource_merge_description (a : ResourceInt32Attribute) (x : ResourceAttribute) :
    (a.Merge x).1.asInt32.map (fun t => t.Description) =
      some (match x.asInt32.map (fun t => t.Description) with
        | some d => if descriptionMissing a.Description then d else a.Description
        | none => a.Description) := by
  unfold ResourceInt32Attribute.Merge
  cases x.asInt32 with
  | none => rfl
  | some b =>
    by_cases h : descriptionMissing a.Description = true <;>
      simp [h, ResourceAttribute.asInt32]

theorem dataSource_merge_description (a : DataSourceInt32Attribute)
    (x : DataSourceAttribute) :
    (a.Merge x).1.asInt32.map (fun t => t.Description) =
      some (match x.asInt32.map (fun t => t.Description) with
        | some d => if descriptionMissing a.Description then d else a.Description
        | none => a.Description) := by
  unfold DataSourceInt32Attribute.Merge
  cases x.asInt32 with
  | none => rfl
  | some b =>
    by_cases h : descriptionMissing a.Description = true <;>
      simp [h, DataSourceAttribute.asInt32]

/-- C39: the resource and data source flavours agree: for an integer schema without default
literal, every name and every computability, `BuildIntegerResource` and
`BuildIntegerDataSource` return Int32 attributes with equal Name, computability,
Description, DeprecationMessage and Validators; and for targets with the same description
and incoming attributes that are both Int32 with the same description, or both of another
kind, the two `Merge` methods return attributes with the same description. -/
theorem resource_and_dataSource_agree
    (env : Env) (s : OASSchema) (name : String) (c : ComputedOptionalRequired)
    (a : ResourceInt32Attribute) (x : ResourceAttribute)
    (da : DataSourceInt32Attribute) (dx : DataSourceAttribute)
    (hd : s.Schema.Default = none)
    (ht : a.Description = da.Description)
    (hx : x.asInt32.map (fun t => t.Description) = dx.asInt32.map (fun t => t.Description)) :
    (∃ (r : ResourceInt32Attribute) (dr : DataSourceInt32Attribute),
      s.BuildIntegerResource env name c = (.Int32 r, none) ∧
      s.BuildIntegerDataSource env name c = (.Int32 dr, none) ∧
      r.Name = dr.Name ∧ r.ComputedOptionalRequired = dr.ComputedOptionalRequired ∧
      r.Description = dr.Description ∧ r.DeprecationMessage = dr.DeprecationMessage ∧
      r.Validators = dr.Validators ∧ r.Default = none) ∧
    (a.Merge x).1.asInt32.map (fun t => t.Description) =
      (da.Merge dx).1.asInt32.map (fun t => t.Description) ∧
    (a.Merge x).2 = (da.Merge dx).2 := by
  refine ⟨⟨_, _, by simp only [OASSchema.BuildIntegerResource, hd]; rfl, rfl, ?_, ?_, ?_, ?_,
    ?_, ?_⟩, ?_, ?_⟩
  · cases c <;> simp
  · cases c <;> simp
  · cases c <;> simp
  · cases c <;> simp
  · cases c <;> simp
  · cases c <;> simp
  · rw [resource_merge_description, dataSource_merge_description, hx, ht]
  · rw [resource_merge_error, dataSource_merge_error]

/-- The agreement at the plain integer schema with enum `1`, `2` and at the merge of the
targets without description with the attributes described as `item count`. -/
theorem resource_and_dataSource_agree_witness :
    exampleSchemaEnum.Schema.Default = none ∧
    exampleResourceTarget.Description = exampleDataSourceTarget.Description ∧
    (ResourceAttribute.Int32 exampleResourceIncoming).asInt32.map (fun t => t.Description) =
      (DataSourceAttribute.Int32 exampleDataSourceIncoming).asInt32.map
        (fun t => t.Description) ∧
    (exampleResourceTarget.Merge (.Int32 exampleResourceIncoming)).1.asInt32.map
        (fun t => t.Description) =
      (exampleDataSourceTarget.Merge (.Int32 exampleDataSourceIncoming)).1.asInt32.map
        (fun t => t.Description) ∧
    (exampleResourceTarget.Merge (.Int32 exampleResourceIncoming)).1.asInt32.map
        (fun t => t.Description) = some (some "item count") :=
  have w := resource_and_dataSource_agree exampleEnv exampleSchemaEnum "count" .Required
    exampleResourceTarget (.Int32 exampleResourceIncoming) exampleDataSourceTarget
    (.Int32 exampleDataSourceIncoming) rfl rfl rfl
  ⟨rfl, rfl, rfl, w.2.1, by decide⟩

end Codegen
